import Mathlib

/-!
# Sahayta: offline-first workflow synchronisation

A shallow embedding of the parts of the Sahayta repository that move workflow
progress and submissions between the device and the backend:

* `backend/src/routes/sync.js`: the bulk sync endpoint, the retry route and the
  per-item helpers,
* `backend/src/routes/workflows.js`: the direct submission and step-update routes,
* `backend/src/models/index.js`: the constraints declared on the tables,
* `app/store/slices/workflowSlice.js`: the client workflow reducer,
* `app/screens/WorkflowStepperScreen.js`: the handlers that drive the reducer,
* `app/api/workflowService.js`: `validateStepData`.

Asynchronous code is embedded as explicit state passing. Everything the
environment decides (the clock, the random source, generated UUIDs, whether the
database accepts a statement) is an explicit argument.
-/

namespace Sahayta

/-! ## Backend data model (`backend/src/models/index.js`) -/

deriving instance DecidableEq for Except

/-- A property read from a request body: absent, JSON `null`, or a value. -/
inductive JsField (α : Type) where
  | undefined : JsField α
  | null : JsField α
  | value (a : α) : JsField α
deriving DecidableEq, Repr

/-- A row of the `Workflow` table. `workflow_data` is the JSONB payload kept as
JSON text, `reference_number` is the nullable column declared `unique: true`. -/
structure WorkflowRow where
  id : String
  user_id : String
  workflow_type : String
  workflow_data : String
  current_step : Int
  status : String
  reference_number : Option String
  completed_at : Option Nat
deriving DecidableEq, Repr

/-- A row of the `User` table: the primary key and the remaining columns. -/
structure User where
  id : String
  attrs : List (String × String)
deriving DecidableEq, Repr

/-- The `data` object of a sync item. `workflowId` and `workflowData` are the two
properties `processWorkflowSubmission` destructures; `profile` holds the
properties that are columns of `User` other than the primary key, which is what
`user.update` takes from the object it is handed. -/
structure SyncData where
  workflowId : JsField String
  workflowData : JsField String
  profile : List (String × String)
deriving DecidableEq, Repr

/-- One element of the `items` array: `{ id, type, data, timestamp }`. A missing
property is `none`; `data = none` stands for `undefined` or `null`, the two
values a destructuring pattern cannot be applied to. -/
structure SyncItem where
  id : Option String
  type : Option String
  data : Option SyncData
  timestamp : Option String
deriving DecidableEq, Repr

/-- A row of the `SyncQueue` table; `data` is the sync item the bulk sync
endpoint stored. -/
structure QueueRow where
  id : String
  user_id : String
  data : SyncItem
  endpoint : String
  method : String
  status : String
  synced_at : Option Nat
  error_message : Option String
deriving DecidableEq, Repr

/-- A row of the `Log` table as written by the routes. -/
structure LogRow where
  user_id : String
  feature : String
  action : String
  message : String
deriving DecidableEq, Repr

/-- The remote store: the four tables the routes read and write. -/
structure Db where
  users : List User
  workflows : List WorkflowRow
  syncQueue : List QueueRow
  logs : List LogRow
deriving DecidableEq, Repr

/-- What the environment answers while one item (or one request) is handled. -/
structure ItemEnv where
  /-- The value of `Date.now()`. -/
  now : Nat
  /-- The value of `Math.random().toString(36)`. -/
  random36 : String
  /-- The UUIDv4 default generated for a created `Workflow` row. -/
  uuid : String
  /-- The UUIDv4 default generated for a created `SyncQueue` row. -/
  queueUuid : String
  /-- An error with which the database rejects the insert of `Workflow.create`
  before any constraint is looked at (for instance a lost connection). -/
  workflowFault : Option String
  /-- An error thrown by `User.findByPk`. -/
  findFault : Option String
  /-- An error thrown by `user.update` (validation or database). -/
  updateFault : Option String
  /-- An error thrown by `SyncQueue.create`. -/
  queueFault : Option String
  /-- An error thrown by `queueItem.update` in the retry route. -/
  queueUpdateFault : Option String
deriving DecidableEq, Repr

/-- The `status` of a per-item result: `'success'` or `'failed'`. -/
inductive Status where
  | success
  | failed
deriving DecidableEq, Repr

/-- A per-item result object `{ localId, status, serverId?, referenceNumber?, error? }`. -/
structure SyncResult where
  localId : Option String
  status : Status
  serverId : Option String
  referenceNumber : Option String
  error : Option String
deriving DecidableEq, Repr

/-! ## Reference numbers -/

/-- The JavaScript `s.slice(-n)` on the characters of a string: the last `n`
characters, or the whole string when it is shorter. -/
def sliceLast (n : Nat) (cs : List Char) : List Char :=
  cs.drop (cs.length - n)

/-- The JavaScript `s.substr(start, len)` for non-negative arguments. -/
def substr (start len : Nat) (cs : List Char) : List Char :=
  (cs.drop start).take len

/-- The JavaScript `toUpperCase` on the alphabet of `toString(36)` (ASCII). -/
def toUpperCase (cs : List Char) : List Char :=
  cs.map Char.toUpper

/-- The template of `sync.js:249` and `workflows.js:240`:
`REF` + `Date.now().toString().slice(-6)` +
`Math.random().toString(36).substr(2, 3).toUpperCase()`. -/
def referenceNumber (now : Nat) (random36 : String) : String :=
  String.mk (['R', 'E', 'F'] ++ sliceLast 6 (Nat.repr now).data
    ++ toUpperCase (substr 2 3 random36.data))

/-- Whole-string match of the regular expression `REF\d{6}[A-Z0-9]{3}`. -/
def matchesRefFormat (s : String) : Bool :=
  match s.data with
  | 'R' :: 'E' :: 'F' :: rest =>
    rest.length == 9 && (rest.take 6).all Char.isDigit
      && (rest.drop 6).all (fun c => c.isUpper || c.isDigit)
  | _ => false

/-! ## Table operations -/

/-- The attributes handed to `Workflow.create`. -/
structure WorkflowAttrs where
  user_id : String
  workflow_type : JsField String
  workflow_data : JsField String
  current_step : Int
  status : String
  reference_number : Option String
  completed_at : Option Nat
deriving DecidableEq, Repr

/-- The constraints of the `Workflow` model as `Workflow.create` meets them.
Before the insert the model validates `allowNull: false` on `workflow_type` and
on `workflow_data` (whose default is `{}`); the insert is then subject to the
primary key `id`, to `unique: true` on `reference_number` and to the reference
from `user_id` to `User`. On success the row is appended. -/
def Workflow.create (db : Db) (env : ItemEnv) (a : WorkflowAttrs) :
    Except String (WorkflowRow × Db) :=
  match a.workflow_type with
  | .undefined => .error "notNull Violation: Workflow.workflow_type cannot be null"
  | .null => .error "notNull Violation: Workflow.workflow_type cannot be null"
  | .value wtype =>
    match a.workflow_data with
    | .null => .error "notNull Violation: Workflow.workflow_data cannot be null"
    | wdata =>
      match env.workflowFault with
      | some e => .error e
      | none =>
        if db.workflows.any (fun w => w.id == env.uuid) then
          .error "Validation error"
        else if a.reference_number.isSome
            && db.workflows.any (fun w => w.reference_number == a.reference_number) then
          .error "Validation error"
        else if !db.users.any (fun u => u.id == a.user_id) then
          .error "insert or update on table \"Workflows\" violates foreign key constraint"
        else
          let row : WorkflowRow :=
            { id := env.uuid
              user_id := a.user_id
              workflow_type := wtype
              workflow_data := match wdata with
                | .value d => d
                | _ => "\x7b\x7d"
              current_step := a.current_step
              status := a.status
              reference_number := a.reference_number
              completed_at := a.completed_at }
          .ok (row, { db with workflows := db.workflows ++ [row] })

/-- The call `SyncQueue.create`: `id` is the primary key and `user_id` references
`User`. -/
def SyncQueue.create (db : Db) (fault : Option String) (row : QueueRow) : Except String Db :=
  match fault with
  | some e => .error e
  | none =>
    if db.syncQueue.any (fun q => q.id == row.id) then
      .error "Validation error"
    else if !db.users.any (fun u => u.id == row.user_id) then
      .error "insert or update on table \"SyncQueues\" violates foreign key constraint"
    else
      .ok { db with syncQueue := db.syncQueue ++ [row] }

/-- The call `queueItem.update(values)` on a row of `SyncQueue`: the row with
that primary key is rewritten. -/
def SyncQueue.update (db : Db) (fault : Option String) (id : String)
    (change : QueueRow → QueueRow) : Except String Db :=
  match fault with
  | some e => .error e
  | none =>
    .ok { db with syncQueue := db.syncQueue.map (fun q => if q.id == id then change q else q) }

/-- The routes' `Log.create` call. -/
def Log.create (db : Db) (fault : Option String) (row : LogRow) : Except String Db :=
  match fault with
  | some e => .error e
  | none =>
    if !db.users.any (fun u => u.id == row.user_id) then
      .error "insert or update on table \"Logs\" violates foreign key constraint"
    else
      .ok { db with logs := db.logs ++ [row] }

/-- The call `User.findByPk(userId)`: the row with that primary key, if any. -/
def User.findByPk (db : Db) (fault : Option String) (userId : String) :
    Except String (Option User) :=
  match fault with
  | some e => .error e
  | none => .ok (db.users.find? (fun u => u.id == userId))

/-- The object literal spread `{ ...base, ...update }` on own properties: a key
already present keeps its place and takes the new value, a new key is appended.
It is also how a partial update is merged into the columns of a row. -/
def spread {α : Type} (base : List (String × α)) : List (String × α) → List (String × α)
  | [] => base
  | (k, v) :: rest =>
    if base.any (fun p => p.1 == k) then
      spread (base.map (fun p => if p.1 == k then (k, v) else p)) rest
    else
      spread (base ++ [(k, v)]) rest

/-- The call `user.update(data)` on a row that was found: the environment may
reject it; otherwise the partial update is merged into the stored row. -/
def User.update (db : Db) (fault : Option String) (user : User)
    (data : List (String × String)) : Except String (User × Db) :=
  match fault with
  | some e => .error e
  | none =>
    let user1 : User := { user with attrs := spread user.attrs data }
    .ok (user1, { db with users := db.users.map (fun u => if u.id == user.id then user1 else u) })

/-! ## Per-item helpers (`backend/src/routes/sync.js:244-321`) -/

/-- The function `processWorkflowSubmission(userId, data, localId)`. -/
def processWorkflowSubmission (db : Db) (env : ItemEnv) (userId : String)
    (data : Option SyncData) (localId : Option String) : Db × SyncResult :=
  match data with
  | none =>
    (db, { localId := localId, status := .failed, serverId := none, referenceNumber := none
           error := some "Cannot destructure property 'workflowId' of 'data' as it is undefined." })
  | some d =>
    let ref := referenceNumber env.now env.random36
    match Workflow.create db env
        { user_id := userId
          workflow_type := d.workflowId
          workflow_data := d.workflowData
          current_step := 0
          status := "completed"
          reference_number := some ref
          completed_at := some env.now } with
    | .ok (workflow, db1) =>
      (db1, { localId := localId, status := .success, serverId := some workflow.id
              referenceNumber := some ref, error := none })
    | .error e =>
      (db, { localId := localId, status := .failed, serverId := none, referenceNumber := none
             error := some e })

/-- The function `processProfileUpdate(userId, data, localId)`. -/
def processProfileUpdate (db : Db) (env : ItemEnv) (userId : String)
    (data : Option SyncData) (localId : Option String) : Db × SyncResult :=
  let failed (e : String) : SyncResult :=
    { localId := localId, status := .failed, serverId := none, referenceNumber := none
      error := some e }
  match User.findByPk db env.findFault userId with
  | .error e => (db, failed e)
  | .ok none => (db, failed "User not found")
  | .ok (some user) =>
    match User.update db env.updateFault user
        (match data with
          | some d => d.profile
          | none => []) with
    | .error e => (db, failed e)
    | .ok (user1, db1) =>
      (db1, { localId := localId, status := .success, serverId := some user1.id
              referenceNumber := none, error := none })

/-- The function `processDocumentUpload(userId, data, localId)`: a mock that
acknowledges with the server id `doc_` followed by `Date.now()`. -/
def processDocumentUpload (db : Db) (env : ItemEnv) (_userId : String)
    (_data : Option SyncData) (localId : Option String) : Db × SyncResult :=
  (db, { localId := localId, status := .success, serverId := some ("doc_" ++ Nat.repr env.now)
         referenceNumber := none, error := none })

/-! ## The bulk sync endpoint (`backend/src/routes/sync.js:9-124`) -/

/-- The mutable locals of the handler together with the store. -/
structure Acc where
  db : Db
  results : List SyncResult
  successful : Nat
  failed : Nat
deriving DecidableEq, Repr

/-- The `switch (type)` of lines 39-54. -/
def dispatchItem (db : Db) (env : ItemEnv) (userId : String) (item : SyncItem) :
    Db × SyncResult :=
  if item.type = some "workflow_submission" then
    processWorkflowSubmission db env userId item.data item.id
  else if item.type = some "profile_update" then
    processProfileUpdate db env userId item.data item.id
  else if item.type = some "document_upload" then
    processDocumentUpload db env userId item.data item.id
  else
    (db, { localId := item.id, status := .failed, serverId := none, referenceNumber := none
           error := some "Unknown sync item type" })

/-- The `try` block of one loop iteration (lines 29-73). It returns the locals as
they stand when the block is left and the error that left it, if any. An entry
that is `null` makes the destructuring of line 30 throw. -/
def tryBlock (userId : String) (acc : Acc) (entry : Option SyncItem) (env : ItemEnv) :
    Acc × Option String :=
  match entry with
  | none => (acc, some "Cannot destructure property 'id' of 'item' as it is null.")
  | some item =>
    let (db1, result) := dispatchItem acc.db env userId item
    if result.status = .success then
      ({ acc with db := db1, successful := acc.successful + 1
                  results := acc.results ++ [result] }, none)
    else
      match SyncQueue.create db1 env.queueFault
          { id := env.queueUuid, user_id := userId, data := item, endpoint := "/api/v1/sync"
            method := "POST", status := "failed", synced_at := none
            error_message := result.error } with
      | .error e => ({ acc with db := db1, failed := acc.failed + 1 }, some e)
      | .ok db2 =>
        ({ acc with db := db2, failed := acc.failed + 1
                    results := acc.results ++ [result] }, none)

/-- The `catch` block of one loop iteration (lines 74-83): `failed++`, then a
result built from `item.id`, which throws when the entry is `null`. -/
def catchBlock (acc : Acc) (entry : Option SyncItem) (message : String) : Except String Acc :=
  match entry with
  | none => .error "Cannot read properties of null (reading 'id')"
  | some item =>
    .ok { acc with
          failed := acc.failed + 1
          results := acc.results ++
            [{ localId := item.id, status := .failed, serverId := none
               referenceNumber := none, error := some message }] }

/-- One loop iteration: the `try` block and, when an error left it, the `catch`
block. An error that leaves the `catch` block is returned with the locals as
they stood when the `try` block was left. -/
def iteration (userId : String) (acc : Acc) (entry : Option SyncItem) (env : ItemEnv) :
    Except (Acc × String) Acc :=
  match tryBlock userId acc entry env with
  | (acc1, none) => .ok acc1
  | (acc1, some message) =>
    match catchBlock acc1 entry message with
    | .ok acc2 => .ok acc2
    | .error e => .error (acc1, e)

/-- The loop `for (const item of items)` of lines 28-84. Each entry comes with
what the environment answers while it is processed. An error that leaves an
iteration leaves the loop. -/
def forItems (userId : String) : Acc → List (Option SyncItem × ItemEnv) → Acc × Option String
  | acc, [] => (acc, none)
  | acc, (entry, env) :: rest =>
    match iteration userId acc entry env with
    | .ok acc1 => forItems userId acc1 rest
    | .error (acc1, e) => (acc1, some e)

/-- The `data` object of the endpoint's response. -/
structure SyncResponse where
  processed : Nat
  successful : Nat
  failed : Nat
  results : List SyncResult
  syncTime : Nat
deriving DecidableEq, Repr

/-- What a route handler does with the request: answer with the JSON body of a
normal response, answer with an error status (`res.status(..).json(..)`), or
hand an error to `next`. -/
inductive Reply (α : Type) where
  | json (body : α) : Reply α
  | status (http : Nat) (code message : String) : Reply α
  | next (error : String) : Reply α
deriving DecidableEq, Repr

/-- The handler of `router.post('/')` in `sync.js`. `items = none` stands for a
body whose `items` is missing or not an array. -/
def postSync (userId : String) (db : Db) (items : Option (List (Option SyncItem × ItemEnv)))
    (logFault : Option String) (syncTime : Nat) : Db × Reply SyncResponse :=
  match items with
  | none => (db, .status 400 "INVALID_SYNC_DATA" "Items array is required")
  | some items =>
    match forItems userId { db := db, results := [], successful := 0, failed := 0 } items with
    | (acc, some e) => (acc.db, .next e)
    | (acc, none) =>
      match Log.create acc.db logFault
          { user_id := userId, feature := "sync", action := "bulk_sync"
            message := "Bulk sync completed: " ++ Nat.repr acc.successful ++ " successful, "
              ++ Nat.repr acc.failed ++ " failed" } with
      | .error e => (acc.db, .next e)
      | .ok db1 =>
        (db1, .json { processed := items.length, successful := acc.successful
                      failed := acc.failed, results := acc.results, syncTime := syncTime })

/-! ## Direct submission and step update (`backend/src/routes/workflows.js`) -/

/-- The table `workflowDefinitions`, reduced to what the submit route reads of
it: the identifier and `steps.length`. -/
def workflowDefinitions : List (String × Nat) :=
  [("aadhaar-application", 6), ("pan-application", 4)]

/-- Property names every object literal inherits from `Object.prototype`: looked
up in `workflowDefinitions` they yield a truthy value that has no `steps`. -/
def inheritedNames : List String :=
  ["constructor", "__proto__", "hasOwnProperty", "isPrototypeOf", "propertyIsEnumerable",
   "toLocaleString", "toString", "valueOf", "__defineGetter__", "__defineSetter__",
   "__lookupGetter__", "__lookupSetter__"]

/-- The `data` object of the submit route's response (the fields that depend on
the request). -/
structure SubmitResponse where
  submissionId : String
  workflowId : String
  status : String
  referenceNumber : String
deriving DecidableEq, Repr

/-- The handler of `router.post('/submit')`. A `data` that is falsy is passed as
`undefined` or `null`; a `value` is the JSON text of a truthy body. -/
def postSubmit (userId : String) (db : Db) (env : ItemEnv) (workflowId : JsField String)
    (data : JsField String) (logFault : Option String) : Db × Reply SubmitResponse :=
  match workflowId, data with
  | .value wid, .value d =>
    if wid = "" then (db, .status 400 "MISSING_DATA" "Workflow ID and data are required")
    else
      match workflowDefinitions.lookup wid with
      | none =>
        if wid ∈ inheritedNames then
          (db, .next "Cannot read properties of undefined (reading 'length')")
        else (db, .status 400 "INVALID_WORKFLOW" "Invalid workflow ID")
      | some stepCount =>
        let ref := referenceNumber env.now env.random36
        match Workflow.create db env
            { user_id := userId
              workflow_type := .value wid
              workflow_data := .value d
              current_step := stepCount
              status := "completed"
              reference_number := some ref
              completed_at := some env.now } with
        | .error e => (db, .next e)
        | .ok (workflow, db1) =>
          match Log.create db1 logFault
              { user_id := userId, feature := "workflow", action := "submit"
                message := "Workflow " ++ wid ++ " submitted successfully" } with
          | .error e => (db1, .next e)
          | .ok db2 =>
            (db2, .json { submissionId := workflow.id, workflowId := wid
                          status := "submitted", referenceNumber := ref })
  | _, _ => (db, .status 400 "MISSING_DATA" "Workflow ID and data are required")

/-- The handler of `router.put('/:workflowId/step')` for a body that carries an
integer `currentStep`: `mergedData` is the JSON text of
`{ ...workflow.workflow_data, ...stepData }`, `findFault` an error thrown by
`Workflow.findOne` (for instance an id that is not a UUID), `updateFault` an
error thrown by `workflow.update`. Only `workflow_data`, `current_step` and
`status` are written. -/
def putStep (userId : String) (db : Db) (workflowId mergedData : String)
    (currentStep : Int) (findFault updateFault : Option String) :
    Db × Reply (String × Int × String × String) :=
  match findFault with
  | some e => (db, .next e)
  | none =>
    match db.workflows.find? (fun w => w.id == workflowId && w.user_id == userId) with
    | none => (db, .status 404 "WORKFLOW_NOT_FOUND" "Workflow not found")
    | some workflow =>
      match updateFault with
      | some e => (db, .next e)
      | none =>
        let updated : WorkflowRow :=
          { workflow with workflow_data := mergedData, current_step := currentStep
                          status := "in_progress" }
        ({ db with
           workflows := db.workflows.map (fun w => if w.id == workflow.id then updated else w) },
          .json (workflow.id, currentStep, mergedData, "in_progress"))

/-! ## The retry route (`backend/src/routes/sync.js:160-241`) -/

/-- A result of the retry route: `{ syncId, ...result }`. -/
structure RetryResult where
  syncId : String
  localId : Option String
  status : Status
  serverId : Option String
  referenceNumber : Option String
  error : Option String
deriving DecidableEq, Repr

/-- The locals of the retry handler together with the store. -/
structure RetryAcc where
  db : Db
  results : List RetryResult
  successful : Nat
deriving DecidableEq, Repr

/-- The `switch (type)` of lines 191-200: `document_upload` is not among the
cases. -/
def dispatchRetry (db : Db) (env : ItemEnv) (userId : String) (queueItem : QueueRow) :
    Db × SyncResult :=
  if queueItem.data.type = some "workflow_submission" then
    processWorkflowSubmission db env userId queueItem.data.data (some queueItem.id)
  else if queueItem.data.type = some "profile_update" then
    processProfileUpdate db env userId queueItem.data.data (some queueItem.id)
  else
    (db, { localId := none, status := .failed, serverId := none, referenceNumber := none
           error := some "Unknown type" })

/-- One iteration of the loop of lines 186-227: the `try` block and, when
`queueItem.update` throws, the `catch` block. -/
def retryIteration (userId : String) (acc : RetryAcc) (queueItem : QueueRow) (env : ItemEnv) :
    RetryAcc :=
  let (db1, result) := dispatchRetry acc.db env userId queueItem
  let caught (e : String) : RetryAcc :=
    { acc with
      db := db1
      results := acc.results ++
        [{ syncId := queueItem.id, localId := none, status := .failed, serverId := none
           referenceNumber := none, error := some e }] }
  let pushed : RetryResult :=
    { syncId := queueItem.id, localId := result.localId, status := result.status
      serverId := result.serverId, referenceNumber := result.referenceNumber
      error := result.error }
  if result.status = .success then
    match SyncQueue.update db1 env.queueUpdateFault queueItem.id
        (fun q => { q with status := "synced", synced_at := some env.now }) with
    | .error e => caught e
    | .ok db2 =>
      { db := db2, results := acc.results ++ [pushed], successful := acc.successful + 1 }
  else
    match SyncQueue.update db1 env.queueUpdateFault queueItem.id
        (fun q => { q with error_message := result.error }) with
    | .error e => caught e
    | .ok db2 => { db := db2, results := acc.results ++ [pushed], successful := acc.successful }

/-- The loop `for (const queueItem of queueItems)`; `envOf` tells what the
environment answers while the queue item with a given id is processed. -/
def forQueueItems (userId : String) (envOf : String → ItemEnv) :
    RetryAcc → List QueueRow → RetryAcc
  | acc, [] => acc
  | acc, queueItem :: rest =>
    forQueueItems userId envOf (retryIteration userId acc queueItem (envOf queueItem.id)) rest

/-- The `data` object of the retry route's response. -/
structure RetryResponse where
  processed : Nat
  successful : Nat
  results : List RetryResult
deriving DecidableEq, Repr

/-- The handler of `router.post('/retry')`. `syncIds = none` stands for a body
whose `syncIds` is missing or not an array; `findFault` is an error thrown by
`SyncQueue.findAll`. The rows are processed in table order. -/
def postRetry (userId : String) (db : Db) (syncIds : Option (List String))
    (findFault : Option String) (envOf : String → ItemEnv) : Db × Reply RetryResponse :=
  match syncIds with
  | none => (db, .status 400 "INVALID_SYNC_IDS" "Sync IDs array is required")
  | some ids =>
    match findFault with
    | some e => (db, .next e)
    | none =>
      let queueItems := db.syncQueue.filter
        (fun q => ids.contains q.id && q.user_id == userId && q.status == "failed")
      let acc := forQueueItems userId envOf { db := db, results := [], successful := 0 } queueItems
      (acc.db, .json { processed := queueItems.length, successful := acc.successful
                       results := acc.results })

/-! ## Client values and validation (`app/api/workflowService.js`) -/

/-- A JavaScript value as far as the client code tells values apart: `undefined`,
a string, a plain data object (an OCR result, given by its JSON text), or a
member inherited from `Object.prototype`. -/
inductive JsValue where
  | undefined : JsValue
  | str (s : String) : JsValue
  | object (json : String) : JsValue
  | inherited (name : String) : JsValue
deriving DecidableEq, Repr

/-- JavaScript truthiness: `undefined` and the empty string are falsy. -/
def JsValue.truthy : JsValue → Bool
  | .undefined => false
  | .str s => s != ""
  | .object _ => true
  | .inherited _ => true

/-- The characters JavaScript treats as white space or line terminator, which
are the characters `String.prototype.trim` removes and `\s` matches. -/
def isWhiteSpace (c : Char) : Bool :=
  c.toNat ∈ [0x9, 0xA, 0xB, 0xC, 0xD, 0x20, 0xA0, 0x1680, 0x2028, 0x2029, 0x202F, 0x205F,
    0x3000, 0xFEFF] || (0x2000 ≤ c.toNat && c.toNat ≤ 0x200A)

/-- The method `String.prototype.trim` on the characters of a string. -/
def trim (cs : List Char) : List Char :=
  ((cs.dropWhile isWhiteSpace).reverse.dropWhile isWhiteSpace).reverse

/-- Removes one leading `+` or `-`. -/
def stripSign : List Char → List Char
  | '+' :: rest => rest
  | '-' :: rest => rest
  | cs => cs

/-- The grammar `DecimalDigits`: one or more of `0`..`9`. -/
def isDecimalDigits (cs : List Char) : Bool :=
  !cs.isEmpty && cs.all Char.isDigit

/-- What may follow the digits of a decimal literal: nothing, or an exponent
part `e`/`E`, an optional sign and `DecimalDigits`. -/
def isExponentTail : List Char → Bool
  | [] => true
  | 'e' :: rest => isDecimalDigits (stripSign rest)
  | 'E' :: rest => isDecimalDigits (stripSign rest)
  | _ => false

/-- The grammar `StrUnsignedDecimalLiteral`: `Infinity`, digits with an optional
fraction, or a fraction alone, each with an optional exponent part. -/
def isUnsignedDecimalLiteral (cs : List Char) : Bool :=
  if cs = ['I', 'n', 'f', 'i', 'n', 'i', 't', 'y'] then true
  else
    let intPart := cs.takeWhile Char.isDigit
    match cs.dropWhile Char.isDigit with
    | '.' :: rest =>
      (!intPart.isEmpty || !(rest.takeWhile Char.isDigit).isEmpty)
        && isExponentTail (rest.dropWhile Char.isDigit)
    | rest => !intPart.isEmpty && isExponentTail rest

/-- A hexadecimal digit. -/
def isHexDigit (c : Char) : Bool :=
  c.isDigit || ('a' ≤ c && c ≤ 'f') || ('A' ≤ c && c ≤ 'F')

/-- The grammar `NonDecimalIntegerLiteral`: `0b`, `0o` or `0x` (either case)
followed by one or more digits of the radix. -/
def isNonDecimalIntegerLiteral : List Char → Bool
  | '0' :: 'b' :: rest => !rest.isEmpty && rest.all (fun c => c == '0' || c == '1')
  | '0' :: 'B' :: rest => !rest.isEmpty && rest.all (fun c => c == '0' || c == '1')
  | '0' :: 'o' :: rest => !rest.isEmpty && rest.all (fun c => '0' ≤ c && c ≤ '7')
  | '0' :: 'O' :: rest => !rest.isEmpty && rest.all (fun c => '0' ≤ c && c ≤ '7')
  | '0' :: 'x' :: rest => !rest.isEmpty && rest.all isHexDigit
  | '0' :: 'X' :: rest => !rest.isEmpty && rest.all isHexDigit
  | _ => false

/-- The global `isNaN` applied to a string: the string converts to `NaN` exactly
when, white space trimmed, it is neither empty nor a `StrNumericLiteral`. -/
def isNaNString (s : String) : Bool :=
  let cs := trim s.data
  !(cs.isEmpty || isNonDecimalIntegerLiteral cs || isUnsignedDecimalLiteral (stripSign cs))

/-- The global `isNaN` on a value: `undefined` and objects that are neither
arrays nor wrappers convert to `NaN`. -/
def jsIsNaN : JsValue → Bool
  | .undefined => true
  | .str s => isNaNString s
  | .object _ => true
  | .inherited _ => true

/-- The class `[^\s@]` of the e-mail pattern. -/
def isEmailChar (c : Char) : Bool :=
  !isWhiteSpace c && c != '@'

/-- One or more characters of the class `[^\s@]`. -/
def isEmailRun (cs : List Char) : Bool :=
  !cs.isEmpty && cs.all isEmailChar

/-- The test `/^[^\s@]+@[^\s@]+\.[^\s@]+$/.test(email)` on a string: some split
of the whole string into run, `@`, run, `.`, run. -/
def isValidEmailString (s : String) : Bool :=
  (List.range (s.data.length + 1)).any (fun i =>
    isEmailRun (s.data.take i) &&
      match s.data.drop i with
      | '@' :: rest =>
        (List.range (rest.length + 1)).any (fun j =>
          isEmailRun (rest.take j) &&
            match rest.drop j with
            | '.' :: last => isEmailRun last
            | _ => false)
      | _ => false)

/-- The helper `isValidEmail`. A value that is not a string is converted to a
string first; the text of an object or of a function contains white space. -/
def isValidEmail : JsValue → Bool
  | .str s => isValidEmailString s
  | _ => false

/-- A step of a workflow definition: the fields the state machine reads. The
`validation` rule is `required`, `number`, `email`, or absent. -/
structure Step where
  type : String
  key : String
  validation : Option String
deriving DecidableEq, Repr

/-- The result object of `validateStepData`. -/
structure Validation where
  isValid : Bool
  errors : List String
deriving DecidableEq, Repr

/-- Adds a message: `validation.isValid = false; validation.errors.push(message)`. -/
def Validation.fail (v : Validation) (message : String) : Validation :=
  { isValid := false, errors := v.errors ++ [message] }

/-- The function `validateStepData(step, value)` of `workflowService.js:362-384`.
Calling `value.trim()` on a truthy value that is not a string throws. -/
def validateStepData (step : Step) (value : JsValue) : Except String Validation :=
  let v0 : Validation := { isValid := true, errors := [] }
  let required : Except String Validation :=
    if step.validation = some "required" then
      if !value.truthy then .ok (v0.fail "This field is required")
      else
        match value with
        | .str s =>
          if trim s.data = [] then .ok (v0.fail "This field is required") else .ok v0
        | _ => .error "value.trim is not a function"
    else .ok v0
  match required with
  | .error e => .error e
  | .ok v1 =>
    let v2 :=
      if step.validation = some "number" && value.truthy && jsIsNaN value then
        v1.fail "Please enter a valid number"
      else v1
    let v3 :=
      if step.validation = some "email" && value.truthy && !isValidEmail value then
        v2.fail "Please enter a valid email address"
      else v2
    .ok v3

/-! ## Workflow definitions (`loadWorkflow`, `workflowService.js:8-210`) -/

/-- A workflow definition: identifier, name and ordered steps. -/
structure WorkflowDefinition where
  id : String
  name : String
  steps : List Step
deriving DecidableEq, Repr

/-- The entry `aadhaar-application` of the table inside `loadWorkflow`. -/
def aadhaarApplication : WorkflowDefinition :=
  { id := "aadhaar-application", name := "Aadhaar Card Application"
    steps :=
      [ { type := "info", key := "welcome", validation := none },
        { type := "ask", key := "ask_name", validation := some "required" },
        { type := "ask", key := "ask_age", validation := some "number" },
        { type := "ocr", key := "scan_address_proof", validation := none },
        { type := "confirm", key := "confirm_details", validation := none },
        { type := "submit", key := "submit_application", validation := none } ] }

/-- The entry `pan-application` of the table inside `loadWorkflow`. -/
def panApplication : WorkflowDefinition :=
  { id := "pan-application", name := "PAN Card Application"
    steps :=
      [ { type := "info", key := "welcome", validation := none },
        { type := "ask", key := "ask_name", validation := some "required" },
        { type := "ask", key := "ask_father_name", validation := some "required" },
        { type := "ocr", key := "scan_identity_proof", validation := none },
        { type := "submit", key := "submit_application", validation := none } ] }

/-- The entry `passport-application` of the table inside `loadWorkflow`. -/
def passportApplication : WorkflowDefinition :=
  { id := "passport-application", name := "Passport Application"
    steps :=
      [ { type := "info", key := "welcome", validation := none },
        { type := "ask", key := "ask_name", validation := some "required" },
        { type := "ask", key := "ask_place_of_birth", validation := some "required" },
        { type := "ocr", key := "scan_birth_certificate", validation := none },
        { type := "ocr", key := "scan_address_proof", validation := none },
        { type := "submit", key := "submit_application", validation := none } ] }

/-- The table `workflows` inside `loadWorkflow`. -/
def workflows : List WorkflowDefinition :=
  [aadhaarApplication, panApplication, passportApplication]

/-- The function `loadWorkflow(workflowId)` for an identifier that is not a name
inherited from `Object.prototype`: the definition with that identifier; `none`
stands for the thrown `Failed to load workflow` error. -/
def loadWorkflow (workflowId : String) : Option WorkflowDefinition :=
  workflows.find? (fun w => w.id == workflowId)

/-! ## The workflow slice (`app/store/slices/workflowSlice.js`) -/

/-- The property read `object[key]` on a plain object: the own property if there
is one, else what `Object.prototype` provides under that name, else `undefined`. -/
def getProp (object : List (String × JsValue)) (key : String) : JsValue :=
  match object.lookup key with
  | some v => v
  | none => if key ∈ inheritedNames then .inherited key else .undefined

/-- The payload of `startWorkflow`: the entry of the workflow list the user chose. -/
structure WorkflowInfo where
  id : String
  name : String
deriving DecidableEq, Repr

/-- An entry of `completedWorkflows`. -/
structure CompletedWorkflow where
  id : Nat
  workflow : WorkflowInfo
  data : List (String × JsValue)
  completedAt : Nat
deriving DecidableEq, Repr

/-- The state of the workflow slice. -/
structure WorkflowState where
  currentWorkflow : Option WorkflowInfo
  currentStep : Nat
  workflowData : List (String × JsValue)
  isActive : Bool
  completedWorkflows : List CompletedWorkflow
deriving DecidableEq, Repr

/-- The constant `initialState`. -/
def initialState : WorkflowState :=
  { currentWorkflow := none, currentStep := 0, workflowData := [], isActive := false
    completedWorkflows := [] }

/-- The reducer `startWorkflow`. -/
def startWorkflow (state : WorkflowState) (payload : Option WorkflowInfo) : WorkflowState :=
  { state with currentWorkflow := payload, currentStep := 0, workflowData := [], isActive := true }

/-- The reducer `nextStep`. -/
def nextStep (state : WorkflowState) : WorkflowState :=
  { state with currentStep := state.currentStep + 1 }

/-- The reducer `previousStep`. -/
def previousStep (state : WorkflowState) : WorkflowState :=
  if state.currentStep > 0 then { state with currentStep := state.currentStep - 1 } else state

/-- The reducer `updateWorkflowData`. -/
def updateWorkflowData (state : WorkflowState) (payload : List (String × JsValue)) :
    WorkflowState :=
  { state with workflowData := spread state.workflowData payload }

/-- The reducer `completeWorkflow`; `now` is the clock reading of the call, taken
for `Date.now()` and for `new Date()`. -/
def completeWorkflow (state : WorkflowState) (now : Nat) : WorkflowState :=
  { currentWorkflow := none
    currentStep := 0
    workflowData := []
    isActive := false
    completedWorkflows :=
      match state.currentWorkflow with
      | some w =>
        state.completedWorkflows ++
          [{ id := now, workflow := w, data := state.workflowData, completedAt := now }]
      | none => state.completedWorkflows }

/-- The reducer `resetWorkflow`. -/
def resetWorkflow (state : WorkflowState) : WorkflowState :=
  { state with currentWorkflow := none, currentStep := 0, workflowData := [], isActive := false }

/-! ## The stepper screen (`app/screens/WorkflowStepperScreen.js`)

Each handler is embedded as one atomic step on the slice state. Speech output
and navigation are left out. -/

/-- What a handler does besides changing the slice. -/
inductive Effect where
  | alert (title : String) : Effect
  | submitWorkflow (workflowId : String) (data : List (String × JsValue)) : Effect
  | addToSyncQueue (workflowId : String) (data : List (String × JsValue)) : Effect
  | typeError : Effect
deriving DecidableEq, Repr

/-- What the environment answers during `handleSubmitWorkflow`: the `isOnline`
flag, whether `submitWorkflow` throws or which `result.success` it resolves
with, and the value of `Date.now()`. -/
structure SubmitEnv where
  isOnline : Bool
  submit : Except String Bool
  now : Nat

/-- The handler `handleSubmitWorkflow` (lines 135-184). Reading `currentWorkflow.id`
of `null` throws inside the `try` block. -/
def handleSubmitWorkflow (state : WorkflowState) (env : SubmitEnv) :
    WorkflowState × List Effect :=
  match state.currentWorkflow with
  | none => (state, [.alert "Submission Error"])
  | some w =>
    if env.isOnline then
      match env.submit with
      | .error _ => (state, [.submitWorkflow w.id state.workflowData, .alert "Submission Error"])
      | .ok true => (completeWorkflow state env.now, [.submitWorkflow w.id state.workflowData])
      | .ok false => (state, [.submitWorkflow w.id state.workflowData])
    else
      (completeWorkflow state env.now, [.addToSyncQueue w.id state.workflowData])

/-- The handler `handleNextStep` (lines 111-126). Reading `step.type` of
`undefined` throws. -/
def handleNextStep (definition : WorkflowDefinition) (state : WorkflowState) (env : SubmitEnv) :
    WorkflowState × List Effect :=
  match definition.steps[state.currentStep]? with
  | none => (state, [.typeError])
  | some step =>
    if step.type = "ask" && !(getProp state.workflowData step.key).truthy then
      (state, [.alert "Required Field"])
    else if (state.currentStep : Int) < (definition.steps.length : Int) - 1 then
      (nextStep state, [])
    else
      handleSubmitWorkflow state env

/-- The handler `handlePreviousStep` (lines 128-133). -/
def handlePreviousStep (state : WorkflowState) : WorkflowState :=
  if state.currentStep > 0 then previousStep state else state

/-- The handler `handleVoiceInput` (lines 70-109). `asr` is what `transcribeAudio`
does: it throws, resolves without success (`none`), or resolves with a
transcription. An error thrown inside the `try` block ends in the `Error` alert. -/
def handleVoiceInput (definition : WorkflowDefinition) (state : WorkflowState)
    (asr : Except String (Option String)) : WorkflowState × List Effect :=
  match asr with
  | .error _ => (state, [.alert "Error"])
  | .ok none => (state, [])
  | .ok (some transcription) =>
    match definition.steps[state.currentStep]? with
    | none => (state, [.alert "Error"])
    | some step =>
      match validateStepData step (.str transcription) with
      | .error _ => (state, [.alert "Error"])
      | .ok validation =>
        if validation.isValid then
          (updateWorkflowData state [(step.key, .str transcription)], [])
        else
          (state, [.alert "Invalid Input"])

/-- The `Scan Document` button, which is rendered only on a step of type `ocr`
(line 249), followed by `handleConfirmOCR` of `OCRCameraScreen.js:146-155`, which
stores the OCR result under the key of that step. -/
def handleScanDocument (definition : WorkflowDefinition) (state : WorkflowState)
    (ocrResult : String) : WorkflowState :=
  match definition.steps[state.currentStep]? with
  | none => state
  | some step =>
    if step.type = "ocr" then updateWorkflowData state [(step.key, .object ocrResult)]
    else state

/-- What the user and the environment can do to a session. -/
inductive Event where
  /-- The user picks a workflow: `handleProcessSelect` dispatches `startWorkflow`. -/
  | select (workflow : WorkflowInfo) : Event
  /-- The user records an answer: `handleVoiceInput`. -/
  | voice (asr : Except String (Option String)) : Event
  /-- The user presses next or complete: `handleNextStep`. -/
  | next (env : SubmitEnv) : Event
  /-- The user presses back: `handlePreviousStep`. -/
  | back : Event
  /-- The user scans a document and confirms the result. -/
  | scan (ocrResult : String) : Event

/-- One event applied to the slice state, with the effects it has. -/
def applyEvent (definition : WorkflowDefinition) (state : WorkflowState) :
    Event → WorkflowState × List Effect
  | .select workflow => (startWorkflow state (some workflow), [])
  | .voice asr => handleVoiceInput definition state asr
  | .next env => handleNextStep definition state env
  | .back => (handlePreviousStep state, [])
  | .scan ocrResult => (handleScanDocument definition state ocrResult, [])

/-- A sequence of events applied from a state. -/
def run (definition : WorkflowDefinition) (state : WorkflowState) : List Event → WorkflowState
  | [] => state
  | e :: rest => run definition (applyEvent definition state e).1 rest

/-- An effect that hands the collected data over for submission. -/
def Effect.isSubmission : Effect → Bool
  | .submitWorkflow _ _ => true
  | .addToSyncQueue _ _ => true
  | _ => false

/-- A definition as the schema comment of `workflowService.js` describes it: step
keys are unique, and none is a name inherited from `Object.prototype`. -/
def WorkflowDefinition.WellFormed (definition : WorkflowDefinition) : Prop :=
  (definition.steps.map (fun s => s.key)).Nodup
    ∧ ∀ s ∈ definition.steps, s.key ∉ inheritedNames

/-- Every answer stored under the key of an `ask` step passes that step's
validation. -/
def Answered (definition : WorkflowDefinition) (state : WorkflowState) : Prop :=
  ∀ step ∈ definition.steps, step.type = "ask" →
    ∀ v, state.workflowData.lookup step.key = some v →
      ∃ validation, validateStepData step v = .ok validation ∧ validation.isValid = true

/-! ## The store (`app/store/store.js`, `workflowSlice.js`, `offlineSlice.js`)

The slices are combined by `configureStore`; a slice reducer answers only the
actions the slice itself declares. The `language` and `user` slices are left
out. -/

/-- The actions of the workflow slice, with their payloads. The clock reading of
`completeWorkflow` is carried by the action. -/
inductive WorkflowAction where
  | startWorkflow (payload : Option WorkflowInfo) : WorkflowAction
  | nextStep : WorkflowAction
  | previousStep : WorkflowAction
  | updateWorkflowData (payload : List (String × JsValue)) : WorkflowAction
  | completeWorkflow (now : Nat) : WorkflowAction
  | resetWorkflow : WorkflowAction
deriving DecidableEq, Repr

/-- The reducer of the workflow slice (`workflowSlice.reducer`). -/
def workflowReducer (state : WorkflowState) : WorkflowAction → WorkflowState
  | .startWorkflow payload => startWorkflow state payload
  | .nextStep => nextStep state
  | .previousStep => previousStep state
  | .updateWorkflowData payload => updateWorkflowData state payload
  | .completeWorkflow now => completeWorkflow state now
  | .resetWorkflow => resetWorkflow state

/-- Whether the action is `startWorkflow`. -/
def WorkflowAction.isStart : WorkflowAction → Bool
  | .startWorkflow _ => true
  | _ => false

/-- The payload `handleSubmitWorkflow` hands to `addToSyncQueue`:
`{ type, workflowId, data }`. -/
structure OfflinePayload where
  type : String
  workflowId : String
  data : List (String × JsValue)
deriving DecidableEq, Repr

/-- An item of the offline `syncQueue`: `{ id, data, timestamp }`. -/
structure OfflineItem where
  id : Nat
  data : OfflinePayload
  timestamp : Nat
deriving DecidableEq, Repr

/-- The state of the offline slice. -/
structure OfflineState where
  isOnline : Bool
  syncQueue : List OfflineItem
  lastSyncTime : Option Nat
deriving DecidableEq, Repr

/-- The constant `initialState` of the offline slice. -/
def offlineInitialState : OfflineState :=
  { isOnline := true, syncQueue := [], lastSyncTime := none }

/-- The reducer `setOnlineStatus`. -/
def setOnlineStatus (state : OfflineState) (payload : Bool) : OfflineState :=
  { state with isOnline := payload }

/-- The reducer `addToSyncQueue`; `now` is the value of `Date.now()` and
`timestamp` the instant of `new Date()`. -/
def addToSyncQueue (state : OfflineState) (payload : OfflinePayload) (now timestamp : Nat) :
    OfflineState :=
  { state with
    syncQueue := state.syncQueue ++ [{ id := now, data := payload, timestamp := timestamp }] }

/-- The reducer `removeFromSyncQueue`. -/
def removeFromSyncQueue (state : OfflineState) (payload : Nat) : OfflineState :=
  { state with syncQueue := state.syncQueue.filter (fun item => item.id != payload) }

/-- The reducer `clearSyncQueue`. -/
def clearSyncQueue (state : OfflineState) : OfflineState :=
  { state with syncQueue := [] }

/-- The reducer `setLastSyncTime`; `timestamp` is the instant of `new Date()`. -/
def setLastSyncTime (state : OfflineState) (timestamp : Nat) : OfflineState :=
  { state with lastSyncTime := some timestamp }

/-- The actions of the offline slice, with their payloads and clock readings. -/
inductive OfflineAction where
  | setOnlineStatus (payload : Bool) : OfflineAction
  | addToSyncQueue (payload : OfflinePayload) (now timestamp : Nat) : OfflineAction
  | removeFromSyncQueue (payload : Nat) : OfflineAction
  | clearSyncQueue : OfflineAction
  | setLastSyncTime (timestamp : Nat) : OfflineAction
deriving DecidableEq, Repr

/-- The reducer of the offline slice (`offlineSlice.reducer`). -/
def offlineReducer (state : OfflineState) : OfflineAction → OfflineState
  | .setOnlineStatus payload => setOnlineStatus state payload
  | .addToSyncQueue payload now timestamp => addToSyncQueue state payload now timestamp
  | .removeFromSyncQueue payload => removeFromSyncQueue state payload
  | .clearSyncQueue => clearSyncQueue state
  | .setLastSyncTime timestamp => setLastSyncTime state timestamp

/-- The state of the store: the `workflow` and `offline` slices. -/
structure RootState where
  workflow : WorkflowState
  offline : OfflineState
deriving DecidableEq, Repr

/-- An action dispatched to the store: it belongs to one slice. -/
inductive RootAction where
  | workflow (action : WorkflowAction) : RootAction
  | offline (action : OfflineAction) : RootAction
deriving DecidableEq, Repr

/-- The root reducer built by `configureStore`: every slice reducer sees the
action, and a slice leaves its state as it is for an action of another slice. -/
def rootReducer (state : RootState) : RootAction → RootState
  | .workflow action => { state with workflow := workflowReducer state.workflow action }
  | .offline action => { state with offline := offlineReducer state.offline action }

/-! ## Words of the specification about validation -/

/-- The message `validateStepData` pushes for a validation rule. -/
def ruleMessage (rule : String) : Option String :=
  if rule = "required" then some "This field is required"
  else if rule = "number" then some "Please enter a valid number"
  else if rule = "email" then some "Please enter a valid email address"
  else none

/-- The specification's `parses as numeric` for a string: with surrounding white
space removed, the string is a numeric literal (`StrNumericLiteral`: a signed
decimal literal, `Infinity`, or a binary, octal or hexadecimal integer). The
empty string is not a numeric literal. -/
def parsesAsNumeric (s : String) : Bool :=
  isNonDecimalIntegerLiteral (trim s.data) || isUnsignedDecimalLiteral (stripSign (trim s.data))

/-- The payload is an object: no key occurs twice. -/
def IsObject (payload : List (String × JsValue)) : Prop :=
  (payload.map (fun p => p.1)).Nodup

/-! ## Example sessions -/

/-- A running Aadhaar session at step 2 with the name recorded. -/
def runningSession : WorkflowState :=
  { currentWorkflow := some { id := "aadhaar-application", name := "Aadhaar Card Application" }
    currentStep := 2
    workflowData := [("ask_name", .str "John Doe")]
    isActive := true
    completedWorkflows := [] }

/-- The entry of the workflow list for the PAN application. -/
def panInfo : WorkflowInfo :=
  { id := "pan-application", name := "PAN Card Application" }

/-- A store whose offline queue holds one item enqueued by an earlier session. -/
def storeWithQueuedItem : RootState :=
  { workflow := runningSession
    offline :=
      { isOnline := false
        syncQueue :=
          [{ id := 1700000000000
             data := { type := "workflow_submission", workflowId := "pan-application"
                       data := [("ask_name", .str "Asha")] }
             timestamp := 1700000000000 }]
        lastSyncTime := none } }

/-- The step `ask_name` of the Aadhaar workflow, whose rule is `required`. -/
def nameStep : Step :=
  { type := "ask", key := "ask_name", validation := some "required" }

/-- The step `ask_age` of the Aadhaar workflow, whose rule is `number`. -/
def ageStep : Step :=
  { type := "ask", key := "ask_age", validation := some "number" }

/-- The payload `handleVoiceInput` dispatches for the answer `30` at the age step. -/
def agePayload : List (String × JsValue) :=
  [("ask_age", .str "30")]

/-- A clock reading. -/
def exampleNow : Nat := 1700000123456

/-! ## Predicates and examples used in the statements -/

/-- The primary keys of the `User` table, in order. -/
def userIds (db : Db) : List String := db.users.map (fun u => u.id)

/-- The two declared keys of the `Workflow` table hold: no two rows share the
primary key `id`, and no two rows carry the same `reference_number`. -/
def KeysUnique (db : Db) : Prop :=
  (db.workflows.map (fun w => w.id)).Nodup
    ∧ (db.workflows.map (fun w => w.reference_number)).Nodup

/-- The attributes `processWorkflowSubmission` hands to `Workflow.create`. -/
def submissionAttrs (env : ItemEnv) (userId : String) (d : SyncData) : WorkflowAttrs :=
  { user_id := userId
    workflow_type := d.workflowId
    workflow_data := d.workflowData
    current_step := 0
    status := "completed"
    reference_number := some (referenceNumber env.now env.random36)
    completed_at := some env.now }

/-- The stores the backend can reach. It starts without workflows. The bulk sync
endpoint, the direct submission route, the step-update route and the retry
route are the routes that write the `Workflow` table; `create` is a single
`Workflow.create` that carries a reference number, as the seed script issues it
and as the routes issue it when their requests interleave; `others` stands for
the routes that write the remaining tables only. -/
inductive Reachable : Db → Prop where
  | init (users : List User) :
    Reachable { users := users, workflows := [], syncQueue := [], logs := [] }
  | sync {db : Db} (userId : String) (items : Option (List (Option SyncItem × ItemEnv)))
      (logFault : Option String) (syncTime : Nat) :
    Reachable db → Reachable (postSync userId db items logFault syncTime).1
  | submit {db : Db} (userId : String) (env : ItemEnv) (workflowId data : JsField String)
      (logFault : Option String) :
    Reachable db → Reachable (postSubmit userId db env workflowId data logFault).1
  | step {db : Db} (userId workflowId mergedData : String) (currentStep : Int)
      (findFault updateFault : Option String) :
    Reachable db →
    Reachable (putStep userId db workflowId mergedData currentStep findFault updateFault).1
  | retry {db : Db} (userId : String) (syncIds : Option (List String))
      (findFault : Option String) (envOf : String → ItemEnv) :
    Reachable db → Reachable (postRetry userId db syncIds findFault envOf).1
  | create {db : Db} (env : ItemEnv) (attrs : WorkflowAttrs) (ref : String) (row : WorkflowRow)
      (db1 : Db) :
    attrs.reference_number = some ref → Workflow.create db env attrs = .ok (row, db1) →
    Reachable db → Reachable db1
  | others {db : Db} (users : List User) (syncQueue : List QueueRow) (logs : List LogRow) :
    Reachable db →
    Reachable { users := users, workflows := db.workflows, syncQueue := syncQueue, logs := logs }

/-- A store with the single user `u1` and no workflow. -/
def exampleDb : Db :=
  { users := [{ id := "u1", attrs := [("name", "Asha")] }]
    workflows := [], syncQueue := [], logs := [] }

/-- An environment in which nothing fails: `Date.now()` is `1700000123456` and
`Math.random().toString(36)` is `0.4fzyo82mvyr`. -/
def exampleEnv : ItemEnv :=
  { now := 1700000123456, random36 := "0.4fzyo82mvyr", uuid := "w1", queueUuid := "q1"
    workflowFault := none, findFault := none, updateFault := none, queueFault := none
    queueUpdateFault := none }

/-- A later environment: another clock value, random value and UUID. -/
def laterEnv : ItemEnv :=
  { now := 1700000123999, random36 := "0.zk3x9q0ab1", uuid := "w2", queueUuid := "q2"
    workflowFault := none, findFault := none, updateFault := none, queueFault := none
    queueUpdateFault := none }

/-- The `data` of a well-formed `workflow_submission`. -/
def exampleData : SyncData :=
  { workflowId := .value "aadhaar-application"
    workflowData := .value "\x7b\"ask_name\":\"John Doe\",\"ask_age\":\"30\"\x7d"
    profile := [] }

/-- A well-formed `workflow_submission` item with local id `L1`. -/
def submissionItem : SyncItem :=
  { id := some "L1", type := some "workflow_submission", data := some exampleData
    timestamp := some "2023-11-14T22:15:23.456Z" }

/-- A well-formed `document_upload` item with local id `L2`. -/
def documentItem : SyncItem :=
  { id := some "L2", type := some "document_upload", data := none
    timestamp := some "2023-11-14T22:15:24.000Z" }

/-- An item of a type the endpoint does not know, with local id `L3`. -/
def unknownItem : SyncItem :=
  { id := some "L3", type := some "survey", data := none
    timestamp := some "2023-11-14T22:15:25.000Z" }

/-- A `profile_update` item with local id `L4`. -/
def profileItem : SyncItem :=
  { id := some "L4", type := some "profile_update"
    data := some { workflowId := .undefined, workflowData := .undefined
                   profile := [("location", "Pune")] }
    timestamp := some "2023-11-14T22:15:26.000Z" }

/-- A store that already holds a workflow with reference number `REF1234564FZ`. -/
def storedDb : Db :=
  { exampleDb with
    workflows :=
      [{ id := "w0", user_id := "u1", workflow_type := "pan-application"
         workflow_data := "\x7b\x7d", current_step := 0, status := "completed"
         reference_number := some "REF1234564FZ", completed_at := some 1699000123456 }] }

/-- An environment in which the device is online and `submitWorkflow` resolves
with `success: true`. -/
def onlineEnv : SubmitEnv :=
  { isOnline := true, submit := .ok true, now := 1700000123456 }

/-- The user picks the Aadhaar workflow, leaves the welcome step and answers the
name question with `John Doe`. -/
def nameAnswered : List Event :=
  [.select { id := "aadhaar-application", name := "Aadhaar Card Application" },
   .next onlineEnv,
   .voice (.ok (some "John Doe"))]

/-- A whole Aadhaar session up to the last step: both questions answered, the
address proof scanned, the details confirmed. -/
def atLastStep : List Event :=
  nameAnswered ++
    [.next onlineEnv, .voice (.ok (some "30")), .next onlineEnv, .scan "\x7b\x7d",
     .next onlineEnv, .next onlineEnv]

/-! ## The offline banner (`app/components/OfflineSyncBanner.js`)

The banner is the one component that reads the offline slice besides the
stepper screen. `HomeScreen` renders it without an `onSyncPress` handler. -/

/-- What `OfflineSyncBanner` puts on the screen: the style of `getBannerStyle`,
the icon of `getIconName`, the text of `getMessage`, whether the `Sync` button
is rendered, and whether the effect of lines 11-30 runs the pulse animation. -/
structure BannerView where
  style : String
  iconName : String
  message : String
  syncButton : Bool
  pulsing : Bool
deriving DecidableEq, Repr

/-- The component `OfflineSyncBanner`; `onSyncPress` tells whether the handler
prop was passed. `none` stands for `return null`. -/
def OfflineSyncBanner (onSyncPress : Bool) (offline : OfflineState) : Option BannerView :=
  if offline.isOnline && offline.syncQueue.length == 0 then none
  else
    some
      { style :=
          if !offline.isOnline then "offline"
          else if offline.syncQueue.length > 0 then "syncing"
          else "online"
        iconName :=
          if !offline.isOnline then "cloud-offline-outline"
          else if offline.syncQueue.length > 0 then "sync-outline"
          else "cloud-done-outline"
        message :=
          if !offline.isOnline then
            "You're offline. " ++ Nat.repr offline.syncQueue.length ++ " items queued for sync."
          else if offline.syncQueue.length > 0 then
            "Syncing " ++ Nat.repr offline.syncQueue.length ++ " items..."
          else "All data synced"
        syncButton := decide (offline.syncQueue.length > 0) && offline.isOnline && onSyncPress
        pulsing := !offline.isOnline && decide (offline.syncQueue.length > 0) }

/-- The identifiers of the queued items, in queue order. -/
def queueIds (state : OfflineState) : List Nat :=
  state.syncQueue.map (fun item => item.id)

/-- The payload `handleSubmitWorkflow` builds for the offline queue (lines
157-161 of `WorkflowStepperScreen.js`). -/
def submissionPayload (workflowId : String) (data : List (String × JsValue)) : OfflinePayload :=
  { type := "workflow_submission", workflowId := workflowId, data := data }

/-- How the bulk sync endpoint reads a queue item of the client that arrives as
an element of `items`. The handler destructures `id`, `type`, `data` and
`timestamp` from the element: the client's item `{ id, data, timestamp }` has
no property `type`; its `data` is the payload `{ type, workflowId, data }`, in
which `processWorkflowSubmission` finds a `workflowId` and no `workflowData`.
The numeric `id` and the instant are written in decimal. -/
def OfflineItem.toSyncItem (item : OfflineItem) : SyncItem :=
  { id := some (Nat.repr item.id)
    type := none
    data := some { workflowId := .value item.data.workflowId, workflowData := .undefined
                   profile := [] }
    timestamp := some (Nat.repr item.timestamp) }

/-! ## Tracking (`backend/src/routes/workflows.js:308-370`) -/

/-- An element of the `timeline` array. -/
structure TimelineEntry where
  stage : String
  timestamp : Option Nat
  description : String
deriving DecidableEq, Repr

/-- The `data` object of the tracking response. -/
structure TrackResponse where
  referenceNumber : String
  workflowType : String
  status : String
  currentStage : String
  progress : Nat
  timeline : List TimelineEntry
  estimatedCompletion : Nat
  submittedAt : Option Nat
  applicantName : Option String
deriving DecidableEq, Repr

/-- The query `Workflow.findOne({ where: { reference_number } })`: the first row
that carries the reference number. -/
def Workflow.findOneByReference (db : Db) (referenceNumber : String) : Option WorkflowRow :=
  db.workflows.find? (fun w => w.reference_number == some referenceNumber)

/-- The handler of `router.get('/track/:referenceNumber')`. `findFault` is an
error thrown by `Workflow.findOne`; `now` is the value of `Date.now()`; the
included user supplies `applicantName`. `createdAt` is what reading
`workflow.created_at` gives. The models are defined with `timestamps: true` and
`underscored: true` (`database/connection.js`): the column is `created_at`, and
the attribute of the instance is `createdAt`, so that `workflow.created_at` is
`undefined` (`none`) and `workflow.created_at.getTime()` throws for a completed
workflow. `some` stands for a model that exposes the instant of creation under
the name `created_at`, as the routes assume. -/
def getTrack (db : Db) (referenceNumber : String) (findFault : Option String)
    (createdAt : Option Nat) (now : Nat) : Reply TrackResponse :=
  match findFault with
  | some e => .next e
  | none =>
    match Workflow.findOneByReference db referenceNumber with
    | none => .status 404 "WORKFLOW_NOT_FOUND" "Workflow not found with this reference number"
    | some workflow =>
      let submitted : TimelineEntry :=
        { stage := "submitted", timestamp := createdAt
          description := "Application submitted successfully" }
      let respond (timeline : List TimelineEntry) : Reply TrackResponse :=
        .json
          { referenceNumber := referenceNumber
            workflowType := workflow.workflow_type
            status := workflow.status
            currentStage := if workflow.status = "completed" then "completed" else "processing"
            progress :=
              if workflow.status = "completed" then 100
              else if workflow.status = "in_progress" then 60
              else 25
            timeline := timeline
            estimatedCompletion :=
              match workflow.completed_at with
              | some t => t
              | none => now + 30 * 24 * 60 * 60 * 1000
            submittedAt := createdAt
            applicantName :=
              (db.users.find? (fun u => u.id == workflow.user_id)).bind
                (fun u => u.attrs.lookup "name") }
      if workflow.status = "completed" then
        match createdAt with
        | none => .next "Cannot read properties of undefined (reading 'getTime')"
        | some t =>
          respond
            [submitted,
             { stage := "processing", timestamp := some (t + 24 * 60 * 60 * 1000)
               description := "Application under review" }]
      else respond [submitted]

/-! ## The step tables of both sides -/

/-- A step as the definition tables write it: its number `step`, and the fields
the state machine reads. -/
structure StepEntry where
  step : Nat
  type : String
  key : String
  validation : Option String
deriving DecidableEq, Repr

/-- The step without its number. -/
def StepEntry.toStep (entry : StepEntry) : Step :=
  { type := entry.type, key := entry.key, validation := entry.validation }

/-- The `steps` arrays of the table inside `loadWorkflow`
(`workflowService.js:13-193`), under the identifiers of the table. -/
def loadWorkflowSteps : List (String × List StepEntry) :=
  [ ("aadhaar-application",
      [ { step := 1, type := "info", key := "welcome", validation := none },
        { step := 2, type := "ask", key := "ask_name", validation := some "required" },
        { step := 3, type := "ask", key := "ask_age", validation := some "number" },
        { step := 4, type := "ocr", key := "scan_address_proof", validation := none },
        { step := 5, type := "confirm", key := "confirm_details", validation := none },
        { step := 6, type := "submit", key := "submit_application", validation := none } ]),
    ("pan-application",
      [ { step := 1, type := "info", key := "welcome", validation := none },
        { step := 2, type := "ask", key := "ask_name", validation := some "required" },
        { step := 3, type := "ask", key := "ask_father_name", validation := some "required" },
        { step := 4, type := "ocr", key := "scan_identity_proof", validation := none },
        { step := 5, type := "submit", key := "submit_application", validation := none } ]),
    ("passport-application",
      [ { step := 1, type := "info", key := "welcome", validation := none },
        { step := 2, type := "ask", key := "ask_name", validation := some "required" },
        { step := 3, type := "ask", key := "ask_place_of_birth", validation := some "required" },
        { step := 4, type := "ocr", key := "scan_birth_certificate", validation := none },
        { step := 5, type := "ocr", key := "scan_address_proof", validation := none },
        { step := 6, type := "submit", key := "submit_application", validation := none } ]) ]

/-- The `steps` arrays of the server's `workflowDefinitions`
(`backend/src/routes/workflows.js:10-119`), under the identifiers of the table. -/
def workflowDefinitionSteps : List (String × List StepEntry) :=
  [ ("aadhaar-application",
      [ { step := 1, type := "info", key := "welcome", validation := none },
        { step := 2, type := "ask", key := "ask_name", validation := some "required" },
        { step := 3, type := "ask", key := "ask_age", validation := some "number" },
        { step := 4, type := "ocr", key := "scan_address_proof", validation := none },
        { step := 5, type := "confirm", key := "confirm_details", validation := none },
        { step := 6, type := "submit", key := "submit_application", validation := none } ]),
    ("pan-application",
      [ { step := 1, type := "info", key := "welcome", validation := none },
        { step := 2, type := "ask", key := "ask_name", validation := some "required" },
        { step := 3, type := "ocr", key := "scan_identity_proof", validation := none },
        { step := 4, type := "submit", key := "submit_application", validation := none } ]) ]

/-- The step types of the specification. -/
def stepTypes : List String :=
  ["info", "ask", "ocr", "confirm", "submit"]

/-- The specification's well-formed step sequence: keys pairwise distinct, every
type one of the five step types, steps numbered `1..n` in order. -/
def StepsWellFormed (entries : List StepEntry) : Prop :=
  (entries.map (fun e => e.key)).Nodup
    ∧ (∀ e ∈ entries, e.type ∈ stepTypes)
    ∧ entries.map (fun e => e.step) = List.range' 1 entries.length

/-- The steps of a table entry as the state machine reads them. -/
def stepsOf (table : List (String × List StepEntry)) (workflowId : String) : Option (List Step) :=
  (table.lookup workflowId).map (fun entries => entries.map StepEntry.toStep)

/-! ## Reachable states of the workflow slice -/

/-- Whether the action is not a `startWorkflow` whose payload is `null`. -/
def WorkflowAction.hasWorkflow : WorkflowAction → Bool
  | .startWorkflow none => false
  | _ => true

/-! ## Further examples -/

/-- An instant: the value of `Date.now()` in the examples of the offline queue. -/
def sameInstant : Nat := 1700000000000

/-- The payload of an offline Aadhaar submission with the name recorded. -/
def aadhaarPayload : OfflinePayload :=
  submissionPayload "aadhaar-application" [("ask_name", .str "John Doe")]

/-- The payload of an offline PAN submission with the name recorded. -/
def panPayload : OfflinePayload :=
  submissionPayload "pan-application" [("ask_name", .str "Asha")]

/-- The offline slice after two submissions were enqueued at the same clock
reading. -/
def enqueuedTwice : OfflineState :=
  addToSyncQueue (addToSyncQueue offlineInitialState aadhaarPayload sameInstant sameInstant)
    panPayload sameInstant sameInstant

/-- The offline slice after two submissions were enqueued one millisecond apart. -/
def enqueuedApart : OfflineState :=
  addToSyncQueue (addToSyncQueue offlineInitialState aadhaarPayload sameInstant sameInstant)
    panPayload (sameInstant + 1) (sameInstant + 1)

/-- The queue item the client holds after an offline Aadhaar submission. -/
def queuedSubmission : OfflineItem :=
  { id := sameInstant, data := aadhaarPayload, timestamp := sameInstant }

/-! ## The server-side queue -/

/-- The two facts about the `SyncQueue` table the retry route relies on: `id` is
the primary key, and no row holds an item of type `document_upload` (such an
item never fails in the bulk endpoint, so it is never stored). -/
def QueueInv (db : Db) : Prop :=
  (db.syncQueue.map (fun q => q.id)).Nodup
    ∧ ∀ q ∈ db.syncQueue, q.data.type ≠ some "document_upload"

/-- The stores the backend can reach, as far as the `SyncQueue` table goes. The
table starts empty. The bulk sync endpoint is the only code that creates rows
(`sync.js:62`) and the retry route the only code that updates them
(`sync.js:203-212`); `others` stands for every other route and script, which
write the remaining tables only. -/
inductive QueueReachable : Db → Prop where
  | init (users : List User) (workflows : List WorkflowRow) (logs : List LogRow) :
    QueueReachable { users := users, workflows := workflows, syncQueue := [], logs := logs }
  | sync {db : Db} (userId : String) (items : Option (List (Option SyncItem × ItemEnv)))
      (logFault : Option String) (syncTime : Nat) :
    QueueReachable db → QueueReachable (postSync userId db items logFault syncTime).1
  | retry {db : Db} (userId : String) (syncIds : Option (List String))
      (findFault : Option String) (envOf : String → ItemEnv) :
    QueueReachable db → QueueReachable (postRetry userId db syncIds findFault envOf).1
  | others {db : Db} (users : List User) (workflows : List WorkflowRow) (logs : List LogRow) :
    QueueReachable db →
    QueueReachable
      { users := users, workflows := workflows, syncQueue := db.syncQueue, logs := logs }

/-- An environment in which the insert of `Workflow.create` is rejected because
the connection is lost. -/
def faultyEnv : ItemEnv :=
  { exampleEnv with workflowFault := some "connection lost" }

/-- The store after a bulk sync of the well-formed submission `L1` during which
the connection was lost: the item is queued as the failed row `q1`. -/
def queuedDb : Db :=
  (postSync "u1" exampleDb (some [(some submissionItem, faultyEnv)]) none 1700000999999).1

/-- The store after a bulk sync of the profile update `L4` during which
`user.update` was rejected: the item is queued as the failed row `q1`. -/
def queuedProfileDb : Db :=
  (postSync "u1" exampleDb
    (some [(some profileItem, { exampleEnv with updateFault := some "connection lost" })])
    none 1700000999999).1

/-! ## Facts about the table operations -/

theorem workflowCreate_ok {db : Db} {env : ItemEnv} {a : WorkflowAttrs} {row : WorkflowRow}
    {db1 : Db} (h : Workflow.create db env a = .ok (row, db1)) :
    db1 = { db with workflows := db.workflows ++ [row] }
      ∧ row.reference_number = a.reference_number ∧ row.id = env.uuid
      ∧ (∀ r, a.reference_number = some r → ∀ w ∈ db.workflows, w.reference_number ≠ some r)
      ∧ (∀ w ∈ db.workflows, w.id ≠ env.uuid) := by
  unfold Workflow.create at h
  split at h
  · simp at h
  · simp at h
  · split at h
    · simp at h
    · split at h
      · simp at h
      · split at h
        · simp at h
        · split at h
          · simp at h
          · split at h
            · simp at h
            · rename_i hu hr _
              simp only [Except.ok.injEq, Prod.mk.injEq] at h
              obtain ⟨h1, h2⟩ := h
              subst h1
              refine ⟨h2.symm, rfl, rfl, ?_, ?_⟩
              · intro r hr1 w hw hwr
                apply hr
                simp [hr1]
                exact ⟨w, hw, hwr⟩
              · intro w hw hid
                apply hu
                simp
                exact ⟨w, hw, hid⟩

theorem workflowCreate_keysUnique {db : Db} {env : ItemEnv} {a : WorkflowAttrs}
    {row : WorkflowRow} {db1 : Db} {r : String} (hr : a.reference_number = some r)
    (h : Workflow.create db env a = .ok (row, db1)) (hinv : KeysUnique db) :
    KeysUnique db1 := by
  obtain ⟨h1, h2, h3, h4, h5⟩ := workflowCreate_ok h
  subst h1
  unfold KeysUnique at *
  simp only [List.map_append, List.map_cons, List.map_nil]
  constructor
  · rw [List.nodup_append]
    refine ⟨hinv.1, List.nodup_singleton _, ?_⟩
    intro x hx hx1
    simp only [List.mem_singleton] at hx1
    subst hx1
    rw [List.mem_map] at hx
    obtain ⟨w, hw, hwx⟩ := hx
    rw [h3] at hwx
    exact h5 w hw hwx
  · rw [List.nodup_append]
    refine ⟨hinv.2, List.nodup_singleton _, ?_⟩
    intro x hx hx1
    simp only [List.mem_singleton] at hx1
    subst hx1
    rw [List.mem_map] at hx
    obtain ⟨w, hw, hwx⟩ := hx
    rw [h2, hr] at hwx
    exact h4 r hr w hw hwx

theorem userUpdate_ok {db : Db} {fault : Option String} {user user1 : User}
    {data : List (String × String)} {db1 : Db}
    (h : User.update db fault user data = .ok (user1, db1)) :
    user1.id = user.id ∧ db1.workflows = db.workflows ∧ userIds db1 = userIds db := by
  unfold User.update at h
  split at h
  · simp at h
  · simp only [Except.ok.injEq, Prod.mk.injEq] at h
    obtain ⟨h1, h2⟩ := h
    subst h1 h2
    refine ⟨rfl, rfl, ?_⟩
    simp only [userIds, List.map_map]
    apply List.map_congr_left
    intro u _
    simp only [Function.comp]
    split
    · rename_i hu
      have := of_decide_eq_true hu
      simpa using this.symm
    · rfl

theorem queueCreate_ok {db : Db} {fault : Option String} {row : QueueRow} {db1 : Db}
    (h : SyncQueue.create db fault row = .ok db1) :
    db1.workflows = db.workflows ∧ userIds db1 = userIds db := by
  unfold SyncQueue.create at h
  split at h
  · simp at h
  · split at h
    · simp at h
    · split at h
      · simp at h
      · simp only [Except.ok.injEq] at h
        subst h
        exact ⟨rfl, rfl⟩

theorem queueUpdate_ok {db : Db} {fault : Option String} {id : String}
    {change : QueueRow → QueueRow} {db1 : Db}
    (h : SyncQueue.update db fault id change = .ok db1) :
    db1.workflows = db.workflows ∧ userIds db1 = userIds db := by
  unfold SyncQueue.update at h
  split at h
  · simp at h
  · simp only [Except.ok.injEq] at h
    subst h
    exact ⟨rfl, rfl⟩

/-! ## Facts about the per-item helpers -/

theorem processWorkflowSubmission_cases (db : Db) (env : ItemEnv) (userId : String)
    (d : SyncData) (localId : Option String) :
    (∃ row db1, Workflow.create db env (submissionAttrs env userId d) = .ok (row, db1)
        ∧ processWorkflowSubmission db env userId (some d) localId
          = (db1, { localId := localId, status := .success, serverId := some row.id
                    referenceNumber := some (referenceNumber env.now env.random36)
                    error := none }))
      ∨ (∃ e, Workflow.create db env (submissionAttrs env userId d) = .error e
        ∧ processWorkflowSubmission db env userId (some d) localId
          = (db, { localId := localId, status := .failed, serverId := none
                   referenceNumber := none, error := some e })) := by
  unfold processWorkflowSubmission submissionAttrs
  dsimp only
  cases h : Workflow.create db env _ with
  | error e => exact Or.inr ⟨e, rfl, rfl⟩
  | ok p =>
    obtain ⟨row, db1⟩ := p
    exact Or.inl ⟨row, db1, rfl, rfl⟩

theorem processWorkflowSubmission_localId (db : Db) (env : ItemEnv) (userId : String)
    (data : Option SyncData) (localId : Option String) :
    (processWorkflowSubmission db env userId data localId).2.localId = localId := by
  cases data with
  | none => rfl
  | some d =>
    rcases processWorkflowSubmission_cases db env userId d localId with
      ⟨row, db1, -, h⟩ | ⟨e, -, h⟩ <;> rw [h]

theorem processWorkflowSubmission_keeps (db : Db) (env : ItemEnv) (userId : String)
    (data : Option SyncData) (localId : Option String) :
    userIds (processWorkflowSubmission db env userId data localId).1 = userIds db
      ∧ (KeysUnique db → KeysUnique (processWorkflowSubmission db env userId data localId).1) := by
  cases data with
  | none => exact ⟨rfl, id⟩
  | some d =>
    rcases processWorkflowSubmission_cases db env userId d localId with
      ⟨row, db1, hc, h⟩ | ⟨e, -, h⟩
    · rw [h]
      refine ⟨?_, fun hinv => workflowCreate_keysUnique rfl hc hinv⟩
      rw [(workflowCreate_ok hc).1]
      rfl
    · rw [h]
      exact ⟨rfl, id⟩

theorem processProfileUpdate_cases (db : Db) (env : ItemEnv) (userId : String)
    (data : Option SyncData) (localId : Option String) :
    (∃ user user1 db1, User.findByPk db env.findFault userId = .ok (some user)
        ∧ User.update db env.updateFault user
            (match data with
              | some d => d.profile
              | none => []) = .ok (user1, db1)
        ∧ processProfileUpdate db env userId data localId
          = (db1, { localId := localId, status := .success, serverId := some user1.id
                    referenceNumber := none, error := none }))
      ∨ (∃ e, processProfileUpdate db env userId data localId
          = (db, { localId := localId, status := .failed, serverId := none
                   referenceNumber := none, error := some e })) := by
  unfold processProfileUpdate
  dsimp only
  cases h : User.findByPk db env.findFault userId with
  | error e => exact Or.inr ⟨e, rfl⟩
  | ok o =>
    cases o with
    | none => exact Or.inr ⟨_, rfl⟩
    | some user =>
      dsimp only
      cases h1 : User.update db env.updateFault user _ with
      | error e => exact Or.inr ⟨e, rfl⟩
      | ok p =>
        obtain ⟨user1, db1⟩ := p
        exact Or.inl ⟨user, user1, db1, rfl, h1, rfl⟩

theorem processProfileUpdate_localId (db : Db) (env : ItemEnv) (userId : String)
    (data : Option SyncData) (localId : Option String) :
    (processProfileUpdate db env userId data localId).2.localId = localId := by
  rcases processProfileUpdate_cases db env userId data localId with
    ⟨user, user1, db1, -, -, h⟩ | ⟨e, h⟩ <;> rw [h]

theorem processProfileUpdate_keeps (db : Db) (env : ItemEnv) (userId : String)
    (data : Option SyncData) (localId : Option String) :
    userIds (processProfileUpdate db env userId data localId).1 = userIds db
      ∧ (processProfileUpdate db env userId data localId).1.workflows = db.workflows := by
  rcases processProfileUpdate_cases db env userId data localId with
    ⟨user, user1, db1, -, hu, h⟩ | ⟨e, h⟩
  · rw [h]
    exact ⟨(userUpdate_ok hu).2.2, (userUpdate_ok hu).2.1⟩
  · rw [h]
    exact ⟨rfl, rfl⟩

theorem dispatchItem_localId (db : Db) (env : ItemEnv) (userId : String) (item : SyncItem) :
    (dispatchItem db env userId item).2.localId = item.id := by
  unfold dispatchItem
  split
  · exact processWorkflowSubmission_localId _ _ _ _ _
  · split
    · exact processProfileUpdate_localId _ _ _ _ _
    · split <;> rfl

theorem dispatchItem_keeps (db : Db) (env : ItemEnv) (userId : String) (item : SyncItem) :
    userIds (dispatchItem db env userId item).1 = userIds db
      ∧ (KeysUnique db → KeysUnique (dispatchItem db env userId item).1) := by
  unfold dispatchItem
  split
  · exact processWorkflowSubmission_keeps _ _ _ _ _
  · split
    · have h := processProfileUpdate_keeps db env userId item.data item.id
      refine ⟨h.1, fun hinv => ?_⟩
      unfold KeysUnique at *
      rw [h.2]
      exact hinv
    · split
      · exact ⟨rfl, id⟩
      · exact ⟨rfl, id⟩

/-! ## Facts about the loop of the bulk sync endpoint -/

theorem tryBlock_keeps (userId : String) (acc : Acc) (entry : Option SyncItem) (env : ItemEnv) :
    userIds (tryBlock userId acc entry env).1.db = userIds acc.db
      ∧ (KeysUnique acc.db → KeysUnique (tryBlock userId acc entry env).1.db) := by
  cases entry with
  | none => exact ⟨rfl, id⟩
  | some item =>
    have hd := dispatchItem_keeps acc.db env userId item
    unfold tryBlock
    dsimp only
    split
    · exact hd
    · cases hq : SyncQueue.create (dispatchItem acc.db env userId item).1 env.queueFault _ with
      | error e => exact hd
      | ok db2 =>
        dsimp only
        have h2 := queueCreate_ok hq
        refine ⟨h2.2.trans hd.1, fun hinv => ?_⟩
        have := hd.2 hinv
        unfold KeysUnique at *
        rw [h2.1]
        exact this

theorem iteration_keeps (userId : String) (acc : Acc) (entry : Option SyncItem) (env : ItemEnv) :
    match iteration userId acc entry env with
    | .ok acc1 => userIds acc1.db = userIds acc.db ∧ (KeysUnique acc.db → KeysUnique acc1.db)
    | .error (acc1, _) =>
      userIds acc1.db = userIds acc.db ∧ (KeysUnique acc.db → KeysUnique acc1.db) := by
  have ht := tryBlock_keeps userId acc entry env
  unfold iteration
  rcases h : tryBlock userId acc entry env with ⟨acc1, _ | message⟩
  · rw [h] at ht
    exact ht
  · rw [h] at ht
    dsimp only
    cases entry with
    | none => exact ht
    | some item => exact ht

theorem forItems_keeps (userId : String) (items : List (Option SyncItem × ItemEnv)) :
    ∀ acc : Acc, userIds (forItems userId acc items).1.db = userIds acc.db
      ∧ (KeysUnique acc.db → KeysUnique (forItems userId acc items).1.db) := by
  induction items with
  | nil => intro acc; exact ⟨rfl, id⟩
  | cons p rest ih =>
    intro acc
    obtain ⟨entry, env⟩ := p
    have hi := iteration_keeps userId acc entry env
    unfold forItems
    cases h : iteration userId acc entry env with
    | ok acc1 =>
      rw [h] at hi
      dsimp only at hi ⊢
      exact ⟨(ih acc1).1.trans hi.1, fun hinv => (ih acc1).2 (hi.2 hinv)⟩
    | error q =>
      obtain ⟨acc1, e⟩ := q
      rw [h] at hi
      exact hi

/-- One iteration on an entry that is an object always completes, and appends
exactly one result, carrying the entry's `id`. -/
theorem iteration_object (userId : String) (acc : Acc) (item : SyncItem) (env : ItemEnv) :
    ∃ acc1, iteration userId acc (some item) env = .ok acc1
      ∧ ∃ result, acc1.results = acc.results ++ [result] ∧ result.localId = item.id := by
  have hl := dispatchItem_localId acc.db env userId item
  unfold iteration tryBlock
  dsimp only
  split
  · rename_i acc1 heq
    split at heq
    · simp only [Prod.mk.injEq, and_true] at heq
      subst heq
      exact ⟨_, rfl, _, rfl, hl⟩
    · split at heq
      · simp at heq
      · simp only [Prod.mk.injEq, and_true] at heq
        subst heq
        exact ⟨_, rfl, _, rfl, hl⟩
  · rename_i acc1 message heq
    split at heq
    · simp at heq
    · split at heq
      · simp only [Prod.mk.injEq, Option.some.injEq] at heq
        obtain ⟨h1, h2⟩ := heq
        subst h1
        exact ⟨_, rfl, _, rfl, rfl⟩
      · simp at heq

theorem forItems_objects (userId : String) (items : List (SyncItem × ItemEnv)) :
    ∀ acc : Acc, (forItems userId acc (items.map (fun p => (some p.1, p.2)))).2 = none
      ∧ (forItems userId acc (items.map (fun p => (some p.1, p.2)))).1.results.map
          (fun r => r.localId)
        = acc.results.map (fun r => r.localId) ++ items.map (fun p => p.1.id) := by
  induction items with
  | nil => intro acc; simp [forItems]
  | cons p rest ih =>
    intro acc
    obtain ⟨item, env⟩ := p
    obtain ⟨acc1, h1, result, h2, h3⟩ := iteration_object userId acc item env
    simp only [List.map_cons, forItems, h1]
    refine ⟨(ih acc1).1, ?_⟩
    rw [(ih acc1).2, h2]
    simp [h3]

/-! ## Facts about the routes -/

theorem logCreate_ok {db : Db} {fault : Option String} {row : LogRow} {db1 : Db}
    (h : Log.create db fault row = .ok db1) : db1.workflows = db.workflows := by
  unfold Log.create at h
  split at h
  · simp at h
  · split at h
    · simp at h
    · simp only [Except.ok.injEq] at h
      subst h
      rfl

theorem postSync_keeps (userId : String) (db : Db)
    (items : Option (List (Option SyncItem × ItemEnv))) (logFault : Option String)
    (syncTime : Nat) (hinv : KeysUnique db) :
    KeysUnique (postSync userId db items logFault syncTime).1 := by
  unfold postSync
  cases items with
  | none => exact hinv
  | some items =>
    dsimp only
    have hk := (forItems_keeps userId items
      { db := db, results := [], successful := 0, failed := 0 }).2 hinv
    rcases hf : forItems userId { db := db, results := [], successful := 0, failed := 0 } items
      with ⟨acc, _ | e⟩
    · rw [hf] at hk
      dsimp only at hk ⊢
      cases hl : Log.create acc.db logFault _ with
      | error e => exact hk
      | ok db1 =>
        dsimp only
        unfold KeysUnique at *
        rw [logCreate_ok hl]
        exact hk
    · rw [hf] at hk
      exact hk

theorem postSubmit_keeps (userId : String) (db : Db) (env : ItemEnv)
    (workflowId data : JsField String) (logFault : Option String) (hinv : KeysUnique db) :
    KeysUnique (postSubmit userId db env workflowId data logFault).1 := by
  unfold postSubmit
  split
  · split
    · exact hinv
    · split
      · split <;> exact hinv
      · dsimp only
        split
        · exact hinv
        · rename_i workflow db1 hc
          have h1 := workflowCreate_keysUnique rfl hc hinv
          split
          · exact h1
          · rename_i db2 hl
            dsimp only
            unfold KeysUnique at *
            rw [logCreate_ok hl]
            exact h1
  · exact hinv

theorem putStep_keeps (userId : String) (db : Db) (workflowId mergedData : String)
    (currentStep : Int) (findFault updateFault : Option String) (hinv : KeysUnique db) :
    KeysUnique (putStep userId db workflowId mergedData currentStep findFault updateFault).1 := by
  unfold putStep
  split
  · exact hinv
  · split
    · exact hinv
    · rename_i workflow hfind
      split
      · exact hinv
      · dsimp only
        have hmem : workflow ∈ db.workflows := List.mem_of_find?_eq_some hfind
        unfold KeysUnique at *
        have hid : (db.workflows.map (fun w =>
            if w.id == workflow.id then
              { workflow with workflow_data := mergedData, current_step := currentStep
                              status := "in_progress" }
            else w)).map (fun w => w.id) = db.workflows.map (fun w => w.id) := by
          rw [List.map_map]
          apply List.map_congr_left
          intro w _
          simp only [Function.comp]
          split
          · rename_i hw
            have := of_decide_eq_true hw
            simpa using this.symm
          · rfl
        have href : (db.workflows.map (fun w =>
            if w.id == workflow.id then
              { workflow with workflow_data := mergedData, current_step := currentStep
                              status := "in_progress" }
            else w)).map (fun w => w.reference_number)
              = db.workflows.map (fun w => w.reference_number) := by
          rw [List.map_map]
          apply List.map_congr_left
          intro w hw
          simp only [Function.comp]
          split
          · rename_i hwid
            have hwid1 : w.id = workflow.id := by simpa using hwid
            have : w = workflow := List.inj_on_of_nodup_map hinv.1 hw hmem hwid1
            rw [this]
          · rfl
        rw [hid, href]
        exact hinv

theorem dispatchRetry_keeps (db : Db) (env : ItemEnv) (userId : String) (queueItem : QueueRow)
    (hinv : KeysUnique db) : KeysUnique (dispatchRetry db env userId queueItem).1 := by
  unfold dispatchRetry
  split
  · exact (processWorkflowSubmission_keeps _ _ _ _ _).2 hinv
  · split
    · have h := processProfileUpdate_keeps db env userId queueItem.data.data (some queueItem.id)
      unfold KeysUnique at *
      rw [h.2]
      exact hinv
    · exact hinv

theorem retryIteration_keeps (userId : String) (acc : RetryAcc) (queueItem : QueueRow)
    (env : ItemEnv) (hinv : KeysUnique acc.db) :
    KeysUnique (retryIteration userId acc queueItem env).db := by
  have hd := dispatchRetry_keeps acc.db env userId queueItem hinv
  unfold retryIteration
  dsimp only
  split
  · cases hq : SyncQueue.update (dispatchRetry acc.db env userId queueItem).1
        env.queueUpdateFault queueItem.id _ with
    | error e => exact hd
    | ok db2 =>
      dsimp only
      unfold KeysUnique at *
      rw [(queueUpdate_ok hq).1]
      exact hd
  · cases hq : SyncQueue.update (dispatchRetry acc.db env userId queueItem).1
        env.queueUpdateFault queueItem.id _ with
    | error e => exact hd
    | ok db2 =>
      dsimp only
      unfold KeysUnique at *
      rw [(queueUpdate_ok hq).1]
      exact hd

theorem forQueueItems_keeps (userId : String) (envOf : String → ItemEnv)
    (queueItems : List QueueRow) :
    ∀ acc : RetryAcc, KeysUnique acc.db →
      KeysUnique (forQueueItems userId envOf acc queueItems).db := by
  induction queueItems with
  | nil => intro acc h; exact h
  | cons q rest ih =>
    intro acc h
    exact ih _ (retryIteration_keeps userId acc q (envOf q.id) h)

theorem postRetry_keeps (userId : String) (db : Db) (syncIds : Option (List String))
    (findFault : Option String) (envOf : String → ItemEnv) (hinv : KeysUnique db) :
    KeysUnique (postRetry userId db syncIds findFault envOf).1 := by
  unfold postRetry
  split
  · exact hinv
  · split
    · exact hinv
    · exact forQueueItems_keeps userId envOf _ _ hinv

/-! ## The bulk sync endpoint: counts, isolation, correlation -/

/-- C1 (code defect). One item of an unknown type, and a `SyncQueue.create` that
rejects: `failed++` has run in the `try` block before the rejection and runs
again in the `catch` block, so the response reports `processed = 1`,
`successful = 0`, `failed = 2` for a batch of one item. -/
theorem postSync_counts_failure_twice :
    (postSync "u1" exampleDb
        (some [(some unknownItem, { exampleEnv with queueFault := some "connection lost" })])
        none 0).2
      = .json { processed := 1, successful := 0, failed := 2
                results := [{ localId := some "L3", status := .failed, serverId := none
                              referenceNumber := none, error := some "connection lost" }]
                syncTime := 0 } := by
  decide

/-- C2 (code defect). A batch whose first entry is `null` and whose second entry
is a `document_upload`: the `catch` block reads `item.id` of `null`, the error
leaves the loop and the handler calls `next(error)`; no normal response is sent
and the store is as before. The same `document_upload` posted alone succeeds. -/
theorem postSync_null_entry_aborts :
    postSync "u1" exampleDb (some [(none, exampleEnv), (some documentItem, exampleEnv)]) none 0
        = (exampleDb, .next "Cannot read properties of null (reading 'id')")
      ∧ (postSync "u1" exampleDb (some [(some documentItem, exampleEnv)]) none 0).2
        = .json { processed := 1, successful := 1, failed := 0
                  results := [{ localId := some "L2", status := .success
                                serverId := some "doc_1700000123456"
                                referenceNumber := none, error := none }]
                  syncTime := 0 } := by
  decide

/-! ## Workflow submissions and reference numbers -/

/-- C3 (counterexample). The same `localId` `L1`, the same user and the same data
processed twice: two `Workflow` rows exist afterwards and the two results carry
different reference numbers. -/
theorem processWorkflowSubmission_not_idempotent :
    ¬ ((processWorkflowSubmission
          (processWorkflowSubmission exampleDb exampleEnv "u1" (some exampleData) (some "L1")).1
          laterEnv "u1" (some exampleData) (some "L1")).1.workflows.length = 1
        ∧ (processWorkflowSubmission exampleDb exampleEnv "u1" (some exampleData)
            (some "L1")).2.referenceNumber
          = (processWorkflowSubmission
              (processWorkflowSubmission exampleDb exampleEnv "u1" (some exampleData)
                (some "L1")).1
              laterEnv "u1" (some exampleData) (some "L1")).2.referenceNumber) := by
  decide

/-- C3 (amended). `processWorkflowSubmission` does not key on `localId`: when two
calls with the same user, data and `localId` both succeed, two `Workflow` rows
have been added, each result returns the reference number generated in its own
call, the two reference numbers differ, and both results carry the `localId`. -/
theorem processWorkflowSubmission_twice (db : Db) (envA envB : ItemEnv) (userId : String)
    (d : SyncData) (localId : Option String)
    (hA : (processWorkflowSubmission db envA userId (some d) localId).2.status = .success)
    (hB : (processWorkflowSubmission
            (processWorkflowSubmission db envA userId (some d) localId).1
            envB userId (some d) localId).2.status = .success) :
    (processWorkflowSubmission
        (processWorkflowSubmission db envA userId (some d) localId).1
        envB userId (some d) localId).1.workflows.length = db.workflows.length + 2
      ∧ (processWorkflowSubmission db envA userId (some d) localId).2.referenceNumber
        = some (referenceNumber envA.now envA.random36)
      ∧ (processWorkflowSubmission
          (processWorkflowSubmission db envA userId (some d) localId).1
          envB userId (some d) localId).2.referenceNumber
        = some (referenceNumber envB.now envB.random36)
      ∧ referenceNumber envA.now envA.random36 ≠ referenceNumber envB.now envB.random36
      ∧ (processWorkflowSubmission db envA userId (some d) localId).2.localId = localId
      ∧ (processWorkflowSubmission
          (processWorkflowSubmission db envA userId (some d) localId).1
          envB userId (some d) localId).2.localId = localId := by
  rcases processWorkflowSubmission_cases db envA userId d localId with
    ⟨rowA, dbA, hcA, hrA⟩ | ⟨e, -, hrA⟩
  · rw [hrA] at hB ⊢
    rcases processWorkflowSubmission_cases dbA envB userId d localId with
      ⟨rowB, dbB, hcB, hrB⟩ | ⟨e, -, hrB⟩
    · rw [hrB]
      obtain ⟨hA1, hA2, -, -, -⟩ := workflowCreate_ok hcA
      obtain ⟨hB1, -, -, hB4, -⟩ := workflowCreate_ok hcB
      refine ⟨?_, rfl, rfl, ?_, rfl, rfl⟩
      · rw [hB1, hA1]
        simp
      · intro heq
        refine hB4 _ rfl rowA ?_ ?_
        · rw [hA1]
          simp
        · rw [hA2]
          exact congrArg some heq
    · rw [hrB] at hB
      simp at hB
  · rw [hrA] at hA
    simp at hA

/-- C3 (amended), at the two example environments. -/
theorem processWorkflowSubmission_twice_witness :
    (processWorkflowSubmission
        (processWorkflowSubmission exampleDb exampleEnv "u1" (some exampleData) (some "L1")).1
        laterEnv "u1" (some exampleData) (some "L1")).1.workflows.length
      = exampleDb.workflows.length + 2 :=
  (processWorkflowSubmission_twice exampleDb exampleEnv laterEnv "u1" exampleData (some "L1")
    (by decide) (by decide)).1

/-- C4 (code defect). With `Date.now() = 1700000123456` and `Math.random() = 0.5`,
whose base-36 text is `0.i`, `substr(2, 3)` finds a single character: the
reference number is `REF123456I`, which does not match `REF\d{6}[A-Z0-9]{3}`.
With `Math.random() = 0`, whose text is `0`, the suffix is empty. -/
theorem referenceNumber_short_suffix :
    referenceNumber 1700000123456 "0.i" = "REF123456I"
      ∧ matchesRefFormat (referenceNumber 1700000123456 "0.i") = false
      ∧ referenceNumber 1700000123456 "0" = "REF123456"
      ∧ matchesRefFormat (referenceNumber 1700000123456 "0") = false := by
  decide

/-- C5 (counterexample). The store already holds `REF1234564FZ` and the
environment makes the generated reference number `REF1234564FZ` again: the item
ends with status `failed`. -/
theorem processWorkflowSubmission_collision_fails :
    referenceNumber exampleEnv.now exampleEnv.random36 = "REF1234564FZ"
      ∧ processWorkflowSubmission storedDb exampleEnv "u1" (some exampleData) (some "L1")
        = (storedDb, { localId := some "L1", status := .failed, serverId := none
                       referenceNumber := none, error := some "Validation error" }) := by
  decide

/-- C5 (amended). When the generated reference number equals one already stored,
`processWorkflowSubmission` generates no other one: `Workflow.create` is
rejected, the store is left as it was, and the function returns (does not
throw) a result with status `failed`, the error message and no reference
number. -/
theorem processWorkflowSubmission_collision (db : Db) (env : ItemEnv) (userId : String)
    (d : SyncData) (localId : Option String) (w : WorkflowRow) (hw : w ∈ db.workflows)
    (href : w.reference_number = some (referenceNumber env.now env.random36)) :
    ∃ e, processWorkflowSubmission db env userId (some d) localId
      = (db, { localId := localId, status := .failed, serverId := none
               referenceNumber := none, error := some e }) := by
  rcases processWorkflowSubmission_cases db env userId d localId with
    ⟨row, db1, hc, -⟩ | ⟨e, -, hr⟩
  · exact absurd href ((workflowCreate_ok hc).2.2.2.1 _ rfl w hw)
  · exact ⟨e, hr⟩

/-- C5 (amended), at the store that already holds `REF1234564FZ`. -/
theorem processWorkflowSubmission_collision_witness :
    ∃ e, processWorkflowSubmission storedDb exampleEnv "u1" (some exampleData) (some "L1")
      = (storedDb, { localId := some "L1", status := .failed, serverId := none
                     referenceNumber := none, error := some e }) :=
  processWorkflowSubmission_collision storedDb exampleEnv "u1" exampleData (some "L1")
    { id := "w0", user_id := "u1", workflow_type := "pan-application"
      workflow_data := "\x7b\x7d", current_step := 0, status := "completed"
      reference_number := some "REF1234564FZ", completed_at := some 1699000123456 }
    (by decide) (by decide)

/-- C6. In every store reachable through bulk syncs, direct submissions, step
updates, retries, single creates and writes to the other tables, no two
`Workflow` rows carry the same `reference_number`: `Workflow.create` rejects a reference
number that is already stored, and no route rewrites a stored one. -/
theorem reachable_refs_unique (db : Db) (h : Reachable db) :
    (db.workflows.map (fun w => w.reference_number)).Nodup := by
  suffices hk : KeysUnique db from hk.2
  induction h with
  | init users => exact ⟨List.nodup_nil, List.nodup_nil⟩
  | sync userId items logFault syncTime _ ih => exact postSync_keeps userId _ items logFault syncTime ih
  | submit userId env workflowId data logFault _ ih =>
    exact postSubmit_keeps userId _ env workflowId data logFault ih
  | step userId workflowId mergedData currentStep findFault updateFault _ ih =>
    exact putStep_keeps userId _ workflowId mergedData currentStep findFault updateFault ih
  | retry userId syncIds findFault envOf _ ih =>
    exact postRetry_keeps userId _ syncIds findFault envOf ih
  | create env attrs ref row db1 href hcreate _ ih =>
    exact workflowCreate_keysUnique href hcreate ih
  | others users syncQueue logs _ ih => exact ih

/-- C6, at the store reached by one bulk sync followed by one direct submission. -/
theorem reachable_refs_unique_witness :
    ((postSubmit "u1"
        (postSync "u1" exampleDb (some [(some submissionItem, exampleEnv)]) none 0).1
        laterEnv (.value "pan-application") (.value "\x7b\x7d") none).1.workflows.map
      (fun w => w.reference_number)).Nodup :=
  reachable_refs_unique _
    (Reachable.submit "u1" laterEnv (.value "pan-application") (.value "\x7b\x7d") none
      (Reachable.sync "u1" (some [(some submissionItem, exampleEnv)]) none 0
        (Reachable.init [{ id := "u1", attrs := [("name", "Asha")] }])))

/-- C7. For every batch whose entries are objects, posted by a user present in
the store while the log write is accepted, the endpoint answers normally, and
the `localId`s of the results are the `id`s of the items, one per item and in
the same order. -/
theorem postSync_results_correlate (userId : String) (db : Db)
    (items : List (SyncItem × ItemEnv)) (syncTime : Nat) (huser : userId ∈ userIds db) :
    ∃ db1 body,
      postSync userId db (some (items.map (fun p => (some p.1, p.2)))) none syncTime
          = (db1, .json body)
        ∧ body.results.map (fun r => r.localId) = items.map (fun p => p.1.id)
        ∧ body.results.length = items.length
        ∧ body.processed = items.length := by
  have hk := (forItems_keeps userId (items.map (fun p => (some p.1, p.2)))
    { db := db, results := [], successful := 0, failed := 0 }).1
  obtain ⟨h1, h2⟩ := forItems_objects userId items
    { db := db, results := [], successful := 0, failed := 0 }
  rcases hf : forItems userId { db := db, results := [], successful := 0, failed := 0 }
      (items.map (fun p => (some p.1, p.2))) with ⟨acc, o⟩
  rw [hf] at h1 h2 hk
  dsimp only at h1 h2 hk
  subst h1
  have hu : acc.db.users.any (fun u => u.id == userId) = true := by
    rw [← hk] at huser
    simp only [userIds, List.mem_map] at huser
    obtain ⟨u, hu1, hu2⟩ := huser
    simp only [List.any_eq_true, beq_iff_eq]
    exact ⟨u, hu1, hu2⟩
  simp only [postSync, hf, Log.create, hu, Bool.not_true, Bool.false_eq_true, if_false]
  refine ⟨_, _, rfl, ?_, ?_, ?_⟩
  · simpa using h2
  · have := congrArg List.length h2
    simpa using this
  · simp

/-- C7, at a batch of four items of the four kinds. -/
theorem postSync_results_correlate_witness :
    ∃ db1 body,
      postSync "u1" exampleDb
          (some ([(submissionItem, exampleEnv), (documentItem, exampleEnv),
                  (unknownItem, exampleEnv), (profileItem, exampleEnv)].map
            (fun p => (some p.1, p.2)))) none 0
          = (db1, .json body)
        ∧ body.results.map (fun r => r.localId)
          = [(submissionItem, exampleEnv), (documentItem, exampleEnv),
             (unknownItem, exampleEnv), (profileItem, exampleEnv)].map (fun p => p.1.id)
        ∧ body.results.length = 4
        ∧ body.processed = 4 :=
  postSync_results_correlate "u1" exampleDb
    [(submissionItem, exampleEnv), (documentItem, exampleEnv),
     (unknownItem, exampleEnv), (profileItem, exampleEnv)] 0 (by decide)

/-- C8. `processProfileUpdate` always returns a result carrying `localId`. When
no user has the given id the result has status `failed` and the store is
unchanged, with error `User not found` once the lookup itself completes. When a
user has the given id and neither the lookup nor the update is rejected, the
result has status `success` and `serverId` equal to that user's id. -/
theorem processProfileUpdate_outcomes (db : Db) (env : ItemEnv) (userId : String)
    (data : Option SyncData) (localId : Option String) :
    (processProfileUpdate db env userId data localId).2.localId = localId
      ∧ ((∀ u ∈ db.users, u.id ≠ userId) →
          (processProfileUpdate db env userId data localId).2.status = .failed
            ∧ (processProfileUpdate db env userId data localId).1 = db
            ∧ (env.findFault = none →
                (processProfileUpdate db env userId data localId).2.error
                  = some "User not found"))
      ∧ (∀ user ∈ db.users, user.id = userId → env.findFault = none → env.updateFault = none →
          (processProfileUpdate db env userId data localId).2
            = { localId := localId, status := .success, serverId := some user.id
                referenceNumber := none, error := none }) := by
  refine ⟨processProfileUpdate_localId db env userId data localId, ?_, ?_⟩
  · intro hno
    have hfind : db.users.find? (fun u => u.id == userId) = none := by
      rw [List.find?_eq_none]
      intro u hu
      simpa using hno u hu
    unfold processProfileUpdate User.findByPk
    cases env.findFault with
    | some e => simp
    | none => simp [hfind]
  · intro user huser hid hf hu
    have hfind : ∃ found, db.users.find? (fun u => u.id == userId) = some found := by
      cases hc : db.users.find? (fun u => u.id == userId) with
      | some found => exact ⟨found, rfl⟩
      | none =>
        rw [List.find?_eq_none] at hc
        exact absurd hid (by simpa using hc user huser)
    obtain ⟨found, hfound⟩ := hfind
    have hfid : found.id = userId := by
      have := List.find?_some hfound
      simpa using this
    unfold processProfileUpdate User.findByPk User.update
    simp [hf, hu, hfound, hfid, hid]

/-- C8, at a store with the user `u1` and without a user `nobody`. -/
theorem processProfileUpdate_outcomes_witness :
    (processProfileUpdate exampleDb exampleEnv "nobody" profileItem.data (some "L4")).2.error
        = some "User not found"
      ∧ (processProfileUpdate exampleDb exampleEnv "u1" profileItem.data (some "L4")).2
        = { localId := some "L4", status := .success, serverId := some "u1"
            referenceNumber := none, error := none } :=
  ⟨((processProfileUpdate_outcomes exampleDb exampleEnv "nobody" profileItem.data
      (some "L4")).2.1 (by decide)).2.2 rfl,
   (processProfileUpdate_outcomes exampleDb exampleEnv "u1" profileItem.data (some "L4")).2.2
      { id := "u1", attrs := [("name", "Asha")] } (by decide) rfl rfl rfl⟩

/-! ## Facts about the workflow slice and the stepper screen -/

theorem lookup_map_set (k : String) (v : JsValue) (k1 : String) :
    ∀ base : List (String × JsValue),
      (base.map (fun p => if p.1 == k then (k, v) else p)).lookup k1
        = if k1 = k then (base.lookup k).map (fun _ => v) else base.lookup k1 := by
  intro base
  induction base with
  | nil => simp [List.lookup]
  | cons p rest ih =>
    obtain ⟨a, b⟩ := p
    rw [List.map_cons]
    by_cases h1 : a = k
    · subst h1
      simp only [beq_self_eq_true, if_true, List.lookup_cons, ih]
      by_cases h3 : k1 = a
      · subst h3
        simp
      · have : (k1 == a) = false := by simpa using h3
        simp [this, h3]
    · have hne : (a == k) = false := by simpa using h1
      simp only [hne, Bool.false_eq_true, if_false, List.lookup_cons, ih]
      by_cases h3 : k1 = a
      · subst h3
        have : (k == k1) = false := by simpa using fun h => h1 h.symm
        simp [h1, this]
      · have h4 : (k1 == a) = false := by simpa using h3
        by_cases h2 : k1 = k
        · subst h2
          have : (k1 == a) = false := by simpa using h3
          simp [this]
        · have h5 : (k == a) = false := by simpa using fun h => h1 h.symm
          simp [h4, h2, h5]

theorem lookup_append_single (k : String) (v : JsValue) (k1 : String) :
    ∀ base : List (String × JsValue),
      (base ++ [(k, v)]).lookup k1
        = match base.lookup k1 with
          | some w => some w
          | none => if k1 = k then some v else none := by
  intro base
  induction base with
  | nil =>
    by_cases h : k1 = k
    · subst h
      simp [List.lookup_cons]
    · have hne : (k1 == k) = false := by simpa using h
      simp [List.lookup_cons, hne, h]
  | cons p rest ih =>
    obtain ⟨a, b⟩ := p
    rw [List.cons_append]
    simp only [List.lookup_cons, ih]
    by_cases h : k1 = a
    · subst h
      simp
    · have hne : (k1 == a) = false := by simpa using h
      simp [hne]

theorem any_key_eq_lookup (k : String) :
    ∀ base : List (String × JsValue),
      base.any (fun p => p.1 == k) = (base.lookup k).isSome := by
  intro base
  induction base with
  | nil => rfl
  | cons p rest ih =>
    obtain ⟨a, b⟩ := p
    simp only [List.any_cons, List.lookup_cons, ih]
    by_cases h : k = a
    · subst h
      simp
    · have hne : (k == a) = false := by simpa using h
      have hne1 : (a == k) = false := by simpa using fun h1 => h h1.symm
      simp [hne, hne1]

/-- Reading a key after `{ ...base, [k]: v }`. -/
theorem lookup_spread_single (base : List (String × JsValue)) (k : String) (v : JsValue)
    (k1 : String) :
    (spread base [(k, v)]).lookup k1 = if k1 = k then some v else base.lookup k1 := by
  unfold spread
  rw [any_key_eq_lookup]
  cases hk : base.lookup k with
  | none =>
    simp only [Option.isSome_none, Bool.false_eq_true, if_false, spread, lookup_append_single]
    by_cases h : k1 = k
    · subst h
      simp [hk]
    · simp only [h, if_false]
      cases base.lookup k1 <;> rfl
  | some w =>
    simp only [Option.isSome_some, if_true, spread, lookup_map_set, hk, Option.map_some']

theorem answered_of_empty (definition : WorkflowDefinition) (state : WorkflowState)
    (h : state.workflowData = []) : Answered definition state := by
  intro step _ _ v hv
  rw [h] at hv
  simp [List.lookup] at hv

theorem answered_of_same_data (definition : WorkflowDefinition) (s1 s2 : WorkflowState)
    (h : s2.workflowData = s1.workflowData) (hinv : Answered definition s1) :
    Answered definition s2 := by
  intro step hs ha v hv
  rw [h] at hv
  exact hinv step hs ha v hv

theorem step_mem {definition : WorkflowDefinition} {i : Nat} {step : Step}
    (h : definition.steps[i]? = some step) : step ∈ definition.steps := by
  rw [List.getElem?_eq_some_iff] at h
  obtain ⟨hi, hget⟩ := h
  rw [← hget]
  exact List.getElem_mem hi

theorem handleSubmitWorkflow_data (state : WorkflowState) (env : SubmitEnv) :
    (handleSubmitWorkflow state env).1 = state
      ∨ (handleSubmitWorkflow state env).1 = completeWorkflow state env.now := by
  unfold handleSubmitWorkflow
  split
  · exact Or.inl rfl
  · split
    · split
      · exact Or.inl rfl
      · exact Or.inr rfl
      · exact Or.inl rfl
    · exact Or.inr rfl

theorem handleNextStep_cases (definition : WorkflowDefinition) (state : WorkflowState)
    (env : SubmitEnv) :
    (handleNextStep definition state env).1 = state
      ∨ ((handleNextStep definition state env).1 = nextStep state
          ∧ (handleNextStep definition state env).2 = []
          ∧ state.currentStep + 1 < definition.steps.length)
      ∨ (handleNextStep definition state env).1 = completeWorkflow state env.now := by
  unfold handleNextStep
  split
  · exact Or.inl rfl
  · split
    · exact Or.inl rfl
    · split
      · rename_i hlt
        refine Or.inr (Or.inl ⟨rfl, rfl, ?_⟩)
        omega
      · rcases handleSubmitWorkflow_data state env with h | h
        · exact Or.inl h
        · exact Or.inr (Or.inr h)

theorem handleVoiceInput_answered (definition : WorkflowDefinition) (state : WorkflowState)
    (asr : Except String (Option String))
    (hkeys : (definition.steps.map (fun s => s.key)).Nodup) (hinv : Answered definition state) :
    Answered definition (handleVoiceInput definition state asr).1
      ∧ (handleVoiceInput definition state asr).1.currentStep = state.currentStep
      ∧ ∀ eff ∈ (handleVoiceInput definition state asr).2, eff.isSubmission = false := by
  unfold handleVoiceInput
  split
  · exact ⟨hinv, rfl, by simp [Effect.isSubmission]⟩
  · exact ⟨hinv, rfl, by simp⟩
  · split
    · exact ⟨hinv, rfl, by simp [Effect.isSubmission]⟩
    · rename_i transcription current hcur
      split
      · exact ⟨hinv, rfl, by simp [Effect.isSubmission]⟩
      · rename_i validation hval
        split
        · rename_i hok
          refine ⟨?_, rfl, by simp⟩
          intro step hs ha v hv
          simp only [updateWorkflowData, lookup_spread_single] at hv
          by_cases hk : step.key = current.key
          · have hsame : step = current :=
              List.inj_on_of_nodup_map hkeys hs (step_mem hcur) hk
            simp only [hk, if_true, Option.some.injEq] at hv
            subst hv
            rw [hsame]
            exact ⟨validation, hval, hok⟩
          · simp only [hk, if_false] at hv
            exact hinv step hs ha v hv
        · exact ⟨hinv, rfl, by simp [Effect.isSubmission]⟩

theorem handleScanDocument_answered (definition : WorkflowDefinition) (state : WorkflowState)
    (ocrResult : String)
    (hkeys : (definition.steps.map (fun s => s.key)).Nodup) (hinv : Answered definition state) :
    Answered definition (handleScanDocument definition state ocrResult)
      ∧ (handleScanDocument definition state ocrResult).currentStep = state.currentStep := by
  unfold handleScanDocument
  split
  · exact ⟨hinv, rfl⟩
  · rename_i current hcur
    split
    · rename_i hocr
      refine ⟨?_, rfl⟩
      intro step hs ha v hv
      simp only [updateWorkflowData, lookup_spread_single] at hv
      by_cases hk : step.key = current.key
      · have hsame : step = current :=
          List.inj_on_of_nodup_map hkeys hs (step_mem hcur) hk
        rw [hsame, hocr] at ha
        simp at ha
      · simp only [hk, if_false] at hv
        exact hinv step hs ha v hv
    · exact ⟨hinv, rfl⟩

theorem handlePreviousStep_le (state : WorkflowState) :
    (handlePreviousStep state).currentStep ≤ state.currentStep
      ∧ (handlePreviousStep state).workflowData = state.workflowData := by
  by_cases h : state.currentStep > 0
  · simp [handlePreviousStep, previousStep, h]
  · simp [handlePreviousStep, h]

theorem applyEvent_answered (definition : WorkflowDefinition) (state : WorkflowState)
    (e : Event) (hkeys : (definition.steps.map (fun s => s.key)).Nodup)
    (hinv : Answered definition state) :
    Answered definition (applyEvent definition state e).1 := by
  cases e with
  | select workflow => exact answered_of_empty definition _ rfl
  | voice asr => exact (handleVoiceInput_answered definition state asr hkeys hinv).1
  | next env =>
    show Answered definition (handleNextStep definition state env).1
    rcases handleNextStep_cases definition state env with h | ⟨h, -, -⟩ | h
    · rw [h]
      exact hinv
    · rw [h]
      exact answered_of_same_data definition state _ rfl hinv
    · rw [h]
      exact answered_of_empty definition _ rfl
  | back =>
    exact answered_of_same_data definition state _ (handlePreviousStep_le state).2 hinv
  | scan ocrResult => exact (handleScanDocument_answered definition state ocrResult hkeys hinv).1

theorem run_answered (definition : WorkflowDefinition)
    (hkeys : (definition.steps.map (fun s => s.key)).Nodup) (events : List Event) :
    ∀ state, Answered definition state → Answered definition (run definition state events) := by
  induction events with
  | nil => intro state h; exact h
  | cons e rest ih =>
    intro state h
    exact ih _ (applyEvent_answered definition state e hkeys h)

theorem applyEvent_in_range (definition : WorkflowDefinition) (state : WorkflowState)
    (e : Event) (hlen : 1 ≤ definition.steps.length)
    (h : state.currentStep < definition.steps.length) :
    (applyEvent definition state e).1.currentStep < definition.steps.length := by
  cases e with
  | select workflow => exact hlen
  | voice asr =>
    have := (handleVoiceInput_answered definition state asr)
    show (handleVoiceInput definition state asr).1.currentStep < _
    unfold handleVoiceInput
    split
    · exact h
    · exact h
    · split
      · exact h
      · split
        · exact h
        · split
          · exact h
          · exact h
  | next env =>
    show (handleNextStep definition state env).1.currentStep < _
    rcases handleNextStep_cases definition state env with h1 | ⟨h1, -, h2⟩ | h1
    · rw [h1]
      exact h
    · rw [h1]
      exact h2
    · rw [h1]
      exact hlen
  | back => exact lt_of_le_of_lt (handlePreviousStep_le state).1 h
  | scan ocrResult =>
    show (handleScanDocument definition state ocrResult).currentStep < _
    unfold handleScanDocument
    split
    · exact h
    · split
      · exact h
      · exact h

theorem run_in_range (definition : WorkflowDefinition) (hlen : 1 ≤ definition.steps.length)
    (events : List Event) :
    ∀ state, state.currentStep < definition.steps.length →
      (run definition state events).currentStep < definition.steps.length := by
  induction events with
  | nil => intro state h; exact h
  | cons e rest ih =>
    intro state h
    exact ih _ (applyEvent_in_range definition state e hlen h)

/-- Every definition in the table of `loadWorkflow` is well formed. -/
theorem shipped_wellFormed : ∀ d ∈ workflows, d.WellFormed := by
  intro d hd
  simp only [workflows, List.mem_cons, List.mem_singleton, List.not_mem_nil, or_false] at hd
  rcases hd with rfl | rfl | rfl <;> exact ⟨by decide, by decide⟩

/-! ## The workflow session: answers and step index -/

/-- C9. For every well-formed definition (unique step keys, none of them a name
inherited from `Object.prototype`) and every sequence of user events (select,
voice answer, next, back, scan) from the initial state: when the current step
is of type `ask` and an event moves the session forward or hands the data over
for submission, `workflowData` holds under that step's key a non-empty value
for which `validateStepData` reports `isValid`. Answers are recorded by
`handleVoiceInput`, which dispatches `updateWorkflowData` only after
`validateStepData` accepted the value; `handleNextStep` checks that a value is
present and is the only dispatcher of `nextStep`. -/
theorem advance_requires_valid_answer (definition : WorkflowDefinition)
    (hwf : definition.WellFormed) (events : List Event) (e : Event) (step : Step)
    (hstep : definition.steps[(run definition initialState events).currentStep]? = some step)
    (hask : step.type = "ask")
    (hmove : (run definition initialState events).currentStep
          < (applyEvent definition (run definition initialState events) e).1.currentStep
        ∨ ∃ eff ∈ (applyEvent definition (run definition initialState events) e).2,
            eff.isSubmission = true) :
    (getProp (run definition initialState events).workflowData step.key).truthy = true
      ∧ ∃ validation,
          validateStepData step (getProp (run definition initialState events).workflowData step.key)
            = .ok validation
          ∧ validation.isValid = true := by
  have hinv : Answered definition (run definition initialState events) :=
    run_answered definition hwf.1 events initialState
      (answered_of_empty definition initialState rfl)
  generalize run definition initialState events = s at hstep hmove hinv ⊢
  have hmem : step ∈ definition.steps := step_mem hstep
  have htruthy : (getProp s.workflowData step.key).truthy = true := by
    cases e with
    | select workflow =>
      rcases hmove with h | ⟨eff, heff, -⟩
      · exact absurd h (Nat.not_lt_zero _)
      · simp [applyEvent] at heff
    | voice asr =>
      obtain ⟨-, h1, h2⟩ := handleVoiceInput_answered definition s asr hwf.1 hinv
      rcases hmove with h | ⟨eff, heff, hsub⟩
      · simp only [applyEvent] at h
        omega
      · simp only [applyEvent] at heff
        rw [h2 eff heff] at hsub
        simp at hsub
    | back =>
      rcases hmove with h | ⟨eff, heff, -⟩
      · have := (handlePreviousStep_le s).1
        simp only [applyEvent] at h
        omega
      · simp [applyEvent] at heff
    | scan ocrResult =>
      rcases hmove with h | ⟨eff, heff, -⟩
      · have := (handleScanDocument_answered definition s ocrResult hwf.1 hinv).2
        simp only [applyEvent] at h
        omega
      · simp [applyEvent] at heff
    | next env =>
      by_contra hnot
      have hfalse : (getProp s.workflowData step.key).truthy = false := by
        simpa using hnot
      have hblocked : handleNextStep definition s env = (s, [.alert "Required Field"]) := by
        simp [handleNextStep, hstep, hask, hfalse]
      simp only [applyEvent, hblocked] at hmove
      rcases hmove with h | ⟨eff, heff, hsub⟩
      · exact absurd h (lt_irrefl _)
      · simp only [List.mem_singleton] at heff
        subst heff
        simp [Effect.isSubmission] at hsub
  refine ⟨htruthy, ?_⟩
  unfold getProp at htruthy ⊢
  cases hl : s.workflowData.lookup step.key with
  | some v => exact hinv step hmem hask v hl
  | none =>
    rw [hl] at htruthy
    simp only [hwf.2 step hmem, if_false, JsValue.truthy] at htruthy
    exact absurd htruthy (by simp)

/-- C9, in the Aadhaar workflow after `John Doe` was recorded for the name step:
pressing next moves forward from the `ask` step `ask_name`. -/
theorem advance_requires_valid_answer_witness :
    (getProp (run aadhaarApplication initialState nameAnswered).workflowData "ask_name").truthy
        = true
      ∧ ∃ validation,
          validateStepData { type := "ask", key := "ask_name", validation := some "required" }
              (getProp (run aadhaarApplication initialState nameAnswered).workflowData "ask_name")
            = .ok validation
          ∧ validation.isValid = true :=
  advance_requires_valid_answer aadhaarApplication
    ⟨by decide, by decide⟩ nameAnswered (.next onlineEnv)
    { type := "ask", key := "ask_name", validation := some "required" }
    (by decide) rfl (Or.inl (by decide))

/-- C10. For every definition with at least one step and every sequence of user
events (select, voice answer, next, back, scan) from the initial state,
`currentStep` is below the number of steps; and at the last step
`handleNextStep` does not increment it (it stays, or the completed session is
reset to step 0). `handleNextStep` is the only dispatcher of `nextStep`. -/
theorem currentStep_stays_in_range (definition : WorkflowDefinition)
    (hlen : 1 ≤ definition.steps.length) (events : List Event) :
    (run definition initialState events).currentStep < definition.steps.length
      ∧ ∀ env, (run definition initialState events).currentStep + 1 = definition.steps.length →
          (handleNextStep definition (run definition initialState events) env).1.currentStep
            ≤ (run definition initialState events).currentStep := by
  have hrange := run_in_range definition hlen events initialState hlen
  refine ⟨hrange, ?_⟩
  intro env hlast
  rcases handleNextStep_cases definition (run definition initialState events) env with
    h | ⟨-, -, h⟩ | h
  · rw [h]
  · omega
  · rw [h]
    exact Nat.zero_le _

/-- C10, in the Aadhaar workflow at its last step, where pressing next submits. -/
theorem currentStep_stays_in_range_witness :
    (run aadhaarApplication initialState atLastStep).currentStep
        < aadhaarApplication.steps.length
      ∧ (handleNextStep aadhaarApplication (run aadhaarApplication initialState atLastStep)
          onlineEnv).1.currentStep
        ≤ (run aadhaarApplication initialState atLastStep).currentStep :=
  ⟨(currentStep_stays_in_range aadhaarApplication (by decide) atLastStep).1,
   (currentStep_stays_in_range aadhaarApplication (by decide) atLastStep).2 onlineEnv
      (by decide)⟩

/-! ## Facts about the object spread -/

theorem spread_single (base : List (String × JsValue)) (k : String) (v : JsValue) :
    spread base [(k, v)]
      = if base.any (fun p => p.1 == k) then base.map (fun p => if p.1 == k then (k, v) else p)
        else base ++ [(k, v)] := by
  unfold spread
  split <;> rfl

theorem spread_cons (base : List (String × JsValue)) (k : String) (v : JsValue)
    (rest : List (String × JsValue)) :
    spread base ((k, v) :: rest) = spread (spread base [(k, v)]) rest := by
  rw [spread_single]
  conv => lhs; unfold spread
  split <;> rfl

/-- Reading a key after `{ ...base, ...payload }` when the payload is an object. -/
theorem lookup_spread (payload : List (String × JsValue)) :
    ∀ base : List (String × JsValue), IsObject payload → ∀ a,
      (spread base payload).lookup a
        = match payload.lookup a with
          | some v => some v
          | none => base.lookup a := by
  induction payload with
  | nil => intro base _ a; rfl
  | cons p rest ih =>
    intro base hobj a
    obtain ⟨k, v⟩ := p
    have hk : k ∉ rest.map (fun p => p.1) := (List.nodup_cons.mp hobj).1
    have hrest : IsObject rest := (List.nodup_cons.mp hobj).2
    rw [spread_cons, ih _ hrest a, lookup_spread_single, List.lookup_cons]
    by_cases ha : a = k
    · subst ha
      have hnone : rest.lookup a = none := by
        rw [List.lookup_eq_none_iff]
        intro q hq
        simp only [bne_iff_ne, ne_eq]
        intro hqa
        apply hk
        rw [List.mem_map]
        exact ⟨q, hq, hqa.symm⟩
      simp [hnone]
    · have hne : (a == k) = false := by simpa using ha
      simp only [hne, ha, if_false]

theorem mem_spread_single_key {base : List (String × JsValue)} {k : String} {v : JsValue}
    {a : String} {b : JsValue} (h : (a, b) ∈ spread base [(k, v)]) (hak : a = k) : b = v := by
  rw [spread_single] at h
  split at h
  · rw [List.mem_map] at h
    obtain ⟨q, _, hq⟩ := h
    split at hq
    · simp only [Prod.mk.injEq] at hq
      exact hq.2.symm
    · rename_i hne
      subst hq
      exact absurd (by simpa using hak) hne
  · rename_i hany
    rw [List.mem_append] at h
    rcases h with h | h
    · exfalso
      apply hany
      rw [List.any_eq_true]
      exact ⟨(a, b), h, by simpa using hak⟩
    · simp only [List.mem_singleton, Prod.mk.injEq] at h
      exact h.2

theorem mem_spread_single_other {base : List (String × JsValue)} {k : String} {v : JsValue}
    {a : String} {b : JsValue} (h : (a, b) ∈ spread base [(k, v)]) (hak : a ≠ k) :
    (a, b) ∈ base := by
  rw [spread_single] at h
  split at h
  · rw [List.mem_map] at h
    obtain ⟨q, hq1, hq⟩ := h
    split at hq
    · simp only [Prod.mk.injEq] at hq
      exact absurd hq.1.symm hak
    · subst hq
      exact hq1
  · rw [List.mem_append] at h
    rcases h with h | h
    · exact h
    · simp only [List.mem_singleton, Prod.mk.injEq] at h
      exact absurd h.1 hak

theorem keys_spread_single (base : List (String × JsValue)) (k : String) (v : JsValue) :
    k ∈ (spread base [(k, v)]).map (fun p => p.1)
      ∧ ∀ a ∈ base.map (fun p => p.1), a ∈ (spread base [(k, v)]).map (fun p => p.1) := by
  rw [spread_single]
  split
  · rename_i hany
    have hkeys : (base.map (fun p => if p.1 == k then (k, v) else p)).map (fun p => p.1)
        = base.map (fun p => p.1) := by
      rw [List.map_map]
      apply List.map_congr_left
      intro q _
      simp only [Function.comp]
      split
      · rename_i hq
        simpa using (beq_iff_eq.mp hq).symm
      · rfl
    rw [hkeys]
    refine ⟨?_, fun a ha => ha⟩
    rw [List.any_eq_true] at hany
    obtain ⟨q, hq1, hq2⟩ := hany
    rw [List.mem_map]
    exact ⟨q, hq1, by simpa using hq2⟩
  · simp only [List.map_append, List.map_cons, List.map_nil, List.mem_append,
      List.mem_singleton, or_true, true_and]
    intro a ha
    exact Or.inl ha

theorem spread_single_same {base : List (String × JsValue)} {k : String} {v : JsValue}
    (hk : k ∈ base.map (fun p => p.1)) (hv : ∀ q ∈ base, q.1 = k → q.2 = v) :
    spread base [(k, v)] = base := by
  rw [spread_single]
  have hany : base.any (fun p => p.1 == k) = true := by
    rw [List.mem_map] at hk
    obtain ⟨q, hq1, hq2⟩ := hk
    rw [List.any_eq_true]
    exact ⟨q, hq1, by simpa using hq2⟩
  rw [if_pos hany]
  conv => rhs; rw [← List.map_id base]
  apply List.map_congr_left
  intro q hq
  split
  · rename_i hqk
    have h1 : q.1 = k := by simpa using hqk
    have h2 := hv q hq h1
    rw [← h1, ← h2]
    rfl
  · rfl

theorem mem_spread_outside (rest : List (String × JsValue)) :
    ∀ base : List (String × JsValue), ∀ a b, (a, b) ∈ spread base rest →
      a ∉ rest.map (fun p => p.1) → (a, b) ∈ base := by
  induction rest with
  | nil => intro base a b h _; exact h
  | cons p rest ih =>
    intro base a b h ha
    obtain ⟨k, v⟩ := p
    rw [spread_cons] at h
    simp only [List.map_cons, List.mem_cons, not_or] at ha
    exact mem_spread_single_other (ih _ a b h ha.2) ha.1

theorem keys_spread_mono (rest : List (String × JsValue)) :
    ∀ base : List (String × JsValue), ∀ a ∈ base.map (fun p => p.1),
      a ∈ (spread base rest).map (fun p => p.1) := by
  induction rest with
  | nil => intro base a h; exact h
  | cons p rest ih =>
    intro base a h
    obtain ⟨k, v⟩ := p
    rw [spread_cons]
    exact ih _ a ((keys_spread_single base k v).2 a h)

theorem keys_spread_payload (payload : List (String × JsValue)) :
    ∀ base : List (String × JsValue), ∀ a ∈ payload.map (fun p => p.1),
      a ∈ (spread base payload).map (fun p => p.1) := by
  induction payload with
  | nil => intro base a h; simp at h
  | cons p rest ih =>
    intro base a h
    obtain ⟨k, v⟩ := p
    rw [spread_cons]
    simp only [List.map_cons, List.mem_cons] at h
    rcases h with h | h
    · subst h
      exact keys_spread_mono rest _ a (keys_spread_single base a v).1
    · exact ih _ a h

theorem mem_spread_payload (payload : List (String × JsValue)) :
    ∀ base : List (String × JsValue), IsObject payload → ∀ a b,
      (a, b) ∈ spread base payload → a ∈ payload.map (fun p => p.1) →
      payload.lookup a = some b := by
  induction payload with
  | nil => intro base _ a b _ h; simp at h
  | cons p rest ih =>
    intro base hobj a b hmem ha
    obtain ⟨k, v⟩ := p
    have hk : k ∉ rest.map (fun p => p.1) := (List.nodup_cons.mp hobj).1
    have hrest : IsObject rest := (List.nodup_cons.mp hobj).2
    rw [spread_cons] at hmem
    rw [List.lookup_cons]
    by_cases har : a ∈ rest.map (fun p => p.1)
    · have hak : a ≠ k := fun h => hk (h ▸ har)
      have hne : (a == k) = false := by simpa using hak
      simp only [hne]
      exact ih _ hrest a b hmem har
    · simp only [List.map_cons, List.mem_cons] at ha
      have hak : a = k := ha.resolve_right har
      have hin := mem_spread_outside rest _ a b hmem har
      have hb := mem_spread_single_key hin hak
      subst hak
      simp [hb]

theorem spread_same (payload : List (String × JsValue)) :
    ∀ base : List (String × JsValue), IsObject payload →
      (∀ a ∈ payload.map (fun p => p.1), a ∈ base.map (fun p => p.1)) →
      (∀ q ∈ base, q.1 ∈ payload.map (fun p => p.1) → payload.lookup q.1 = some q.2) →
      spread base payload = base := by
  induction payload with
  | nil => intro base _ _ _; rfl
  | cons p rest ih =>
    intro base hobj hkeys hvals
    obtain ⟨k, v⟩ := p
    have hk : k ∉ rest.map (fun p => p.1) := (List.nodup_cons.mp hobj).1
    have hrest : IsObject rest := (List.nodup_cons.mp hobj).2
    have hsingle : spread base [(k, v)] = base := by
      apply spread_single_same (hkeys k (by simp))
      intro q hq hqk
      have := hvals q hq (by simp [hqk])
      rw [List.lookup_cons, hqk] at this
      simpa using this.symm
    rw [spread_cons, hsingle]
    apply ih base hrest
    · intro a ha
      exact hkeys a (by simp only [List.map_cons, List.mem_cons]; exact Or.inr ha)
    · intro q hq hqr
      have := hvals q hq (by simp only [List.map_cons, List.mem_cons]; exact Or.inr hqr)
      rw [List.lookup_cons] at this
      have hqk : q.1 ≠ k := fun h => hk (h ▸ hqr)
      have hne : (q.1 == k) = false := by simpa using hqk
      simpa only [hne] using this

/-- Spreading the same object a second time changes nothing. -/
theorem spread_idempotent (base payload : List (String × JsValue)) (hobj : IsObject payload) :
    spread (spread base payload) payload = spread base payload := by
  apply spread_same payload _ hobj
  · intro a ha
    exact keys_spread_payload payload base a ha
  · intro q hq hqk
    exact mem_spread_payload payload base hobj q.1 q.2 hq hqk

/-! ## Facts about the reducers of the workflow slice -/

theorem workflowReducer_idle (state : WorkflowState) (action : WorkflowAction)
    (hidle : state.currentWorkflow = none) (hnot : action.isStart = false) :
    (workflowReducer state action).currentWorkflow = none
      ∧ (workflowReducer state action).completedWorkflows = state.completedWorkflows := by
  cases action with
  | startWorkflow payload => simp [WorkflowAction.isStart] at hnot
  | nextStep => exact ⟨hidle, rfl⟩
  | previousStep =>
    simp only [workflowReducer, previousStep]
    split
    · exact ⟨hidle, rfl⟩
    · exact ⟨hidle, rfl⟩
  | updateWorkflowData payload => exact ⟨hidle, rfl⟩
  | completeWorkflow now =>
    simp only [workflowReducer, completeWorkflow, hidle]
    exact ⟨trivial, trivial⟩
  | resetWorkflow => exact ⟨rfl, rfl⟩

theorem foldl_workflowReducer_idle (actions : List WorkflowAction) :
    ∀ state : WorkflowState, state.currentWorkflow = none →
      (∀ a ∈ actions, a.isStart = false) →
      (actions.foldl workflowReducer state).currentWorkflow = none
        ∧ (actions.foldl workflowReducer state).completedWorkflows
          = state.completedWorkflows := by
  induction actions with
  | nil => intro state h _; exact ⟨h, rfl⟩
  | cons a rest ih =>
    intro state h hall
    have h1 := workflowReducer_idle state a h (hall a (by simp))
    have h2 := ih (workflowReducer state a) h1.1 (fun b hb => hall b (by simp [hb]))
    simp only [List.foldl_cons]
    exact ⟨h2.1, h2.2.trans h1.2⟩

/-! ## Facts about validation -/

theorem dropWhile_eq_nil_iff_all (p : Char → Bool) (cs : List Char) :
    cs.dropWhile p = [] ↔ cs.all p = true := by
  induction cs with
  | nil => simp
  | cons c rest ih =>
    by_cases hc : p c = true
    · simp [List.dropWhile_cons, hc, ih]
    · simp [List.dropWhile_cons, hc]

/-- A string trims to nothing exactly when it consists of white space only. -/
theorem trim_eq_nil_iff (cs : List Char) : trim cs = [] ↔ cs.all isWhiteSpace = true := by
  unfold trim
  rw [List.reverse_eq_nil_iff, dropWhile_eq_nil_iff_all, List.all_reverse]
  constructor
  · intro h
    have hnil : cs.dropWhile isWhiteSpace = [] := by
      cases hd : cs.dropWhile isWhiteSpace with
      | nil => rfl
      | cons c rest =>
        have hc := List.head_dropWhile_not isWhiteSpace cs
          (by rw [hd]; exact List.cons_ne_nil _ _)
        rw [hd] at h
        simp only [List.all_cons, Bool.and_eq_true] at h
        simp only [hd, List.head_cons] at hc
        rw [h.1] at hc
        exact absurd hc (by simp)
    exact (dropWhile_eq_nil_iff_all _ _).mp hnil
  · intro h
    rw [(dropWhile_eq_nil_iff_all _ _).mpr h]
    rfl

/-- The three outcomes of `validateStepData`: the `TypeError` of `value.trim()`
on a truthy value that is not a string under the rule `required`, the untouched
result, or one failure carrying the message of the step's rule. -/
theorem validateStepData_cases (step : Step) (value : JsValue) :
    (validateStepData step value = .error "value.trim is not a function"
        ∧ step.validation = some "required" ∧ value.truthy = true ∧ ∀ s, value ≠ .str s)
      ∨ validateStepData step value = .ok { isValid := true, errors := [] }
      ∨ ∃ rule m, step.validation = some rule ∧ ruleMessage rule = some m
          ∧ validateStepData step value = .ok { isValid := false, errors := [m] } := by
  by_cases hreq : step.validation = some "required"
  · cases value with
    | undefined =>
      right; right
      exact ⟨"required", _, hreq, rfl, by simp [validateStepData, hreq, JsValue.truthy, Validation.fail]⟩
    | str s =>
      by_cases hempty : s = ""
      · right; right
        exact ⟨"required", _, hreq, rfl,
          by simp [validateStepData, hreq, JsValue.truthy, Validation.fail, hempty]⟩
      · by_cases htrim : trim s.data = []
        · right; right
          exact ⟨"required", _, hreq, rfl,
            by simp [validateStepData, hreq, JsValue.truthy, Validation.fail, hempty, htrim]⟩
        · right; left
          simp [validateStepData, hreq, JsValue.truthy, hempty, htrim]
    | object j =>
      left
      exact ⟨by simp [validateStepData, hreq, JsValue.truthy], hreq, rfl, by simp⟩
    | inherited n =>
      left
      exact ⟨by simp [validateStepData, hreq, JsValue.truthy], hreq, rfl, by simp⟩
  · by_cases hnum : step.validation = some "number"
    · by_cases hbad : (value.truthy && jsIsNaN value) = true
      · right; right
        refine ⟨"number", _, hnum, rfl, ?_⟩
        simp only [Bool.and_eq_true] at hbad
        simp [validateStepData, hnum, hbad.1, hbad.2, Validation.fail]
      · right; left
        have hbad1 : (value.truthy && jsIsNaN value) = false := by simpa using hbad
        simp only [validateStepData, hnum]
        simp [hbad1, Bool.and_assoc]
    · by_cases hmail : step.validation = some "email"
      · by_cases hbad : (value.truthy && !isValidEmail value) = true
        · right; right
          refine ⟨"email", _, hmail, rfl, ?_⟩
          simp only [Bool.and_eq_true] at hbad
          simp only [Bool.not_eq_true'] at hbad
          simp [validateStepData, hmail, hbad.1, hbad.2, Validation.fail]
        · right; left
          have hbad1 : (value.truthy && !isValidEmail value) = false := by simpa using hbad
          simp only [validateStepData, hmail]
          simp [hbad1, Bool.and_assoc]
      · right; left
        simp [validateStepData, hreq, hnum, hmail]

/-- An action other than `startWorkflow` leaves an inactive session inactive. -/
theorem workflowReducer_inactive (state : WorkflowState) (action : WorkflowAction)
    (hinactive : state.isActive = false) (hnot : action.isStart = false) :
    (workflowReducer state action).isActive = false := by
  cases action with
  | startWorkflow payload => simp [WorkflowAction.isStart] at hnot
  | nextStep => exact hinactive
  | previousStep =>
    simp only [workflowReducer, previousStep]
    split
    · exact hinactive
    · exact hinactive
  | updateWorkflowData payload => exact hinactive
  | completeWorkflow now => rfl
  | resetWorkflow => rfl

/-- Actions other than `startWorkflow` leave an inactive session inactive. -/
theorem foldl_workflowReducer_inactive (actions : List WorkflowAction) :
    ∀ state : WorkflowState, state.isActive = false →
      (∀ a ∈ actions, a.isStart = false) →
      (actions.foldl workflowReducer state).isActive = false := by
  induction actions with
  | nil => intro state h _; exact h
  | cons a rest ih =>
    intro state h hall
    simp only [List.foldl_cons]
    exact ih (workflowReducer state a) (workflowReducer_inactive state a h (hall a (by simp)))
      (fun b hb => hall b (by simp [hb]))

/-! ## The reducers of the workflow slice -/

/-- C11. The reducer `previousStep` takes exactly one from `currentStep` when it
is positive and returns the state unchanged when it is 0, so a second retreat
at step 0 changes nothing either; in every case `workflowData`,
`currentWorkflow`, `isActive` and `completedWorkflows` are as before. -/
theorem previousStep_retreats (state : WorkflowState) :
    (0 < state.currentStep → (previousStep state).currentStep + 1 = state.currentStep)
      ∧ (state.currentStep = 0 → previousStep state = state
          ∧ previousStep (previousStep state) = previousStep state)
      ∧ (previousStep state).workflowData = state.workflowData
      ∧ (previousStep state).currentWorkflow = state.currentWorkflow
      ∧ (previousStep state).isActive = state.isActive
      ∧ (previousStep state).completedWorkflows = state.completedWorkflows := by
  by_cases h : state.currentStep > 0
  · have hp : previousStep state = { state with currentStep := state.currentStep - 1 } := by
      simp [previousStep, h]
    rw [hp]
    refine ⟨fun _ => ?_, fun h0 => ?_, rfl, rfl, rfl, rfl⟩
    · show state.currentStep - 1 + 1 = state.currentStep
      omega
    · omega
  · have hp : previousStep state = state := by
      simp [previousStep, h]
    rw [hp, hp]
    exact ⟨fun hpos => absurd hpos h, fun _ => ⟨rfl, rfl⟩, rfl, rfl, rfl, rfl⟩

/-- C11, at a running session on step 2 and at the initial state on step 0. -/
theorem previousStep_retreats_witness :
    (previousStep runningSession).currentStep + 1 = runningSession.currentStep
      ∧ previousStep initialState = initialState
      ∧ previousStep (previousStep initialState) = previousStep initialState :=
  ⟨(previousStep_retreats runningSession).1 (by decide),
   ((previousStep_retreats initialState).2.1 rfl).1,
   ((previousStep_retreats initialState).2.1 rfl).2⟩

/-- C12 (counterexample). A running Aadhaar session at step 2 with a recorded
name: `startWorkflow` with the PAN entry is not rejected; afterwards the
current workflow is the PAN entry, the step is 0 and the recorded name is gone. -/
theorem startWorkflow_replaces_running_session :
    runningSession.isActive = true
      ∧ startWorkflow runningSession (some panInfo)
        = { currentWorkflow := some panInfo, currentStep := 0, workflowData := []
            isActive := true, completedWorkflows := [] }
      ∧ (startWorkflow runningSession (some panInfo)).currentWorkflow
          ≠ runningSession.currentWorkflow
      ∧ (startWorkflow runningSession (some panInfo)).currentStep ≠ runningSession.currentStep
      ∧ (startWorkflow runningSession (some panInfo)).workflowData
          ≠ runningSession.workflowData := by
  decide

/-- C12 (amended). `startWorkflow` has no guard on `isActive` and never fails:
applied to a state with `isActive = true` it replaces the running session, so
that `currentWorkflow` is the payload, `currentStep` is 0, `workflowData` is
empty and `isActive` stays `true`; `completedWorkflows` is unchanged. -/
theorem startWorkflow_on_active (state : WorkflowState) (payload : Option WorkflowInfo)
    (_hactive : state.isActive = true) :
    startWorkflow state payload
      = { currentWorkflow := payload, currentStep := 0, workflowData := [], isActive := true
          completedWorkflows := state.completedWorkflows } := by
  rfl

/-- C12 (amended), at the running Aadhaar session. -/
theorem startWorkflow_on_active_witness :
    startWorkflow runningSession (some panInfo)
      = { currentWorkflow := some panInfo, currentStep := 0, workflowData := [], isActive := true
          completedWorkflows := runningSession.completedWorkflows } :=
  startWorkflow_on_active runningSession (some panInfo) (by decide)

/-- C13. Applied to a state with no active session, `startWorkflow(w)` yields
`currentWorkflow = w`, `currentStep = 0`, empty `workflowData` and
`isActive = true`, with `completedWorkflows` as before; no key has a recorded
answer in the new session. -/
theorem startWorkflow_on_inactive (state : WorkflowState) (w : WorkflowInfo)
    (_hinactive : state.isActive = false) :
    startWorkflow state (some w)
        = { currentWorkflow := some w, currentStep := 0, workflowData := [], isActive := true
            completedWorkflows := state.completedWorkflows }
      ∧ ∀ key, (startWorkflow state (some w)).workflowData.lookup key = none := by
  refine ⟨rfl, fun key => rfl⟩

/-- C13, at the state left by completing the running Aadhaar session, whose
recorded name is kept in `completedWorkflows` only. -/
theorem startWorkflow_on_inactive_witness :
    startWorkflow (completeWorkflow runningSession 1700000123456) (some panInfo)
        = { currentWorkflow := some panInfo, currentStep := 0, workflowData := []
            isActive := true
            completedWorkflows := (completeWorkflow runningSession 1700000123456).completedWorkflows }
      ∧ ∀ key, (startWorkflow (completeWorkflow runningSession 1700000123456)
          (some panInfo)).workflowData.lookup key = none :=
  startWorkflow_on_inactive (completeWorkflow runningSession 1700000123456) panInfo (by decide)

/-! ## Validation of an answer -/

/-- C14. For a step whose rule is `required` and every string, `validateStepData`
returns a result; `isValid` is `true` exactly when the string is non-empty
after trimming, and an empty or whitespace-only string yields the single
error `This field is required`. A string trims to nothing exactly when all its
characters are white space. -/
theorem validate_required (step : Step) (s : String)
    (hrule : step.validation = some "required") :
    (∃ v, validateStepData step (.str s) = .ok v
        ∧ (v.isValid = true ↔ trim s.data ≠ [])
        ∧ (trim s.data = [] → v.errors = ["This field is required"])
        ∧ (trim s.data ≠ [] → v.errors = []))
      ∧ (trim s.data = [] ↔ s.data.all isWhiteSpace = true) := by
  refine ⟨?_, trim_eq_nil_iff s.data⟩
  by_cases hempty : s = ""
  · subst hempty
    refine ⟨{ isValid := false, errors := ["This field is required"] }, ?_, ?_, ?_, ?_⟩
    · simp [validateStepData, hrule, JsValue.truthy, Validation.fail]
    · simp [trim]
    · intro _; rfl
    · intro h; exact absurd (by simp [trim]) h
  · by_cases htrim : trim s.data = []
    · refine ⟨{ isValid := false, errors := ["This field is required"] }, ?_, ?_, ?_, ?_⟩
      · simp [validateStepData, hrule, JsValue.truthy, Validation.fail, hempty, htrim]
      · simp [htrim]
      · intro _; rfl
      · intro h; exact absurd htrim h
    · refine ⟨{ isValid := true, errors := [] }, ?_, ?_, ?_, ?_⟩
      · simp [validateStepData, hrule, JsValue.truthy, hempty, htrim]
      · simp [htrim]
      · intro h; exact absurd h htrim
      · intro _; rfl

/-- C14, at the name step: `John Doe` is accepted, three blanks are rejected. -/
theorem validate_required_witness :
    validateStepData nameStep (.str "John Doe") = .ok { isValid := true, errors := [] }
      ∧ validateStepData nameStep (.str "   ")
        = .ok { isValid := false, errors := ["This field is required"] }
      ∧ ∃ v, validateStepData nameStep (.str "   ") = .ok v
          ∧ (v.isValid = true ↔ trim "   ".data ≠ [])
          ∧ (trim "   ".data = [] → v.errors = ["This field is required"])
          ∧ (trim "   ".data ≠ [] → v.errors = []) :=
  ⟨by decide, by decide, (validate_required nameStep "   " rfl).1⟩

/-- C15 (counterexample). At the age step, whose rule is `number`, the empty
string and a string of three blanks are accepted although neither is a numeric
literal. -/
theorem validate_number_accepts_blank :
    validateStepData ageStep (.str "") = .ok { isValid := true, errors := [] }
      ∧ parsesAsNumeric "" = false
      ∧ validateStepData ageStep (.str "   ") = .ok { isValid := true, errors := [] }
      ∧ parsesAsNumeric "   " = false := by
  decide

/-- C15 (amended). For a step whose rule is `number` and every string,
`validateStepData` returns a result whose `isValid` is `true` exactly when
the string, with surrounding white space removed, is empty or a numeric
literal, that is exactly when the global `isNaN` is `false` for it; a rejected
string yields the single error `Please enter a valid number`. -/
theorem validate_number (step : Step) (s : String) (hrule : step.validation = some "number") :
    ∃ v, validateStepData step (.str s) = .ok v
      ∧ (v.isValid = true ↔ (trim s.data = [] ∨ parsesAsNumeric s = true))
      ∧ (v.isValid = true ↔ isNaNString s = false)
      ∧ (v.isValid = true → v.errors = [])
      ∧ (v.isValid = false → v.errors = ["Please enter a valid number"]) := by
  have hiff : isNaNString s = false ↔ (trim s.data = [] ∨ parsesAsNumeric s = true) := by
    simp only [isNaNString, parsesAsNumeric, Bool.not_eq_false', Bool.or_eq_true,
      List.isEmpty_iff, or_assoc]
  by_cases hempty : s = ""
  · subst hempty
    refine ⟨{ isValid := true, errors := [] }, ?_, ?_, ?_, ?_, ?_⟩
    · simp [validateStepData, hrule, JsValue.truthy]
    · simp [trim]
    · simp [isNaNString, trim]
    · intro _; rfl
    · intro h; simp at h
  · by_cases hnan : isNaNString s = true
    · refine ⟨{ isValid := false, errors := ["Please enter a valid number"] }, ?_, ?_, ?_, ?_, ?_⟩
      · simp [validateStepData, hrule, JsValue.truthy, hempty, jsIsNaN, hnan, Validation.fail]
      · rw [← hiff]
        simp [hnan]
      · simp [hnan]
      · intro h; simp at h
      · intro _; rfl
    · have hnan1 : isNaNString s = false := by simpa using hnan
      refine ⟨{ isValid := true, errors := [] }, ?_, ?_, ?_, ?_, ?_⟩
      · simp [validateStepData, hrule, JsValue.truthy, hempty, jsIsNaN, hnan1]
      · rw [← hiff]
        simp [hnan1]
      · simp [hnan1]
      · intro _; rfl
      · intro h; simp at h

/-- C15 (amended), at the age step: `30` is accepted and `I am 35 years old` is
rejected. -/
theorem validate_number_witness :
    validateStepData ageStep (.str "30") = .ok { isValid := true, errors := [] }
      ∧ validateStepData ageStep (.str "I am 35 years old")
        = .ok { isValid := false, errors := ["Please enter a valid number"] }
      ∧ parsesAsNumeric "30" = true
      ∧ parsesAsNumeric "I am 35 years old" = false
      ∧ ∃ v, validateStepData ageStep (.str "30") = .ok v
          ∧ (v.isValid = true ↔ (trim "30".data = [] ∨ parsesAsNumeric "30" = true))
          ∧ (v.isValid = true ↔ isNaNString "30" = false)
          ∧ (v.isValid = true → v.errors = [])
          ∧ (v.isValid = false → v.errors = ["Please enter a valid number"]) :=
  ⟨by decide, by decide, by decide, by decide, validate_number ageStep "30" rfl⟩

/-- C16. For every step and value, a result of `validateStepData` has
`isValid = false` exactly when its `errors` list is non-empty; the list holds
at most one message, each message is the one of the rule the step declares,
and the list is empty for a step without a rule. A result exists for every
string and for `undefined`; the call throws instead exactly for a truthy value
that is not a string under the rule `required`. -/
theorem validate_errors_name_the_rule (step : Step) (value : JsValue) :
    (∀ v, validateStepData step value = .ok v →
        (v.isValid = false ↔ v.errors ≠ [])
          ∧ v.errors.length ≤ 1
          ∧ (∀ m ∈ v.errors, ∃ rule, step.validation = some rule ∧ ruleMessage rule = some m)
          ∧ (step.validation = none → v.errors = []))
      ∧ ((∃ v, validateStepData step value = .ok v)
          ↔ ¬ (step.validation = some "required" ∧ value.truthy = true ∧ ∀ s, value ≠ .str s))
      ∧ ((value = .undefined ∨ ∃ s, value = .str s) → ∃ v, validateStepData step value = .ok v) := by
  have hexists : (∃ v, validateStepData step value = .ok v)
      ↔ ¬ (step.validation = some "required" ∧ value.truthy = true ∧ ∀ s, value ≠ .str s) := by
    rcases validateStepData_cases step value with ⟨h, hc⟩ | h | ⟨rule, m, -, -, h⟩
    · constructor
      · rintro ⟨v, hv⟩
        rw [h] at hv
        cases hv
      · intro hn
        exact absurd hc hn
    · constructor
      · rintro - ⟨hreq, htruthy, hns⟩
        cases value with
        | undefined => simp [JsValue.truthy] at htruthy
        | str s =>
          exact hns s rfl
        | object j => simp [validateStepData, hreq, JsValue.truthy] at h
        | inherited n => simp [validateStepData, hreq, JsValue.truthy] at h
      · intro _
        exact ⟨_, h⟩
    · constructor
      · rintro - ⟨hreq, htruthy, hns⟩
        cases value with
        | undefined => simp [JsValue.truthy] at htruthy
        | str s =>
          exact hns s rfl
        | object j => simp [validateStepData, hreq, JsValue.truthy] at h
        | inherited n => simp [validateStepData, hreq, JsValue.truthy] at h
      · intro _
        exact ⟨_, h⟩
  refine ⟨?_, hexists, ?_⟩
  · intro v hv
    rcases validateStepData_cases step value with ⟨h, -⟩ | h | ⟨rule, m, hrule, hm, h⟩
    · rw [h] at hv
      cases hv
    · rw [h] at hv
      cases hv
      simp
    · rw [h] at hv
      cases hv
      refine ⟨by simp, by simp, ?_, ?_⟩
      · intro m' hm'
        simp only [List.mem_singleton] at hm'
        subst hm'
        exact ⟨rule, hrule, hm⟩
      · intro hnone
        rw [hnone] at hrule
        cases hrule
  · intro hval
    rw [hexists]
    rintro ⟨-, htruthy, hns⟩
    rcases hval with h | ⟨s, h⟩
    · subst h
      simp [JsValue.truthy] at htruthy
    · exact hns s h

/-- C16, at the age step with the answer `I am 35 years old`: the result is
invalid and its one message is the one of the rule `number`. -/
theorem validate_errors_name_the_rule_witness :
    validateStepData ageStep (.str "I am 35 years old")
        = .ok { isValid := false, errors := ["Please enter a valid number"] }
      ∧ ((false = false ↔ ["Please enter a valid number"] ≠ [])
          ∧ ["Please enter a valid number"].length ≤ 1
          ∧ (∀ m ∈ ["Please enter a valid number"],
              ∃ rule, ageStep.validation = some rule ∧ ruleMessage rule = some m)
          ∧ (ageStep.validation = none → ["Please enter a valid number"] = [])) :=
  ⟨by decide,
   (validate_errors_name_the_rule ageStep (.str "I am 35 years old")).1
     { isValid := false, errors := ["Please enter a valid number"] } (by decide)⟩

/-! ## The reducers of the session -/

/-- C17. For every state and every payload object, `updateWorkflowData` merges
the payload into `workflowData` with last write wins per key: a key of the
payload reads the payload's value, every other key reads what it read before
(a key absent from both stays absent); dispatching the same payload twice
gives the state of dispatching it once; `currentStep`, `currentWorkflow`,
`isActive` and `completedWorkflows` are unchanged. -/
theorem updateWorkflowData_merges (state : WorkflowState) (payload : List (String × JsValue))
    (hobj : IsObject payload) :
    (∀ key v, payload.lookup key = some v →
        (updateWorkflowData state payload).workflowData.lookup key = some v)
      ∧ (∀ key, payload.lookup key = none →
          (updateWorkflowData state payload).workflowData.lookup key
            = state.workflowData.lookup key)
      ∧ updateWorkflowData (updateWorkflowData state payload) payload
          = updateWorkflowData state payload
      ∧ (updateWorkflowData state payload).currentStep = state.currentStep
      ∧ (updateWorkflowData state payload).currentWorkflow = state.currentWorkflow
      ∧ (updateWorkflowData state payload).isActive = state.isActive
      ∧ (updateWorkflowData state payload).completedWorkflows = state.completedWorkflows := by
  refine ⟨?_, ?_, ?_, rfl, rfl, rfl, rfl⟩
  · intro key v hv
    simp only [updateWorkflowData]
    rw [lookup_spread payload state.workflowData hobj key, hv]
  · intro key hnone
    simp only [updateWorkflowData]
    rw [lookup_spread payload state.workflowData hobj key, hnone]
  · simp only [updateWorkflowData]
    rw [spread_idempotent state.workflowData payload hobj]

/-- C17, on the running Aadhaar session with the answer `30` for the age step:
the age is recorded, the name is kept, and a second dispatch changes nothing. -/
theorem updateWorkflowData_merges_witness :
    (updateWorkflowData runningSession agePayload).workflowData.lookup "ask_age"
        = some (.str "30")
      ∧ (updateWorkflowData runningSession agePayload).workflowData.lookup "ask_name"
        = some (.str "John Doe")
      ∧ updateWorkflowData (updateWorkflowData runningSession agePayload) agePayload
        = updateWorkflowData runningSession agePayload :=
  ⟨(updateWorkflowData_merges runningSession agePayload (by simp [IsObject, agePayload])).1
      "ask_age" (.str "30") (by decide),
   ((updateWorkflowData_merges runningSession agePayload (by simp [IsObject, agePayload])).2.1
      "ask_name" (by decide)).trans (by decide),
   (updateWorkflowData_merges runningSession agePayload
      (by simp [IsObject, agePayload])).2.2.1⟩

/-- C18. On a session with a current workflow, `completeWorkflow` appends exactly
one entry to `completedWorkflows`, carrying that workflow and the whole
`workflowData`, and clears the session. After any actions other than
`startWorkflow`, a further `completeWorkflow` leaves `completedWorkflows` at the
list with that one entry appended, and `handleSubmitWorkflow` hands nothing
over: it only raises the alert `Submission Error`. -/
theorem completeWorkflow_hands_off_once (state : WorkflowState) (w : WorkflowInfo) (now : Nat)
    (hcur : state.currentWorkflow = some w) :
    completeWorkflow state now
        = { currentWorkflow := none, currentStep := 0, workflowData := [], isActive := false
            completedWorkflows :=
              state.completedWorkflows ++
                [{ id := now, workflow := w, data := state.workflowData, completedAt := now }] }
      ∧ ∀ actions : List WorkflowAction, (∀ a ∈ actions, a.isStart = false) →
          (∀ now',
            (completeWorkflow (actions.foldl workflowReducer (completeWorkflow state now))
                now').completedWorkflows
              = state.completedWorkflows ++
                [{ id := now, workflow := w, data := state.workflowData, completedAt := now }])
          ∧ ∀ env,
            handleSubmitWorkflow (actions.foldl workflowReducer (completeWorkflow state now)) env
              = (actions.foldl workflowReducer (completeWorkflow state now),
                  [.alert "Submission Error"]) := by
  have hdone : completeWorkflow state now
      = { currentWorkflow := none, currentStep := 0, workflowData := [], isActive := false
          completedWorkflows :=
            state.completedWorkflows ++
              [{ id := now, workflow := w, data := state.workflowData, completedAt := now }] } := by
    simp only [completeWorkflow, hcur]
  refine ⟨hdone, ?_⟩
  intro actions hno
  have hidle := foldl_workflowReducer_idle actions (completeWorkflow state now) rfl hno
  refine ⟨?_, ?_⟩
  · intro now'
    have hstep : (completeWorkflow (actions.foldl workflowReducer (completeWorkflow state now))
          now').completedWorkflows
        = (actions.foldl workflowReducer (completeWorkflow state now)).completedWorkflows := by
      have hnone := hidle.1
      generalize actions.foldl workflowReducer (completeWorkflow state now) = t at hnone ⊢
      simp only [completeWorkflow, hnone]
    rw [hstep, hidle.2, hdone]
  · intro env
    have hnone := hidle.1
    generalize actions.foldl workflowReducer (completeWorkflow state now) = t at hnone ⊢
    simp only [handleSubmitWorkflow, hnone]

/-- C18, on the running Aadhaar session: one entry is appended, and after a
`nextStep` and a `resetWorkflow` a second `completeWorkflow` appends nothing. -/
theorem completeWorkflow_hands_off_once_witness :
    (completeWorkflow runningSession exampleNow).completedWorkflows
        = [{ id := exampleNow
             workflow := { id := "aadhaar-application", name := "Aadhaar Card Application" }
             data := [("ask_name", .str "John Doe")], completedAt := exampleNow }]
      ∧ (completeWorkflow
            ([WorkflowAction.nextStep, WorkflowAction.resetWorkflow].foldl workflowReducer
              (completeWorkflow runningSession exampleNow)) (exampleNow + 1)).completedWorkflows
        = [] ++ [{ id := exampleNow
                   workflow := { id := "aadhaar-application", name := "Aadhaar Card Application" }
                   data := [("ask_name", .str "John Doe")], completedAt := exampleNow }] :=
  ⟨by decide,
   ((completeWorkflow_hands_off_once runningSession
      { id := "aadhaar-application", name := "Aadhaar Card Application" } exampleNow rfl).2
      [WorkflowAction.nextStep, WorkflowAction.resetWorkflow] (by decide)).1 (exampleNow + 1)⟩

/-- C19. From every state of the store, dispatching `resetWorkflow` yields a
state: `currentWorkflow` is `null`, `currentStep` is `0`, `workflowData` is
empty and `isActive` is `false`, while `completedWorkflows` and the offline
slice, with the items already in its `syncQueue`, are as before. -/
theorem resetWorkflow_discards_session (root : RootState) :
    rootReducer root (.workflow .resetWorkflow)
        = { workflow :=
              { currentWorkflow := none, currentStep := 0, workflowData := [], isActive := false
                completedWorkflows := root.workflow.completedWorkflows }
            offline := root.offline }
      ∧ (rootReducer root (.workflow .resetWorkflow)).offline.syncQueue
          = root.offline.syncQueue := by
  exact ⟨rfl, rfl⟩

/-- C20 (counterexample). After `resetWorkflow` of the running Aadhaar session,
and likewise after `completeWorkflow`, the state is inactive, yet `nextStep`
moves `currentStep` from 0 to 1 and `updateWorkflowData` records the payload in
`workflowData`. -/
theorem inactive_session_still_changes :
    (resetWorkflow runningSession).isActive = false
      ∧ (resetWorkflow runningSession).currentStep = 0
      ∧ (nextStep (resetWorkflow runningSession)).currentStep = 1
      ∧ (resetWorkflow runningSession).workflowData = []
      ∧ (updateWorkflowData (resetWorkflow runningSession) agePayload).workflowData
          = [("ask_age", .str "30")]
      ∧ (completeWorkflow runningSession exampleNow).isActive = false
      ∧ (nextStep (completeWorkflow runningSession exampleNow)).currentStep = 1
      ∧ (updateWorkflowData (completeWorkflow runningSession exampleNow) agePayload).workflowData
          = [("ask_age", .str "30")] := by
  decide

/-- C20 (amended). After `completeWorkflow` or `resetWorkflow`, and until the next
`startWorkflow`, the session stays inactive: any actions other than
`startWorkflow` leave `isActive = false` and `currentWorkflow = null`. The
reducers do not look at `isActive`: on the state right after `completeWorkflow`
or `resetWorkflow`, `previousStep` changes nothing, `nextStep` adds one to
`currentStep` and leaves `workflowData` unchanged, and `updateWorkflowData`
merges its payload into `workflowData` and leaves `currentStep` unchanged. -/
theorem inactive_session_stays_inactive (s0 state : WorkflowState) (now : Nat)
    (hended : state = completeWorkflow s0 now ∨ state = resetWorkflow s0) :
    (∀ actions : List WorkflowAction, (∀ a ∈ actions, a.isStart = false) →
        (actions.foldl workflowReducer state).isActive = false
          ∧ (actions.foldl workflowReducer state).currentWorkflow = none)
      ∧ previousStep state = state
      ∧ (nextStep state).currentStep = state.currentStep + 1
      ∧ (nextStep state).workflowData = state.workflowData
      ∧ (∀ payload, (updateWorkflowData state payload).workflowData
          = spread state.workflowData payload)
      ∧ (∀ payload, (updateWorkflowData state payload).currentStep = state.currentStep) := by
  have hinactive : state.isActive = false := by
    rcases hended with h | h <;> rw [h] <;> rfl
  have hidle : state.currentWorkflow = none := by
    rcases hended with h | h <;> rw [h] <;> rfl
  have hzero : state.currentStep = 0 := by
    rcases hended with h | h <;> rw [h] <;> rfl
  refine ⟨?_, ?_, rfl, rfl, fun _ => rfl, fun _ => rfl⟩
  · intro actions hno
    exact ⟨foldl_workflowReducer_inactive actions state hinactive hno,
      (foldl_workflowReducer_idle actions state hidle hno).1⟩
  · simp [previousStep, hzero]

/-- C20 (amended), after `resetWorkflow` of the running Aadhaar session: the
actions `nextStep` and `updateWorkflowData` leave it inactive, and
`previousStep` changes nothing. -/
theorem inactive_session_stays_inactive_witness :
    ([WorkflowAction.nextStep, WorkflowAction.updateWorkflowData agePayload].foldl
          workflowReducer (resetWorkflow runningSession)).isActive = false
      ∧ previousStep (resetWorkflow runningSession) = resetWorkflow runningSession :=
  ⟨((inactive_session_stays_inactive runningSession (resetWorkflow runningSession) exampleNow
      (Or.inr rfl)).1
      [WorkflowAction.nextStep, WorkflowAction.updateWorkflowData agePayload] (by decide)).1,
   (inactive_session_stays_inactive runningSession (resetWorkflow runningSession) exampleNow
      (Or.inr rfl)).2.1⟩

/-! ## Facts about the offline queue -/

/-- Removing an identifier that occurs once shortens the list by one. -/
theorem filter_ne_length (items : List OfflineItem) (id : Nat)
    (hnodup : (items.map (fun item => item.id)).Nodup)
    (hmem : id ∈ items.map (fun item => item.id)) :
    (items.filter (fun item => item.id != id)).length + 1 = items.length := by
  induction items with
  | nil => simp at hmem
  | cons a rest ih =>
    simp only [List.map_cons, List.nodup_cons] at hnodup
    by_cases ha : a.id = id
    · have hrest : rest.filter (fun item => item.id != id) = rest := by
        rw [List.filter_eq_self]
        intro b hb
        simp only [bne_iff_ne, ne_eq]
        intro hbid
        apply hnodup.1
        rw [ha, ← hbid]
        exact List.mem_map_of_mem _ hb
      simp [List.filter_cons, ha, hrest]
    · have hmem1 : id ∈ rest.map (fun item => item.id) := by
        simp only [List.map_cons, List.mem_cons] at hmem
        rcases hmem with h | h
        · exact absurd h.symm ha
        · exact h
      have := ih hnodup.2 hmem1
      simp [List.filter_cons, ha]
      omega

/-- Removing an identifier that does not occur changes nothing. -/
theorem filter_ne_absent (items : List OfflineItem) (id : Nat)
    (habsent : id ∉ items.map (fun item => item.id)) :
    items.filter (fun item => item.id != id) = items := by
  rw [List.filter_eq_self]
  intro b hb
  simp only [bne_iff_ne, ne_eq]
  intro hbid
  apply habsent
  rw [← hbid]
  exact List.mem_map_of_mem _ hb

/-! ## Facts about tracking -/

/-- The row `Workflow.create` stores carries the attributes it was handed. -/
theorem workflowCreate_row {db : Db} {env : ItemEnv} {a : WorkflowAttrs} {row : WorkflowRow}
    {db1 : Db} (h : Workflow.create db env a = .ok (row, db1)) :
    a.workflow_type = .value row.workflow_type ∧ row.status = a.status
      ∧ row.user_id = a.user_id ∧ row.current_step = a.current_step := by
  unfold Workflow.create at h
  split at h
  · simp at h
  · simp at h
  · split at h
    · simp at h
    · split at h
      · simp at h
      · split at h
        · simp at h
        · split at h
          · simp at h
          · split at h
            · simp at h
            · rename_i wtype hwt _ _ _ _ _ _ _
              simp only [Except.ok.injEq, Prod.mk.injEq] at h
              obtain ⟨h1, -⟩ := h
              subst h1
              exact ⟨hwt, rfl, rfl, rfl⟩

/-- Right after a successful `Workflow.create` with a reference number, the
query by that reference number finds the created row. -/
theorem findOneByReference_created {db : Db} {env : ItemEnv} {a : WorkflowAttrs}
    {row : WorkflowRow} {db1 : Db} {r : String} (hr : a.reference_number = some r)
    (h : Workflow.create db env a = .ok (row, db1)) :
    Workflow.findOneByReference db1 r = some row := by
  obtain ⟨h1, h2, -, h4, -⟩ := workflowCreate_ok h
  subst h1
  unfold Workflow.findOneByReference
  simp only
  rw [List.find?_append]
  have hnone : db.workflows.find? (fun w => w.reference_number == some r) = none := by
    rw [List.find?_eq_none]
    intro w hw
    simp only [beq_iff_eq]
    exact h4 r hr w hw
  rw [hnone]
  simp [List.find?_cons, h2, hr]

/-- The tracking response for a stored row whose status is `completed`, where
the model exposes `created_at`. -/
theorem getTrack_completed {db : Db} {r : String} {row : WorkflowRow}
    (hfind : Workflow.findOneByReference db r = some row) (hstatus : row.status = "completed")
    (createdAt now : Nat) :
    ∃ resp, getTrack db r none (some createdAt) now = .json resp
      ∧ resp.referenceNumber = r ∧ resp.workflowType = row.workflow_type
      ∧ resp.status = "completed" ∧ resp.progress = 100 := by
  simp only [getTrack, hfind, hstatus, if_true]
  exact ⟨_, rfl, rfl, rfl, rfl, rfl⟩

/-- The tracking handler on a stored row whose status is `completed`, where the
instance has no property `created_at`: `getTime` is called on `undefined`. -/
theorem getTrack_completed_undefined {db : Db} {r : String} {row : WorkflowRow}
    (hfind : Workflow.findOneByReference db r = some row) (hstatus : row.status = "completed")
    (now : Nat) :
    getTrack db r none none now
      = .next "Cannot read properties of undefined (reading 'getTime')" := by
  simp only [getTrack, hfind, hstatus, if_true]

/-- A successful answer of the submit route: the row it created and the
response built from it. -/
theorem postSubmit_json {userId : String} {db : Db} {env : ItemEnv}
    {workflowId data : JsField String} {logFault : Option String} {db2 : Db}
    {response : SubmitResponse}
    (h : postSubmit userId db env workflowId data logFault = (db2, .json response)) :
    ∃ wid d stepCount row db1,
      workflowId = .value wid ∧ data = .value d
        ∧ Workflow.create db env
            { user_id := userId, workflow_type := .value wid, workflow_data := .value d
              current_step := stepCount, status := "completed"
              reference_number := some (referenceNumber env.now env.random36)
              completed_at := some env.now } = .ok (row, db1)
        ∧ db2.workflows = db1.workflows
        ∧ response = { submissionId := row.id, workflowId := wid, status := "submitted"
                       referenceNumber := referenceNumber env.now env.random36 } := by
  unfold postSubmit at h
  split at h
  · rename_i wid d
    split at h
    · simp at h
    · split at h
      · split at h <;> simp at h
      · rename_i stepCount _
        dsimp only at h
        split at h
        · simp at h
        · rename_i workflow db1 hc
          split at h
          · simp at h
          · rename_i db3 hl
            simp only [Prod.mk.injEq, Reply.json.injEq] at h
            obtain ⟨h1, h2⟩ := h
            subst h1
            exact ⟨wid, d, stepCount, workflow, db1, rfl, rfl, hc, logCreate_ok hl, h2.symm⟩
  · simp at h

/-! ## Facts about the reachable states of the workflow slice -/

/-- An action that is not a `startWorkflow` without workflow keeps `isActive`
and `currentWorkflow` in step. -/
theorem workflowReducer_active_iff (state : WorkflowState) (action : WorkflowAction)
    (hwork : action.hasWorkflow = true)
    (hinv : state.isActive = true ↔ state.currentWorkflow ≠ none) :
    (workflowReducer state action).isActive = true
      ↔ (workflowReducer state action).currentWorkflow ≠ none := by
  cases action with
  | startWorkflow payload =>
    cases payload with
    | none => simp [WorkflowAction.hasWorkflow] at hwork
    | some w => simp [workflowReducer, startWorkflow]
  | nextStep => exact hinv
  | previousStep =>
    simp only [workflowReducer, previousStep]
    split
    · exact hinv
    · exact hinv
  | updateWorkflowData payload => exact hinv
  | completeWorkflow now => simp [workflowReducer, completeWorkflow]
  | resetWorkflow => simp [workflowReducer, resetWorkflow]

/-- Actions none of which is a `startWorkflow` without workflow keep `isActive`
and `currentWorkflow` in step. -/
theorem foldl_workflowReducer_active_iff (actions : List WorkflowAction) :
    ∀ state : WorkflowState, (state.isActive = true ↔ state.currentWorkflow ≠ none) →
      (∀ a ∈ actions, a.hasWorkflow = true) →
      ((actions.foldl workflowReducer state).isActive = true
        ↔ (actions.foldl workflowReducer state).currentWorkflow ≠ none) := by
  induction actions with
  | nil => intro state h _; exact h
  | cons a rest ih =>
    intro state h hall
    simp only [List.foldl_cons]
    exact ih (workflowReducer state a)
      (workflowReducer_active_iff state a (hall a (by simp)) h)
      (fun b hb => hall b (by simp [hb]))

/-! ## Facts about the `SyncQueue` table -/

theorem userUpdate_queue {db : Db} {fault : Option String} {user user1 : User}
    {data : List (String × String)} {db1 : Db}
    (h : User.update db fault user data = .ok (user1, db1)) :
    db1.syncQueue = db.syncQueue := by
  unfold User.update at h
  split at h
  · simp at h
  · simp only [Except.ok.injEq, Prod.mk.injEq] at h
    obtain ⟨-, h2⟩ := h
    subst h2
    rfl

theorem logCreate_queue {db : Db} {fault : Option String} {row : LogRow} {db1 : Db}
    (h : Log.create db fault row = .ok db1) : db1.syncQueue = db.syncQueue := by
  unfold Log.create at h
  split at h
  · simp at h
  · split at h
    · simp at h
    · simp only [Except.ok.injEq] at h
      subst h
      rfl

/-- A created queue row is appended, and its `id` was not in the table. -/
theorem queueCreate_queue {db : Db} {fault : Option String} {row : QueueRow} {db1 : Db}
    (h : SyncQueue.create db fault row = .ok db1) :
    db1.syncQueue = db.syncQueue ++ [row] ∧ ∀ q ∈ db.syncQueue, q.id ≠ row.id := by
  unfold SyncQueue.create at h
  split at h
  · simp at h
  · split at h
    · simp at h
    · split at h
      · simp at h
      · rename_i hid _
        simp only [Except.ok.injEq] at h
        subst h
        refine ⟨rfl, ?_⟩
        intro q hq hqid
        apply hid
        simp only [List.any_eq_true, beq_iff_eq]
        exact ⟨q, hq, hqid⟩

/-- An updated queue row is rewritten in place. -/
theorem queueUpdate_queue {db : Db} {fault : Option String} {id : String}
    {change : QueueRow → QueueRow} {db1 : Db}
    (h : SyncQueue.update db fault id change = .ok db1) :
    fault = none
      ∧ db1.syncQueue = db.syncQueue.map (fun q => if q.id == id then change q else q) := by
  unfold SyncQueue.update at h
  split at h
  · simp at h
  · simp only [Except.ok.injEq] at h
    subst h
    exact ⟨rfl, rfl⟩

theorem processWorkflowSubmission_queue (db : Db) (env : ItemEnv) (userId : String)
    (data : Option SyncData) (localId : Option String) :
    (processWorkflowSubmission db env userId data localId).1.syncQueue = db.syncQueue := by
  cases data with
  | none => rfl
  | some d =>
    rcases processWorkflowSubmission_cases db env userId d localId with
      ⟨row, db1, hc, h⟩ | ⟨e, -, h⟩
    · rw [h, (workflowCreate_ok hc).1]
    · rw [h]

theorem processProfileUpdate_queue (db : Db) (env : ItemEnv) (userId : String)
    (data : Option SyncData) (localId : Option String) :
    (processProfileUpdate db env userId data localId).1.syncQueue = db.syncQueue := by
  rcases processProfileUpdate_cases db env userId data localId with
    ⟨user, user1, db1, -, hu, h⟩ | ⟨e, h⟩
  · rw [h]
    exact userUpdate_queue hu
  · rw [h]

theorem dispatchItem_queue (db : Db) (env : ItemEnv) (userId : String) (item : SyncItem) :
    (dispatchItem db env userId item).1.syncQueue = db.syncQueue := by
  unfold dispatchItem
  split
  · exact processWorkflowSubmission_queue _ _ _ _ _
  · split
    · exact processProfileUpdate_queue _ _ _ _ _
    · split <;> rfl

theorem dispatchRetry_queue (db : Db) (env : ItemEnv) (userId : String) (queueItem : QueueRow) :
    (dispatchRetry db env userId queueItem).1.syncQueue = db.syncQueue := by
  unfold dispatchRetry
  split
  · exact processWorkflowSubmission_queue _ _ _ _ _
  · split
    · exact processProfileUpdate_queue _ _ _ _ _
    · rfl

/-- An item of type `document_upload` does not fail in the bulk endpoint. -/
theorem dispatchItem_document (db : Db) (env : ItemEnv) (userId : String) (item : SyncItem)
    (htype : item.type = some "document_upload") :
    (dispatchItem db env userId item).2.status = .success := by
  simp [dispatchItem, htype, processDocumentUpload]

/-! ## The bulk sync endpoint keeps the facts about the queue -/

theorem tryBlock_queueInv (userId : String) (acc : Acc) (entry : Option SyncItem)
    (env : ItemEnv) (hinv : QueueInv acc.db) :
    QueueInv (tryBlock userId acc entry env).1.db := by
  cases entry with
  | none => exact hinv
  | some item =>
    have hq := dispatchItem_queue acc.db env userId item
    have hinv1 : QueueInv (dispatchItem acc.db env userId item).1 := by
      unfold QueueInv at *
      rw [hq]
      exact hinv
    unfold tryBlock
    dsimp only
    split
    · exact hinv1
    · rename_i hfail
      cases hc : SyncQueue.create (dispatchItem acc.db env userId item).1 env.queueFault _ with
      | error e => exact hinv1
      | ok db2 =>
        dsimp only
        obtain ⟨h1, h2⟩ := queueCreate_queue hc
        unfold QueueInv at *
        rw [h1]
        constructor
        · simp only [List.map_append, List.map_cons, List.map_nil]
          rw [List.nodup_append]
          refine ⟨hinv1.1, List.nodup_singleton _, ?_⟩
          intro x hx hx1
          simp only [List.mem_singleton] at hx1
          subst hx1
          rw [List.mem_map] at hx
          obtain ⟨q, hq1, hqx⟩ := hx
          exact h2 q hq1 hqx
        · intro q hq1
          simp only [List.mem_append, List.mem_singleton] at hq1
          rcases hq1 with hq1 | hq1
          · exact hinv1.2 q hq1
          · subst hq1
            intro htype
            exact hfail (dispatchItem_document acc.db env userId item htype)

theorem iteration_queueInv (userId : String) (acc : Acc) (entry : Option SyncItem)
    (env : ItemEnv) (hinv : QueueInv acc.db) :
    match iteration userId acc entry env with
    | .ok acc1 => QueueInv acc1.db
    | .error (acc1, _) => QueueInv acc1.db := by
  have ht := tryBlock_queueInv userId acc entry env hinv
  unfold iteration
  rcases h : tryBlock userId acc entry env with ⟨acc1, _ | message⟩
  · rw [h] at ht
    exact ht
  · rw [h] at ht
    dsimp only
    cases entry with
    | none => exact ht
    | some item => exact ht

theorem forItems_queueInv (userId : String) (items : List (Option SyncItem × ItemEnv)) :
    ∀ acc : Acc, QueueInv acc.db → QueueInv (forItems userId acc items).1.db := by
  induction items with
  | nil => intro acc h; exact h
  | cons p rest ih =>
    intro acc hinv
    obtain ⟨entry, env⟩ := p
    have hi := iteration_queueInv userId acc entry env hinv
    unfold forItems
    cases h : iteration userId acc entry env with
    | ok acc1 =>
      rw [h] at hi
      dsimp only at hi ⊢
      exact ih acc1 hi
    | error q =>
      obtain ⟨acc1, e⟩ := q
      rw [h] at hi
      exact hi

theorem postSync_queueInv (userId : String) (db : Db)
    (items : Option (List (Option SyncItem × ItemEnv))) (logFault : Option String)
    (syncTime : Nat) (hinv : QueueInv db) :
    QueueInv (postSync userId db items logFault syncTime).1 := by
  unfold postSync
  cases items with
  | none => exact hinv
  | some items =>
    dsimp only
    have hf := forItems_queueInv userId items
      { db := db, results := [], successful := 0, failed := 0 } hinv
    rcases hfi : forItems userId { db := db, results := [], successful := 0, failed := 0 } items
      with ⟨acc, _ | e⟩
    · rw [hfi] at hf
      dsimp only at hf ⊢
      cases hl : Log.create acc.db logFault _ with
      | error e => exact hf
      | ok db1 =>
        dsimp only
        unfold QueueInv at *
        rw [logCreate_queue hl]
        exact hf
    · rw [hfi] at hf
      exact hf

/-! ## The loop of the retry route -/

/-- Two rows of a table with a primary key that share the `id` are the same row. -/
theorem queue_row_unique {rows : List QueueRow} (hnodup : (rows.map (fun q => q.id)).Nodup)
    {a b : QueueRow} (ha : a ∈ rows) (hb : b ∈ rows) (hid : a.id = b.id) : a = b :=
  List.inj_on_of_nodup_map hnodup ha hb hid

/-- One iteration of the retry loop: one result is pushed for the queue item, the
row with the item's `id` is rewritten in place and no other row is touched; the
rewritten row is `synced` when the pushed result is a success and keeps its
status otherwise. The pushed result is a success exactly when the reprocessing
returned success and `queueItem.update` did not throw. -/
theorem retryIteration_cases (userId : String) (acc : RetryAcc) (queueItem : QueueRow)
    (env : ItemEnv) :
    ∃ (pushed : RetryResult) (change : QueueRow → QueueRow),
      (retryIteration userId acc queueItem env).results = acc.results ++ [pushed]
        ∧ pushed.syncId = queueItem.id
        ∧ (retryIteration userId acc queueItem env).db.syncQueue
          = acc.db.syncQueue.map (fun q => if q.id == queueItem.id then change q else q)
        ∧ (∀ q, (change q).id = q.id ∧ (change q).data = q.data ∧ (change q).user_id = q.user_id)
        ∧ (pushed.status = .success → ∀ q, (change q).status = "synced")
        ∧ (pushed.status ≠ .success → ∀ q, (change q).status = q.status)
        ∧ (retryIteration userId acc queueItem env).successful
          = acc.successful + (if pushed.status = .success then 1 else 0)
        ∧ (pushed.status = .success
            ↔ ((dispatchRetry acc.db env userId queueItem).2.status = .success
                ∧ env.queueUpdateFault = none)) := by
  have hq := dispatchRetry_queue acc.db env userId queueItem
  rcases hd : dispatchRetry acc.db env userId queueItem with ⟨db1, result⟩
  rw [hd] at hq
  simp only at hq
  by_cases hs : result.status = .success
  · cases hf : env.queueUpdateFault with
    | some e =>
      refine ⟨{ syncId := queueItem.id, localId := none, status := .failed, serverId := none
                referenceNumber := none, error := some e }, id, ?_, rfl, ?_, ?_, ?_, ?_, ?_, ?_⟩
      · simp [retryIteration, hd, hs, SyncQueue.update, hf]
      · simp [retryIteration, hd, hs, SyncQueue.update, hf, hq]
      · intro q; exact ⟨rfl, rfl, rfl⟩
      · intro h; cases h
      · intro _ q; rfl
      · simp [retryIteration, hd, hs, SyncQueue.update, hf]
      · simp
    | none =>
      refine ⟨{ syncId := queueItem.id, localId := result.localId, status := result.status
                serverId := result.serverId, referenceNumber := result.referenceNumber
                error := result.error },
              fun q => { q with status := "synced", synced_at := some env.now },
              ?_, rfl, ?_, ?_, ?_, ?_, ?_, ?_⟩
      · simp [retryIteration, hd, hs, SyncQueue.update, hf]
      · simp [retryIteration, hd, hs, SyncQueue.update, hf, hq]
      · intro q; exact ⟨rfl, rfl, rfl⟩
      · intro _ q; rfl
      · intro h; exact absurd hs h
      · simp [retryIteration, hd, hs, SyncQueue.update, hf]
      · simp [hs]
  · cases hf : env.queueUpdateFault with
    | some e =>
      refine ⟨{ syncId := queueItem.id, localId := none, status := .failed, serverId := none
                referenceNumber := none, error := some e }, id, ?_, rfl, ?_, ?_, ?_, ?_, ?_, ?_⟩
      · simp [retryIteration, hd, hs, SyncQueue.update, hf]
      · simp [retryIteration, hd, hs, SyncQueue.update, hf, hq]
      · intro q; exact ⟨rfl, rfl, rfl⟩
      · intro h; cases h
      · intro _ q; rfl
      · simp [retryIteration, hd, hs, SyncQueue.update, hf]
      · simp
    | none =>
      refine ⟨{ syncId := queueItem.id, localId := result.localId, status := result.status
                serverId := result.serverId, referenceNumber := result.referenceNumber
                error := result.error },
              fun q => { q with error_message := result.error },
              ?_, rfl, ?_, ?_, ?_, ?_, ?_, ?_⟩
      · simp [retryIteration, hd, hs, SyncQueue.update, hf]
      · simp [retryIteration, hd, hs, SyncQueue.update, hf, hq]
      · intro q; exact ⟨rfl, rfl, rfl⟩
      · intro h; exact absurd h hs
      · intro _ q; rfl
      · simp [retryIteration, hd, hs, SyncQueue.update, hf]
      · simp [hs]

/-- Rewriting the row with a given `id` keeps the ids of the table. -/
theorem map_change_ids (rows : List QueueRow) (id : String) (change : QueueRow → QueueRow)
    (hchange : ∀ q, (change q).id = q.id) :
    (rows.map (fun q => if q.id == id then change q else q)).map (fun q => q.id)
      = rows.map (fun q => q.id) := by
  rw [List.map_map]
  apply List.map_congr_left
  intro q _
  simp only [Function.comp]
  split
  · exact hchange q
  · rfl

/-- Rewriting the row with a given `id` keeps every row with another `id`. -/
theorem mem_map_change_other {rows : List QueueRow} {id : String}
    {change : QueueRow → QueueRow} {q : QueueRow} (hq : q ∈ rows) (hne : q.id ≠ id) :
    q ∈ rows.map (fun r => if r.id == id then change r else r) := by
  rw [List.mem_map]
  refine ⟨q, hq, ?_⟩
  simp [hne]

/-- The retry loop over queue items that are rows of the table with status
`failed`: one result per item, in order; the table keeps its rows' ids, data
and owners; rows that are not among the items are untouched; the row of an item
is `synced` when the item's result is a success and `failed` otherwise. -/
theorem forQueueItems_settles (userId : String) (envOf : String → ItemEnv)
    (items : List QueueRow) :
    ∀ acc : RetryAcc, (acc.db.syncQueue.map (fun q => q.id)).Nodup →
      (items.map (fun q => q.id)).Nodup →
      (∀ q ∈ items, q ∈ acc.db.syncQueue ∧ q.status = "failed") →
      ∃ pushed : List RetryResult,
        (forQueueItems userId envOf acc items).results = acc.results ++ pushed
          ∧ pushed.map (fun r => r.syncId) = items.map (fun q => q.id)
          ∧ (forQueueItems userId envOf acc items).db.syncQueue.map (fun q => q.id)
            = acc.db.syncQueue.map (fun q => q.id)
          ∧ (∀ q ∈ acc.db.syncQueue, q.id ∉ items.map (fun q => q.id) →
              q ∈ (forQueueItems userId envOf acc items).db.syncQueue)
          ∧ (∀ q ∈ (forQueueItems userId envOf acc items).db.syncQueue,
              ∀ r ∈ pushed, r.syncId = q.id →
                (r.status = .success → q.status = "synced")
                  ∧ (r.status ≠ .success → q.status = "failed"))
          ∧ (∀ q ∈ (forQueueItems userId envOf acc items).db.syncQueue,
              ∃ q0 ∈ acc.db.syncQueue, q.id = q0.id ∧ q.data = q0.data ∧ q.user_id = q0.user_id)
          ∧ (forQueueItems userId envOf acc items).successful
            = acc.successful + (pushed.filter (fun r => r.status == .success)).length := by
  induction items with
  | nil =>
    intro acc _ _ _
    refine ⟨[], by simp [forQueueItems], rfl, rfl, ?_, ?_, ?_, by simp [forQueueItems]⟩
    · intro q hq _
      exact hq
    · intro q _ r hr
      simp at hr
    · intro q hq
      exact ⟨q, hq, rfl, rfl, rfl⟩
  | cons item rest ih =>
    intro acc hnodup hitems hrows
    obtain ⟨first, change, hres, hsync, hqueue, hchange, hsuccess, hfailure, hcount, -⟩ :=
      retryIteration_cases userId acc item (envOf item.id)
    simp only [List.map_cons, List.nodup_cons] at hitems
    have hids1 : (retryIteration userId acc item (envOf item.id)).db.syncQueue.map (fun q => q.id)
        = acc.db.syncQueue.map (fun q => q.id) := by
      rw [hqueue]
      exact map_change_ids _ _ _ (fun q => (hchange q).1)
    have hnodup1 : ((retryIteration userId acc item (envOf item.id)).db.syncQueue.map
        (fun q => q.id)).Nodup := by
      rw [hids1]
      exact hnodup
    have hrest : ∀ q ∈ rest,
        q ∈ (retryIteration userId acc item (envOf item.id)).db.syncQueue
          ∧ q.status = "failed" := by
      intro q hq
      have h := hrows q (List.mem_cons_of_mem _ hq)
      refine ⟨?_, h.2⟩
      rw [hqueue]
      apply mem_map_change_other h.1
      intro hqid
      apply hitems.1
      rw [← hqid]
      exact List.mem_map_of_mem _ hq
    obtain ⟨pushed, h1, h2, h3, h4, h5, h6, h7⟩ :=
      ih (retryIteration userId acc item (envOf item.id)) hnodup1 hitems.2 hrest
    have hitem := hrows item (List.mem_cons_self _ _)
    have hchanged : change item
        ∈ (retryIteration userId acc item (envOf item.id)).db.syncQueue := by
      rw [hqueue, List.mem_map]
      exact ⟨item, hitem.1, by simp⟩
    have hchanged1 : change item ∈ (forQueueItems userId envOf acc (item :: rest)).db.syncQueue := by
      simp only [forQueueItems]
      apply h4 _ hchanged
      rw [(hchange item).1]
      exact hitems.1
    have hnodup2 : ((forQueueItems userId envOf acc (item :: rest)).db.syncQueue.map
        (fun q => q.id)).Nodup := by
      simp only [forQueueItems]
      rw [h3]
      exact hnodup1
    refine ⟨first :: pushed, ?_, ?_, ?_, ?_, ?_, ?_, ?_⟩
    · simp only [forQueueItems]
      rw [h1, hres]
      simp
    · simp only [List.map_cons, h2, hsync]
    · simp only [forQueueItems]
      rw [h3, hids1]
    · intro q hq hnot
      simp only [List.map_cons, List.mem_cons, not_or] at hnot
      simp only [forQueueItems]
      apply h4
      · rw [hqueue]
        exact mem_map_change_other hq hnot.1
      · exact hnot.2
    · intro q hq r hr hrq
      simp only [List.mem_cons] at hr
      rcases hr with hr | hr
      · subst hr
        have hsame : q = change item := by
          apply queue_row_unique hnodup2 hq hchanged1
          rw [(hchange item).1, ← hrq, hsync]
        subst hsame
        constructor
        · intro hok
          exact hsuccess hok item
        · intro hbad
          rw [hfailure hbad item]
          exact hitem.2
      · simp only [forQueueItems] at hq
        exact h5 q hq r hr hrq
    · intro q hq
      simp only [forQueueItems] at hq
      obtain ⟨q1, hq1, e1, e2, e3⟩ := h6 q hq
      rw [hqueue, List.mem_map] at hq1
      obtain ⟨q0, hq0, hq01⟩ := hq1
      refine ⟨q0, hq0, ?_⟩
      by_cases hc : (q0.id == item.id) = true
      · rw [if_pos hc] at hq01
        subst hq01
        exact ⟨e1.trans (hchange q0).1, e2.trans (hchange q0).2.1, e3.trans (hchange q0).2.2⟩
      · rw [if_neg hc] at hq01
        subst hq01
        exact ⟨e1, e2, e3⟩
    · simp only [forQueueItems]
      rw [h7, hcount]
      by_cases hok : first.status = .success
      · simp [hok, List.filter_cons]
        omega
      · simp [hok, List.filter_cons]

/-- The rows the retry route selects have pairwise distinct ids, are rows of the
table and have status `failed`. -/
theorem retry_selection (db : Db) (userId : String) (ids : List String)
    (hnodup : (db.syncQueue.map (fun q => q.id)).Nodup) :
    ((db.syncQueue.filter
        (fun q => ids.contains q.id && q.user_id == userId && q.status == "failed")).map
        (fun q => q.id)).Nodup
      ∧ ∀ q ∈ db.syncQueue.filter
          (fun q => ids.contains q.id && q.user_id == userId && q.status == "failed"),
          q ∈ db.syncQueue ∧ q.status = "failed" := by
  constructor
  · exact List.Nodup.sublist ((List.filter_sublist _).map _) hnodup
  · intro q hq
    rw [List.mem_filter] at hq
    refine ⟨hq.1, ?_⟩
    have h := hq.2
    simp only [Bool.and_eq_true, beq_iff_eq] at h
    exact h.2

theorem postRetry_queueInv (userId : String) (db : Db) (syncIds : Option (List String))
    (findFault : Option String) (envOf : String → ItemEnv) (hinv : QueueInv db) :
    QueueInv (postRetry userId db syncIds findFault envOf).1 := by
  unfold postRetry
  cases syncIds with
  | none => exact hinv
  | some ids =>
    cases findFault with
    | some e => exact hinv
    | none =>
      dsimp only
      obtain ⟨hsel1, hsel2⟩ := retry_selection db userId ids hinv.1
      obtain ⟨pushed, -, -, h3, -, -, h6, -⟩ :=
        forQueueItems_settles userId envOf _ { db := db, results := [], successful := 0 }
          hinv.1 hsel1 hsel2
      constructor
      · rw [h3]
        exact hinv.1
      · intro q hq
        obtain ⟨q0, hq0, -, hdata, -⟩ := h6 q hq
        rw [hdata]
        exact hinv.2 q0 hq0

/-- Every store the backend can reach has a `SyncQueue` table with pairwise
distinct ids and without `document_upload` items. -/
theorem queueReachable_inv {db : Db} (h : QueueReachable db) : QueueInv db := by
  induction h with
  | init users workflows logs =>
    exact ⟨List.nodup_nil, fun q hq => absurd hq (List.not_mem_nil q)⟩
  | sync userId items logFault syncTime _ ih =>
    exact postSync_queueInv userId _ items logFault syncTime ih
  | retry userId syncIds findFault envOf _ ih =>
    exact postRetry_queueInv userId _ syncIds findFault envOf ih
  | others users workflows logs _ ih => exact ih

/-! ## The offline queue -/

/-- C21 (failing input). For every state, two `addToSyncQueue` calls at the same
clock reading append two items whose ids are both that reading, so the ids of
the queue are not pairwise distinct; from the initial state the ids are then
`[1700000000000, 1700000000000]`. -/
theorem addToSyncQueue_same_instant_same_id (state : OfflineState) (p1 p2 : OfflinePayload)
    (now ts1 ts2 : Nat) :
    queueIds (addToSyncQueue (addToSyncQueue state p1 now ts1) p2 now ts2)
        = queueIds state ++ [now, now]
      ∧ ¬ (queueIds (addToSyncQueue (addToSyncQueue state p1 now ts1) p2 now ts2)).Nodup
      ∧ queueIds enqueuedTwice = [sameInstant, sameInstant] := by
  have hids : queueIds (addToSyncQueue (addToSyncQueue state p1 now ts1) p2 now ts2)
      = queueIds state ++ [now, now] := by
    simp [queueIds, addToSyncQueue]
  refine ⟨hids, ?_, by decide⟩
  rw [hids]
  intro h
  rw [List.nodup_append] at h
  simp at h

/-- C22. In every state of the store, online or offline, dispatching
`addToSyncQueue` with a payload yields a state whose `syncQueue` is the old
queue followed by exactly one item that holds the payload unchanged: every
existing item keeps its position, the new item is the last one, and
`isOnline`, `lastSyncTime` and the workflow slice are unchanged. -/
theorem addToSyncQueue_appends (root : RootState) (payload : OfflinePayload)
    (now timestamp : Nat) :
    (rootReducer root (.offline (.addToSyncQueue payload now timestamp))).offline.syncQueue
        = root.offline.syncQueue ++ [{ id := now, data := payload, timestamp := timestamp }]
      ∧ (rootReducer root (.offline (.addToSyncQueue payload now timestamp))).offline.syncQueue.length
        = root.offline.syncQueue.length + 1
      ∧ (∀ (i : Nat) (item : OfflineItem), root.offline.syncQueue[i]? = some item →
          (rootReducer root
            (.offline (.addToSyncQueue payload now timestamp))).offline.syncQueue[i]? = some item)
      ∧ ((rootReducer root
            (.offline (.addToSyncQueue payload now timestamp))).offline.syncQueue.getLast?.map
          (fun item => item.data)) = some payload
      ∧ (rootReducer root (.offline (.addToSyncQueue payload now timestamp))).offline.isOnline
        = root.offline.isOnline
      ∧ (rootReducer root (.offline (.addToSyncQueue payload now timestamp))).offline.lastSyncTime
        = root.offline.lastSyncTime
      ∧ (rootReducer root (.offline (.addToSyncQueue payload now timestamp))).workflow
        = root.workflow := by
  refine ⟨rfl, ?_, ?_, ?_, rfl, rfl, rfl⟩
  · simp [rootReducer, offlineReducer, addToSyncQueue]
  · intro i item hi
    simp only [rootReducer, offlineReducer, addToSyncQueue]
    have hlt : i < root.offline.syncQueue.length := by
      by_contra hge
      rw [List.getElem?_eq_none (by omega)] at hi
      cases hi
    rw [List.getElem?_append_left hlt]
    exact hi
  · simp [rootReducer, offlineReducer, addToSyncQueue]

/-- C23 (counterexample). In the queue that holds two items enqueued at the same
clock reading, `removeFromSyncQueue` with that id leaves no item: the result
has two items fewer, not one. -/
theorem removeFromSyncQueue_drops_both :
    enqueuedTwice.syncQueue.length = 2
      ∧ (removeFromSyncQueue enqueuedTwice sameInstant).syncQueue = [] := by
  decide

/-- C23 (amended). For every queue whose ids are pairwise distinct,
`removeFromSyncQueue(id)` removes exactly the one item with that id: the result
has one item fewer when an item with that id is present. For every queue, the
result is unchanged when no item has that id, and all remaining items are
retained in their original relative order: the result is a sublist of the
queue that holds every item with another id and no item with that id;
`isOnline` and `lastSyncTime` are unchanged. -/
theorem removeFromSyncQueue_removes_one (state : OfflineState) (id : Nat) :
    ((queueIds state).Nodup → id ∈ queueIds state →
        (removeFromSyncQueue state id).syncQueue.length + 1 = state.syncQueue.length)
      ∧ (id ∉ queueIds state → removeFromSyncQueue state id = state)
      ∧ (removeFromSyncQueue state id).syncQueue.Sublist state.syncQueue
      ∧ (∀ item ∈ state.syncQueue, item.id ≠ id →
          item ∈ (removeFromSyncQueue state id).syncQueue)
      ∧ (∀ item ∈ (removeFromSyncQueue state id).syncQueue, item.id ≠ id)
      ∧ (removeFromSyncQueue state id).isOnline = state.isOnline
      ∧ (removeFromSyncQueue state id).lastSyncTime = state.lastSyncTime := by
  refine ⟨?_, ?_, ?_, ?_, ?_, rfl, rfl⟩
  · intro hnodup hmem
    exact filter_ne_length state.syncQueue id hnodup hmem
  · intro habsent
    simp only [removeFromSyncQueue]
    rw [filter_ne_absent state.syncQueue id habsent]
  · exact List.filter_sublist _
  · intro item hitem hne
    simp only [removeFromSyncQueue, List.mem_filter, bne_iff_ne, ne_eq]
    exact ⟨hitem, hne⟩
  · intro item hitem
    simp only [removeFromSyncQueue, List.mem_filter, bne_iff_ne, ne_eq] at hitem
    exact hitem.2

/-- C23 (amended), in the queue of two items enqueued one millisecond apart:
removing the first id leaves one item, the PAN submission; removing an id that
no item has changes nothing. -/
theorem removeFromSyncQueue_removes_one_witness :
    (removeFromSyncQueue enqueuedApart sameInstant).syncQueue.length + 1
        = enqueuedApart.syncQueue.length
      ∧ removeFromSyncQueue enqueuedApart 7 = enqueuedApart
      ∧ (removeFromSyncQueue enqueuedApart sameInstant).syncQueue.map (fun item => item.data)
        = [panPayload] :=
  ⟨(removeFromSyncQueue_removes_one enqueuedApart sameInstant).1 (by decide) (by decide),
   (removeFromSyncQueue_removes_one enqueuedApart 7).2.1 (by decide),
   by decide⟩

/-- C24 (counterexample). In the store that is offline and holds one queued item,
dispatching `setOnlineStatus(true)` leaves the queue as it was: the item is
still queued, nothing was removed, and the banner of the home screen shows
`Syncing 1 items...` without a `Sync` button. -/
theorem setOnlineStatus_leaves_queue :
    storeWithQueuedItem.offline.isOnline = false
      ∧ (rootReducer storeWithQueuedItem (.offline (.setOnlineStatus true))).offline.syncQueue
        = storeWithQueuedItem.offline.syncQueue
      ∧ (rootReducer storeWithQueuedItem
          (.offline (.setOnlineStatus true))).offline.syncQueue.length = 1
      ∧ OfflineSyncBanner false
          (rootReducer storeWithQueuedItem (.offline (.setOnlineStatus true))).offline
        = some { style := "syncing", iconName := "sync-outline", message := "Syncing 1 items..."
                 syncButton := false, pulsing := false } := by
  decide

/-- C24 (amended). When `setOnlineStatus(true)` is applied to a state with
`isOnline = false` while `syncQueue` holds items, no drain is triggered: only
`isOnline` changes. `syncQueue` keeps every item in creation order,
`lastSyncTime` and the workflow slice are unchanged, and the banner of the home
screen shows the `syncing` message with the count of queued items, without a
`Sync` button and without the pulse animation. -/
theorem setOnlineStatus_only_sets_flag (root : RootState)
    (_hoffline : root.offline.isOnline = false) (hqueued : root.offline.syncQueue ≠ []) :
    rootReducer root (.offline (.setOnlineStatus true))
        = { workflow := root.workflow
            offline := { isOnline := true, syncQueue := root.offline.syncQueue
                         lastSyncTime := root.offline.lastSyncTime } }
      ∧ OfflineSyncBanner false (rootReducer root (.offline (.setOnlineStatus true))).offline
        = some { style := "syncing", iconName := "sync-outline"
                 message := "Syncing " ++ Nat.repr root.offline.syncQueue.length ++ " items..."
                 syncButton := false, pulsing := false } := by
  have hlen : 0 < root.offline.syncQueue.length := List.length_pos.mpr hqueued
  refine ⟨rfl, ?_⟩
  have hne : root.offline.syncQueue.length ≠ 0 := by omega
  simp [OfflineSyncBanner, rootReducer, offlineReducer, setOnlineStatus, hlen, hne]

/-- C24 (amended), in the store that is offline and holds one queued item. -/
theorem setOnlineStatus_only_sets_flag_witness :
    rootReducer storeWithQueuedItem (.offline (.setOnlineStatus true))
        = { workflow := storeWithQueuedItem.workflow
            offline := { isOnline := true, syncQueue := storeWithQueuedItem.offline.syncQueue
                         lastSyncTime := storeWithQueuedItem.offline.lastSyncTime } } :=
  (setOnlineStatus_only_sets_flag storeWithQueuedItem rfl (by decide)).1

/-! ## Tracking a submission -/

/-- C25 (failing input). After a workflow submission of the bulk sync endpoint
that returned success with reference number `R`, and after a direct submission
that answered with reference number `R`, the tracking route asked for `R` finds
the row that submission created, with the submitted `workflowId` and status
`completed`. For that status the handler evaluates
`workflow.created_at.getTime()`: where the instance has no property
`created_at` (the model's timestamp attribute is `createdAt`), the call throws,
the error is handed to `next` and no tracking data is returned. Only where
`created_at` is defined does the route answer with `referenceNumber = R`, that
`workflowType` and `progress = 100`. -/
theorem track_after_submission (db : Db) (env : ItemEnv) (userId : String) (d : SyncData)
    (localId : Option String) (workflowId data : JsField String) (logFault : Option String)
    (now : Nat) :
    (∀ db1 result, processWorkflowSubmission db env userId (some d) localId = (db1, result) →
        result.status = .success →
        ∃ ref wtype row, result.referenceNumber = some ref ∧ d.workflowId = .value wtype
          ∧ Workflow.findOneByReference db1 ref = some row ∧ result.serverId = some row.id
          ∧ row.workflow_type = wtype ∧ row.status = "completed"
          ∧ getTrack db1 ref none none now
              = .next "Cannot read properties of undefined (reading 'getTime')"
          ∧ ∀ createdAt, ∃ resp, getTrack db1 ref none (some createdAt) now = .json resp
              ∧ resp.referenceNumber = ref ∧ resp.workflowType = wtype
              ∧ resp.status = "completed" ∧ resp.progress = 100)
      ∧ (∀ db2 response,
          postSubmit userId db env workflowId data logFault = (db2, .json response) →
          ∃ row, workflowId = .value response.workflowId
            ∧ Workflow.findOneByReference db2 response.referenceNumber = some row
            ∧ response.submissionId = row.id
            ∧ row.workflow_type = response.workflowId ∧ row.status = "completed"
            ∧ getTrack db2 response.referenceNumber none none now
                = .next "Cannot read properties of undefined (reading 'getTime')"
            ∧ ∀ createdAt,
                ∃ resp, getTrack db2 response.referenceNumber none (some createdAt) now = .json resp
                  ∧ resp.referenceNumber = response.referenceNumber
                  ∧ resp.workflowType = response.workflowId
                  ∧ resp.status = "completed" ∧ resp.progress = 100) := by
  constructor
  · intro db1 result hsub hok
    rcases processWorkflowSubmission_cases db env userId d localId with
      ⟨row, db1', hc, h⟩ | ⟨e, -, h⟩
    · rw [h] at hsub
      simp only [Prod.mk.injEq] at hsub
      obtain ⟨hdb, hres⟩ := hsub
      subst hdb
      subst hres
      obtain ⟨hwt, hst, -, -⟩ := workflowCreate_row hc
      have hfind := findOneByReference_created (r := referenceNumber env.now env.random36) rfl hc
      have hcompleted : row.status = "completed" := by rw [hst]; rfl
      refine ⟨_, row.workflow_type, row, rfl, hwt, hfind, rfl, rfl, hcompleted,
        getTrack_completed_undefined hfind hcompleted now, ?_⟩
      intro createdAt
      exact getTrack_completed hfind hcompleted createdAt now
    · rw [h] at hsub
      simp only [Prod.mk.injEq] at hsub
      obtain ⟨-, hres⟩ := hsub
      subst hres
      cases hok
  · intro db2 response hsub
    obtain ⟨wid, d1, stepCount, row, db1, hw, -, hc, hdb, hresp⟩ := postSubmit_json hsub
    subst hresp
    obtain ⟨hwt, hst, -, -⟩ := workflowCreate_row hc
    have hfind1 := findOneByReference_created (r := referenceNumber env.now env.random36) rfl hc
    have hfind : Workflow.findOneByReference db2 (referenceNumber env.now env.random36)
        = some row := by
      unfold Workflow.findOneByReference at hfind1 ⊢
      rw [hdb]
      exact hfind1
    have hcompleted : row.status = "completed" := by rw [hst]
    have hwid : row.workflow_type = wid := by
      simp only [JsField.value.injEq] at hwt
      exact hwt.symm
    refine ⟨row, hw, hfind, rfl, hwid, hcompleted,
      getTrack_completed_undefined hfind hcompleted now, ?_⟩
    intro createdAt
    obtain ⟨resp, hresp, h1, h2, h3, h4⟩ := getTrack_completed hfind hcompleted createdAt now
    exact ⟨resp, hresp, h1, by rw [h2, hwid], h3, h4⟩

/-- C25, in the store with the user `u1`: after the well-formed Aadhaar submission
of the bulk endpoint, which returned `REF1234564FZ`, the tracking handler finds
the row and hands the `TypeError` to `next`. -/
theorem track_after_submission_witness :
    (processWorkflowSubmission exampleDb exampleEnv "u1" (some exampleData)
        (some "L1")).2.referenceNumber = some "REF1234564FZ"
      ∧ ∃ ref wtype row,
          (processWorkflowSubmission exampleDb exampleEnv "u1" (some exampleData)
              (some "L1")).2.referenceNumber = some ref
            ∧ exampleData.workflowId = .value wtype
            ∧ Workflow.findOneByReference
                (processWorkflowSubmission exampleDb exampleEnv "u1" (some exampleData)
                  (some "L1")).1 ref = some row
            ∧ (processWorkflowSubmission exampleDb exampleEnv "u1" (some exampleData)
                (some "L1")).2.serverId = some row.id
            ∧ row.workflow_type = wtype ∧ row.status = "completed"
            ∧ getTrack
                (processWorkflowSubmission exampleDb exampleEnv "u1" (some exampleData)
                  (some "L1")).1 ref none none 1700000999999
              = .next "Cannot read properties of undefined (reading 'getTime')"
            ∧ ∀ createdAt, ∃ resp,
                getTrack
                    (processWorkflowSubmission exampleDb exampleEnv "u1" (some exampleData)
                      (some "L1")).1 ref none (some createdAt) 1700000999999 = .json resp
                  ∧ resp.referenceNumber = ref ∧ resp.workflowType = wtype
                  ∧ resp.status = "completed" ∧ resp.progress = 100 :=
  ⟨by decide,
   (track_after_submission exampleDb exampleEnv "u1" exampleData (some "L1")
      (.value "pan-application") (.value "\x7b\"ask_name\":\"Asha\"\x7d") none
      1700000999999).1 _ _ rfl (by decide)⟩

/-! ## The built-in definitions -/

/-- C26. Every entry of the client's table inside `loadWorkflow` and of the
server's `workflowDefinitions` is well formed: its step keys are pairwise
distinct, every step type is one of `info`, `ask`, `ocr`, `confirm`, `submit`,
and its steps are numbered `1..n` in order; `aadhaar-application` has exactly 6
steps on both sides. The tables are the ones the state machine and the submit
route read. -/
theorem builtin_definitions_wellFormed :
    (∀ p ∈ loadWorkflowSteps, StepsWellFormed p.2)
      ∧ (∀ p ∈ workflowDefinitionSteps, StepsWellFormed p.2)
      ∧ (loadWorkflowSteps.lookup "aadhaar-application").map List.length = some 6
      ∧ (workflowDefinitionSteps.lookup "aadhaar-application").map List.length = some 6
      ∧ workflows.map (fun w => (w.id, w.steps))
          = loadWorkflowSteps.map (fun p => (p.1, p.2.map StepEntry.toStep))
      ∧ workflowDefinitions = workflowDefinitionSteps.map (fun p => (p.1, p.2.length)) := by
  unfold StepsWellFormed
  decide

/-- C27 (failing input). The two definitions of `aadhaar-application` have the
same steps, but the two definitions of `pan-application` differ: the client's
has 5 steps and asks for the father's name at step 3, the server's has 4 steps
and scans the identity proof at step 3. -/
theorem pan_definitions_differ :
    stepsOf workflowDefinitionSteps "aadhaar-application"
        = stepsOf loadWorkflowSteps "aadhaar-application"
      ∧ stepsOf workflowDefinitionSteps "pan-application"
        ≠ stepsOf loadWorkflowSteps "pan-application"
      ∧ (stepsOf loadWorkflowSteps "pan-application").map List.length = some 5
      ∧ (stepsOf workflowDefinitionSteps "pan-application").map List.length = some 4
      ∧ (stepsOf loadWorkflowSteps "pan-application").bind (fun steps => steps[2]?)
        = some { type := "ask", key := "ask_father_name", validation := some "required" }
      ∧ (stepsOf workflowDefinitionSteps "pan-application").bind (fun steps => steps[2]?)
        = some { type := "ocr", key := "scan_identity_proof", validation := none } := by
  decide

/-! ## The client's queue item at the bulk sync endpoint -/

/-- C28 (failing input). For every queue item of the client, every store and
every user, the `switch` of the bulk sync endpoint does not recognise the item:
the item has no top-level `type`, the result is `failed` with the error
`Unknown sync item type`, and the store is unchanged. For the queued Aadhaar
submission sent as a batch of one, the response counts one failure and no
`Workflow` row is stored. -/
theorem queued_item_not_recognised (db : Db) (env : ItemEnv) (userId : String)
    (item : OfflineItem) :
    dispatchItem db env userId item.toSyncItem
        = (db, { localId := some (Nat.repr item.id), status := .failed, serverId := none
                 referenceNumber := none, error := some "Unknown sync item type" })
      ∧ (postSync "u1" exampleDb (some [(some queuedSubmission.toSyncItem, exampleEnv)]) none
          1700000999999).2
        = .json { processed := 1, successful := 0, failed := 1
                  results := [{ localId := some "1700000000000", status := .failed
                                serverId := none, referenceNumber := none
                                error := some "Unknown sync item type" }]
                  syncTime := 1700000999999 }
      ∧ (postSync "u1" exampleDb (some [(some queuedSubmission.toSyncItem, exampleEnv)]) none
          1700000999999).1.workflows = [] := by
  refine ⟨?_, by decide, by decide⟩
  simp [dispatchItem, OfflineItem.toSyncItem]

/-! ## Reachable states of the workflow slice -/

/-- C29 (counterexample). From the initial state, `nextStep` and then
`updateWorkflowData` reach a state with `isActive = false` whose `currentStep` is
1 and whose `workflowData` holds the age. -/
theorem inactive_state_with_data :
    ([WorkflowAction.nextStep, WorkflowAction.updateWorkflowData agePayload].foldl
          workflowReducer initialState).isActive = false
      ∧ ([WorkflowAction.nextStep, WorkflowAction.updateWorkflowData agePayload].foldl
          workflowReducer initialState).currentStep = 1
      ∧ ([WorkflowAction.nextStep, WorkflowAction.updateWorkflowData agePayload].foldl
          workflowReducer initialState).workflowData = [("ask_age", .str "30")] := by
  decide

/-- C29 (amended). In every state of the workflow slice reachable from the initial
state by `startWorkflow` (with a non-null workflow), `nextStep`, `previousStep`,
`updateWorkflowData`, `completeWorkflow` and `resetWorkflow`, `isActive` is true
if and only if `currentWorkflow` is non-null; and in the state right after a
`completeWorkflow` or a `resetWorkflow`, `isActive` is false, `currentStep` is 0
and `workflowData` is empty. -/
theorem reachable_active_iff_workflow (actions : List WorkflowAction)
    (hwork : ∀ a ∈ actions, a.hasWorkflow = true) :
    ((actions.foldl workflowReducer initialState).isActive = true
        ↔ (actions.foldl workflowReducer initialState).currentWorkflow ≠ none)
      ∧ (∀ now,
          (completeWorkflow (actions.foldl workflowReducer initialState) now).isActive = false
            ∧ (completeWorkflow (actions.foldl workflowReducer initialState) now).currentStep = 0
            ∧ (completeWorkflow (actions.foldl workflowReducer initialState) now).workflowData
              = [])
      ∧ (resetWorkflow (actions.foldl workflowReducer initialState)).isActive = false
      ∧ (resetWorkflow (actions.foldl workflowReducer initialState)).currentStep = 0
      ∧ (resetWorkflow (actions.foldl workflowReducer initialState)).workflowData = [] := by
  refine ⟨?_, fun _ => ⟨rfl, rfl, rfl⟩, rfl, rfl, rfl⟩
  exact foldl_workflowReducer_active_iff actions initialState (by simp [initialState]) hwork

/-- C29 (amended), after starting the PAN workflow, recording the age and going
one step forward: the session is active and has a current workflow. -/
theorem reachable_active_iff_workflow_witness :
    ([WorkflowAction.startWorkflow (some panInfo), WorkflowAction.updateWorkflowData agePayload,
        WorkflowAction.nextStep].foldl workflowReducer initialState).isActive = true
      ↔ ([WorkflowAction.startWorkflow (some panInfo), WorkflowAction.updateWorkflowData agePayload,
        WorkflowAction.nextStep].foldl workflowReducer initialState).currentWorkflow ≠ none :=
  (reachable_active_iff_workflow
    [WorkflowAction.startWorkflow (some panInfo), WorkflowAction.updateWorkflowData agePayload,
      WorkflowAction.nextStep] (by decide)).1

/-! ## The retry route -/

/-- C30. In every store the backend can reach and for every caller and every
array of ids, `POST /sync/retry` answers, and it reprocesses only the caller's
own queue rows with status `failed` among the given ids: it pushes one result
per such row, in table order, and every other row is left as it is. Each
reprocessed row ends with status `synced` exactly when the result reported for
it is a success and otherwise stays `failed`; the reported result is a success
exactly when the reprocessing returned success and `queueItem.update` did not
throw. `successful` counts the successes. A failed item of type
`workflow_submission` or `profile_update` is reprocessed by the helper the bulk
endpoint uses for it, so it succeeds on retry whenever that helper succeeds;
an item of type `document_upload` never fails in the bulk endpoint, so no row
of the queue holds one. -/
theorem postRetry_reprocesses_failed_items (db : Db) (hreach : QueueReachable db)
    (userId : String) (ids : List String) (envOf : String → ItemEnv) :
    ∃ response, (postRetry userId db (some ids) none envOf).2 = .json response
      ∧ response.processed
        = (db.syncQueue.filter
            (fun q => ids.contains q.id && q.user_id == userId && q.status == "failed")).length
      ∧ response.results.map (fun r => r.syncId)
        = (db.syncQueue.filter
            (fun q => ids.contains q.id && q.user_id == userId && q.status == "failed")).map
            (fun q => q.id)
      ∧ response.successful
        = (response.results.filter (fun r => r.status == .success)).length
      ∧ (postRetry userId db (some ids) none envOf).1.syncQueue.map (fun q => q.id)
        = db.syncQueue.map (fun q => q.id)
      ∧ (∀ q ∈ db.syncQueue,
          ¬ (q.id ∈ ids ∧ q.user_id = userId ∧ q.status = "failed") →
          q ∈ (postRetry userId db (some ids) none envOf).1.syncQueue)
      ∧ (∀ q ∈ (postRetry userId db (some ids) none envOf).1.syncQueue,
          ∀ r ∈ response.results, r.syncId = q.id →
            (q.status = "synced" ↔ r.status = .success)
              ∧ (r.status ≠ .success → q.status = "failed"))
      ∧ (∀ (acc : RetryAcc) (q : QueueRow) (env : ItemEnv),
          ∃ pushed, (retryIteration userId acc q env).results = acc.results ++ [pushed]
            ∧ (pushed.status = .success
                ↔ ((dispatchRetry acc.db env userId q).2.status = .success
                    ∧ env.queueUpdateFault = none)))
      ∧ (∀ q ∈ db.syncQueue, q.data.type ≠ some "document_upload")
      ∧ (∀ q ∈ db.syncQueue, ∀ (db0 : Db) (env : ItemEnv),
          q.data.type = some "workflow_submission" ∨ q.data.type = some "profile_update" →
          dispatchRetry db0 env userId q
            = dispatchItem db0 env userId { q.data with id := some q.id }) := by
  have hinv := queueReachable_inv hreach
  obtain ⟨hsel1, hsel2⟩ := retry_selection db userId ids hinv.1
  obtain ⟨pushed, h1, h2, h3, h4, h5, -, h7⟩ :=
    forQueueItems_settles userId envOf _ { db := db, results := [], successful := 0 }
      hinv.1 hsel1 hsel2
  simp only [List.nil_append, Nat.zero_add] at h1 h7
  refine ⟨_, rfl, rfl, ?_, ?_, h3, ?_, ?_, ?_, hinv.2, ?_⟩
  · simp only [postRetry]
    rw [h1]
    exact h2
  · simp only [postRetry]
    rw [h1]
    exact h7
  · intro q hq hnot
    apply h4 q hq
    intro hmem
    rw [List.mem_map] at hmem
    obtain ⟨q1, hq1, hid⟩ := hmem
    have hq1mem := (hsel2 q1 hq1).1
    have hsame : q1 = q := queue_row_unique hinv.1 hq1mem hq hid
    subst hsame
    rw [List.mem_filter] at hq1
    have h := hq1.2
    simp only [Bool.and_eq_true, beq_iff_eq] at h
    exact hnot ⟨List.elem_iff.mp h.1.1, h.1.2, h.2⟩
  · intro q hq r hr hrq
    simp only [postRetry] at hr
    rw [h1] at hr
    have h := h5 q hq r hr hrq
    refine ⟨⟨?_, h.1⟩, h.2⟩
    intro hsynced
    by_contra hbad
    rw [h.2 hbad] at hsynced
    exact absurd hsynced (by decide)
  · intro acc q env
    obtain ⟨first, -, hres, -, -, -, -, -, -, hiff⟩ := retryIteration_cases userId acc q env
    exact ⟨first, hres, hiff⟩
  · intro q _ db0 env htype
    rcases htype with htype | htype
    · simp [dispatchRetry, dispatchItem, htype]
    · simp [dispatchRetry, dispatchItem, htype]

/-- C30, in the store reached by a bulk sync of the submission `L1` during which
the connection was lost: the item is queued as the failed row `q1`; a retry of
`q1` by its owner stores the workflow and marks the row `synced`, and a retry
by another user changes nothing. A profile update queued in the same way is
marked `synced` by a retry as well. -/
theorem postRetry_reprocesses_failed_items_witness :
    queuedDb.syncQueue.map (fun q => (q.id, q.user_id, q.data.type, q.status))
        = [("q1", "u1", some "workflow_submission", "failed")]
      ∧ (postRetry "u1" queuedDb (some ["q1"]) none (fun _ => laterEnv)).1.syncQueue.map
          (fun q => (q.id, q.status)) = [("q1", "synced")]
      ∧ (postRetry "u1" queuedDb (some ["q1"]) none (fun _ => laterEnv)).1.workflows.map
          (fun w => (w.id, w.workflow_type, w.status))
        = [("w2", "aadhaar-application", "completed")]
      ∧ (postRetry "u2" queuedDb (some ["q1"]) none (fun _ => laterEnv)).1 = queuedDb
      ∧ queuedProfileDb.syncQueue.map (fun q => (q.id, q.user_id, q.data.type, q.status))
        = [("q1", "u1", some "profile_update", "failed")]
      ∧ (postRetry "u1" queuedProfileDb (some ["q1"]) none (fun _ => laterEnv)).1.syncQueue.map
          (fun q => (q.id, q.status)) = [("q1", "synced")]
      ∧ ∃ response,
          (postRetry "u1" queuedDb (some ["q1"]) none (fun _ => laterEnv)).2 = .json response
            ∧ response.results.map (fun r => r.syncId)
              = (queuedDb.syncQueue.filter
                  (fun q => ["q1"].contains q.id && q.user_id == "u1" && q.status == "failed")).map
                  (fun q => q.id)
            ∧ response.successful
              = (response.results.filter (fun r => r.status == .success)).length :=
  ⟨by decide, by decide, by decide, by decide, by decide, by decide,
   Exists.imp (fun _ h => ⟨h.1, h.2.2.1, h.2.2.2.1⟩)
     (postRetry_reprocesses_failed_items queuedDb
       (QueueReachable.sync "u1" (some [(some submissionItem, faultyEnv)]) none 1700000999999
         (QueueReachable.init _ _ _))
       "u1" ["q1"] (fun _ => laterEnv))⟩

end Sahayta
